import Mathlib

/-!
# Session lifecycle and role-based access control of the supervision portal

A shallow embedding of the access-control and session code of `js/app.js`,
`js/auth.js`, `js/events.js`, `js/script.js` and `js/supabaseClient.js`, followed
by theorems about it.

Conventions of the embedding:

* a JavaScript string is a `String`; `String.prototype.includes` is substring
  containment (`includes`);
* `String.prototype.toLowerCase` is a built-in of the language, not code of the
  repository: every function that calls it takes it as the parameter `lower`;
  `asciiLower` is one concrete instance, used where a closed example is needed;
* a value that may be `null`/`undefined` is an `Option`;
* module-level `let` variables are the fields of `AuthState`; what a function does
  to the outside world (events emitted, navigation, gateway calls) is appended to
  `AuthState.trace`;
* an `async` function is followed to its end against the answers of what it
  awaits; where the moment of an `await` matters, the state at that suspension
  point is given separately (`fetchSuspensions`, `handlerSuspensions`), and the
  notification handler is also given cut at its suspension points
  (`handlerBegin`, `handlerResume`), so that overlapping runs can be followed.
-/

namespace Superone

/-! ## Strings -/

/-- Substring test on character lists: `pat` occurs in `s` at some offset. -/
def listIncludes (pat : List Char) : List Char → Bool
  | [] => pat.isPrefixOf []
  | c :: cs => pat.isPrefixOf (c :: cs) || listIncludes pat cs

/-- `s.includes(pat)` of JavaScript. -/
def includes (s pat : String) : Bool := listIncludes pat.data s.data

/-- ASCII instance of `toLowerCase` (agrees with the built-in on ASCII text). -/
def asciiLower (s : String) : String := ⟨s.data.map Char.toLower⟩

/-! ## `PathConfig` (js/script.js, lines 4-38) -/

namespace PathConfig

def LOGIN : String := "/login.html"
def RESET_PASSWORD_PAGE : String := "/reset-password.html"
def UNAUTHORIZED_PAGE : String := "/unauthorized.html"
def ADMIN_DASHBOARD : String := "/admin.html"
def STUDENT_DASHBOARD : String := "/student.html"
def SUPERVISOR_DASHBOARD : String := "/supervisor.html"
def COMMITTEE_DASHBOARD : String := "/committee-dashboard.html"
def THESIS_SUBMISSION : String := "/thesis-submission.html"
def THESIS_REVIEW : String := "/thesis-review.html"
def THESIS_MARKING : String := "/thesis-marking.html"
def ETHICS_FORM : String := "/ethics-form.html"
def ETHICS_REVIEW : String := "/ethics-review.html"
def MARKERS : String := "/markers.html"
def INDEX : String := "/index.html"

end PathConfig

/-! ## Data model -/

/-- A row of the `roles` table as selected by `roles (id, name, permissions)`;
`name` is `none` when the column is `null` or missing. -/
structure Role where
  id : Nat
  name : Option String
  deriving DecidableEq, Repr

/-- The joined `organizations (id, name)` record. -/
structure Organization where
  id : Nat
  name : String
  deriving DecidableEq, Repr

/-- The object stored in `authUserOrganizationData`:
`{ organization, roles, error? }`. `roles` is `none` when the property is absent. -/
structure OrgData where
  organization : Option Organization
  roles : Option (List Role)
  error : Option String
  deriving DecidableEq, Repr

/-- The guard `!orgData || !orgData.roles || orgData.roles.length === 0` used by
`checkPageAccess` and `handleRedirect`; `none` when it fires, the role list
otherwise. -/
def heldRoles (orgData : Option OrgData) : Option (List Role) :=
  match orgData with
  | none => none
  | some od =>
    match od.roles with
    | none => none
    | some [] => none
    | some (r :: rs) => some (r :: rs)

/-- The callback `role => role.name ? role.name.toLowerCase() : ''`
(app.js lines 132 and 164); the empty string is falsy. -/
def roleKey (lower : String → String) (role : Role) : String :=
  match role.name with
  | none => ""
  | some n => if n = "" then "" else lower n

/-! ## Access control (js/app.js) -/

/-- The object literal `pageAccessMap` of `checkPageAccess` as `Object.entries`
enumerates it: the keys are distinct non-numeric strings, so the enumeration is
the order of declaration. -/
def pageAccessMap : List (String × List String) :=
  [ (PathConfig.ADMIN_DASHBOARD, ["administrator"]),
    (PathConfig.SUPERVISOR_DASHBOARD, ["supervisor"]),
    (PathConfig.STUDENT_DASHBOARD, ["student"]),
    (PathConfig.COMMITTEE_DASHBOARD, ["committee member", "administrator"]),
    (PathConfig.MARKERS, ["marker", "supervisor", "administrator"]),
    (PathConfig.THESIS_SUBMISSION, ["student"]),
    (PathConfig.THESIS_REVIEW, ["supervisor", "committee member", "administrator"]),
    (PathConfig.THESIS_MARKING, ["marker", "supervisor", "administrator"]),
    (PathConfig.ETHICS_FORM, ["student"]),
    (PathConfig.ETHICS_REVIEW, ["supervisor", "committee member", "administrator"]) ]

/-- The `for (const [pagePath, requiredRoles] of Object.entries(pageAccessMap))`
loop of `checkPageAccess` with its early `return`, and the final `return true`. -/
def scanAccessMap (path : String) (roles : List String) :
    List (String × List String) → Bool
  | [] => true
  | (pagePath, requiredRoles) :: rest =>
    if includes path pagePath then
      roles.any (fun role => requiredRoles.contains role)
    else scanAccessMap path roles rest

/-- `checkPageAccess(path, orgData)` (app.js lines 156-190). -/
def checkPageAccess (lower : String → String) (path : String)
    (orgData : Option OrgData) : Bool :=
  match heldRoles orgData with
  | none =>
    let publicPages := [PathConfig.LOGIN, PathConfig.RESET_PASSWORD_PAGE]
    publicPages.any (fun page => includes path page)
  | some rs => scanAccessMap path (rs.map (roleKey lower)) pageAccessMap

/-- `routeUserToDashboard(orgData)` (app.js lines 126-148): the value assigned to
`window.location.href`. -/
def routeUserToDashboard (lower : String → String) (orgData : Option OrgData) :
    String :=
  match heldRoles orgData with
  | none => PathConfig.STUDENT_DASHBOARD
  | some rs =>
    let roles := rs.map (roleKey lower)
    if roles.contains "administrator" then PathConfig.ADMIN_DASHBOARD
    else if roles.contains "supervisor" then PathConfig.SUPERVISOR_DASHBOARD
    else if roles.contains "committee member" then PathConfig.COMMITTEE_DASHBOARD
    else if roles.contains "marker" then PathConfig.MARKERS
    else PathConfig.STUDENT_DASHBOARD

/-- What the routing branch of `initializeApp` does with the page. -/
inductive AppAction
  | redirect (href : String)
  | initializePage (path : String)
  deriving DecidableEq, Repr

/-- The routing branch of `initializeApp` (app.js lines 73-109): the assignment to
`window.location.href`, or the call of `initializeCurrentPage`. `orgData` is
`getUserOrganizationData() || null`. -/
def initializeAppRouting (lower : String → String) (isAuthenticated : Bool)
    (currentPath : String) (orgData : Option OrgData) : AppAction :=
  let isLoginPage : Bool :=
    currentPath == PathConfig.LOGIN || currentPath == "/" ++ PathConfig.LOGIN
  let isResetPasswordPage : Bool :=
    currentPath == PathConfig.RESET_PASSWORD_PAGE ||
      currentPath == "/" ++ PathConfig.RESET_PASSWORD_PAGE
  if isAuthenticated then
    if isLoginPage || isResetPasswordPage || currentPath == "/" ||
        currentPath == "/index.html" then
      .redirect (routeUserToDashboard lower orgData)
    else
      let hasAccess := checkPageAccess lower currentPath orgData
      if !hasAccess then .redirect (routeUserToDashboard lower orgData)
      else .initializePage currentPath
  else
    if !isLoginPage && !isResetPasswordPage then .redirect PathConfig.LOGIN
    else .initializePage currentPath

/-! ## Events and state of the auth module (js/events.js, js/auth.js) -/

namespace SystemEvents

def AUTH_MODULE_READY : String := "auth:module:ready"
def AUTH_STATE_CHANGED : String := "auth:state:changed"
def AUTH_LOGIN_SUCCESS : String := "auth:login:success"
def AUTH_LOGIN_FAILED : String := "auth:login:failed"
def AUTH_LOGOUT_SUCCESS : String := "auth:logout:success"
def AUTH_LOGOUT_FAILED : String := "auth:logout:failed"
def AUTH_ERROR : String := "auth:error"
def APP_LOADING : String := "app:loading"

end SystemEvents

namespace AUTH_ERRORS

def SUPABASE_NOT_AVAILABLE : String := "Supabase client not available"
def INVALID_CREDENTIALS : String := "Invalid credentials"
def NO_ROLE : String := "User has no assigned role or organization."

end AUTH_ERRORS

/-- The `user` object of a gateway session. -/
structure User where
  id : String
  email : String
  deriving DecidableEq, Repr

/-- A gateway session; `session?.user` may be missing. -/
structure Session where
  user : Option User
  deriving DecidableEq, Repr

/-- The `detail` objects passed to `window.emitEvent` by auth.js. -/
inductive Payload
  | ready (initialized : Bool) (user : Option User) (organization : Option OrgData)
  | loginSuccess (user : Option User) (organization : Option OrgData)
  | stateChanged (event : String) (user : Option User)
      (organization : Option OrgData)
  | error (context : String) (error : String)
  | loading (context : String) (loading : Bool)
  | loginFailed (error : String)
  deriving DecidableEq, Repr

/-- A value assigned to `window.location.href` by auth.js: a page of `PathConfig`,
or the template `LOGIN?error=encodeURIComponent(message)`. -/
inductive Href
  | page (path : String)
  | loginWithError (message : String)
  deriving DecidableEq, Repr

/-- What auth.js does to the world outside its variables, in program order. -/
inductive Effect
  | emit (name : String) (detail : Payload)
  | resolveWaiter (detail : Payload)
  | navigate (href : Href)
  | getSupabaseClient
  | onAuthStateChange
  | getSession
  | selectMembership (userId : String)
  | selectMemberRoles (memberId : Nat)
  | signInWithPassword (email : String)
  | signOut
  deriving DecidableEq, Repr

/-- The module variables of auth.js, the parts of `window` it reads, and the trace
of its effects. `readyWaiters` counts the one-shot `AUTH_MODULE_READY` listeners
registered by callers that found an initialization in progress. -/
structure AuthState where
  authSupabaseClient : Option Nat
  authCurrentUser : Option User
  authUserOrganizationData : Option OrgData
  authInitialized : Bool
  authInitializing : Bool
  userProfile : Bool
  login : Bool
  logout : Bool
  readyWaiters : Nat
  pathConfig : Bool
  pathname : String
  trace : List Effect
  deriving DecidableEq, Repr

/-- The state when auth.js is loaded on the page `pathname`. -/
def AuthState.initial (pathConfig : Bool) (pathname : String) : AuthState :=
  { authSupabaseClient := none, authCurrentUser := none,
    authUserOrganizationData := none, authInitialized := false,
    authInitializing := false, userProfile := false, login := false,
    logout := false, readyWaiters := 0,
    pathConfig := pathConfig, pathname := pathname, trace := [] }

/-- `window.emitEvent(name, detail)`: the event is dispatched synchronously; an
`AUTH_MODULE_READY` event resolves and removes every one-shot waiter. -/
def emitEvent (s : AuthState) (name : String) (detail : Payload) : AuthState :=
  if name = SystemEvents.AUTH_MODULE_READY then
    { s with
      trace := s.trace ++
        (Effect.emit name detail :: List.replicate s.readyWaiters (.resolveWaiter detail))
      readyWaiters := 0 }
  else { s with trace := s.trace ++ [Effect.emit name detail] }

/-- `window.location.href = href`. -/
def navigate (s : AuthState) (href : Href) : AuthState :=
  { s with trace := s.trace ++ [Effect.navigate href] }

/-! ### The organization/role store -/

/-- The `{ data, error }` object a store query resolves to; `error` carries
`error.message`. -/
structure Reply (α : Type) where
  data : α
  error : Option String

/-- A row of `organization_members` with its joined organization. -/
structure MemberRow where
  id : Nat
  organization_id : Option Nat
  organizations : Option Organization
  deriving DecidableEq, Repr

/-- A row of `member_roles` as selected by `roles (id, name, permissions)`. -/
structure MemberRoleRow where
  roles : Option Role
  deriving DecidableEq, Repr

/-- What the two store queries answer; `Except.error message` is a query whose
promise rejects with an `Error` of that message. -/
structure Store where
  membership : String → Except String (Reply (Option MemberRow))
  memberRoles : Nat → Except String (Reply (Option (List MemberRoleRow)))

/-- JavaScript truthiness of an identifier column (`null` and `0` are falsy). -/
def truthyId : Option Nat → Bool
  | some (_ + 1) => true
  | _ => false

/-- The `catch (error)` block of `fetchUserOrganizationRoles` (auth.js lines
189-195). -/
def fetchCatch (s : AuthState) (message : String) : AuthState × OrgData :=
  let od : OrgData := { organization := none, roles := some [], error := some message }
  let s1 := { s with authUserOrganizationData := some od, userProfile := false }
  (emitEvent s1 SystemEvents.AUTH_ERROR
    (.error "fetch_user_organization_roles" message), od)

/-- The branch `!orgMember || !orgMember.organization_id` of
`fetchUserOrganizationRoles` (auth.js lines 157-162). -/
def fetchNoMembership (s : AuthState) : AuthState × OrgData :=
  let od : OrgData := { organization := none, roles := some [], error := none }
  ({ s with authUserOrganizationData := some od, userProfile := false }, od)

/-- `fetchUserOrganizationRoles()` (auth.js lines 133-196), the two awaited store
queries being answered by `store`. Returns the new state and the returned
object. -/
def fetchUserOrganizationRoles (s : AuthState) (store : Store) :
    AuthState × OrgData :=
  match s.authSupabaseClient, s.authCurrentUser with
  | some _, some user =>
    let s1 := { s with userProfile := true,
                       trace := s.trace ++ [Effect.selectMembership user.id] }
    match store.membership user.id with
    | .error thrown => fetchCatch s1 thrown
    | .ok ⟨orgMember, memberError⟩ =>
      match memberError with
      | some message =>
        fetchCatch s1 ("Failed to fetch organization membership: " ++ message)
      | none =>
        match orgMember with
        | none => fetchNoMembership s1
        | some row =>
          if !truthyId row.organization_id then fetchNoMembership s1
          else
            let organization := row.organizations
            let memberId := row.id
            let s2 := { s1 with trace := s1.trace ++ [Effect.selectMemberRoles memberId] }
            match store.memberRoles memberId with
            | .error thrown => fetchCatch s2 thrown
            | .ok ⟨memberRoles, rolesError⟩ =>
              match rolesError with
              | some message =>
                fetchCatch s2 ("Failed to fetch member roles: " ++ message)
              | none =>
                let roles : List Role :=
                  match memberRoles with
                  | some rows => (rows.map (fun mr => mr.roles)).filterMap id
                  | none => []
                let od : OrgData :=
                  { organization := organization, roles := some roles, error := none }
                ({ s2 with authUserOrganizationData := some od, userProfile := false },
                  od)
  | _, _ =>
    let od : OrgData := { organization := none, roles := some [], error := none }
    ({ s with authUserOrganizationData := some od }, od)

/-! ### Role accessors -/

/-- An argument of `hasRole`: a string, or a value that has no `toLowerCase`
method (`null`, `undefined`, a number, ...). -/
inductive RoleArg
  | str (s : String)
  | malformed
  deriving DecidableEq, Repr

/-- `roles.some(role => role.name && role.name.toLowerCase() ===
roleName.toLowerCase())`; `Except.error` is the `TypeError` raised by
`roleName.toLowerCase()` on a malformed argument. -/
def someRoleNamed (lower : String → String) (roleName : RoleArg) :
    List Role → Except String Bool
  | [] => .ok false
  | role :: rest =>
    match role.name with
    | none => someRoleNamed lower roleName rest
    | some n =>
      if n = "" then someRoleNamed lower roleName rest
      else
        match roleName with
        | .malformed => .error "TypeError: roleName.toLowerCase is not a function"
        | .str m =>
          if lower n = lower m then .ok true
          else someRoleNamed lower roleName rest

/-- `hasRole(roleName)` (auth.js lines 377-382), reading
`authUserOrganizationData`. -/
def hasRole (lower : String → String) (s : AuthState) (roleName : RoleArg) :
    Except String Bool :=
  match s.authUserOrganizationData with
  | none => .ok false
  | some od =>
    match od.roles with
    | none => .ok false
    | some roles => someRoleNamed lower roleName roles

/-! ### Redirection and the notification handler -/

/-- `s.endsWith(post)` of JavaScript. -/
def endsWith (s post : String) : Bool := post.data.isSuffixOf s.data

/-- `orgData.roles.map(role => role.name.toLowerCase())` of `handleRedirect`
(auth.js line 229); `Except.error` is the `TypeError` raised on a role whose name
is missing. -/
def lowerNames (lower : String → String) : List Role → Except String (List String)
  | [] => .ok []
  | role :: rest =>
    match role.name with
    | none => .error "TypeError: Cannot read properties of null (reading 'toLowerCase')"
    | some n =>
      match lowerNames lower rest with
      | .error e => .error e
      | .ok names => .ok (lower n :: names)

/-- The `if`/`else if` chain that ends `handleRedirect` (auth.js lines 232-246):
the value assigned to `window.location.href` for the lower-cased role names. -/
def roleDashboard (roles : List String) : Href :=
  if roles.contains "admin" || roles.contains "administrator" then
    .page PathConfig.ADMIN_DASHBOARD
  else if roles.contains "supervisor" then .page PathConfig.SUPERVISOR_DASHBOARD
  else if roles.contains "student" then .page PathConfig.STUDENT_DASHBOARD
  else if roles.contains "committee" || roles.contains "committee member" then
    .page PathConfig.COMMITTEE_DASHBOARD
  else if roles.contains "marker" then .page PathConfig.MARKERS
  else .loginWithError "Your role does not have an assigned dashboard."

/-- The body of `handleRedirect(user, orgData)` (auth.js lines 199-247) as a
function of what it reads (`window.PathConfig`, `window.location.pathname` and its
arguments): the value it assigns to `window.location.href`, `none` when it
returns without an assignment, `Except.error` when an exception escapes. -/
def handleRedirectTarget (lower : String → String) (pathConfig : Bool)
    (pathname : String) (user : Option User) (orgData : Option OrgData) :
    Except String (Option Href) :=
  if !pathConfig then .ok none
  else
    let currentPath := if endsWith pathname "/" then pathname else pathname ++ "/"
    let loginPath :=
      if endsWith PathConfig.LOGIN "/" then PathConfig.LOGIN else PathConfig.LOGIN ++ "/"
    if currentPath != loginPath && currentPath != "/" && currentPath != "/index.html/" then
      .ok none
    else
      match user with
      | none =>
        if currentPath != loginPath then .ok (some (.page PathConfig.LOGIN))
        else .ok none
      | some _ =>
        match heldRoles orgData with
        | none => .ok (some (.loginWithError AUTH_ERRORS.NO_ROLE))
        | some rs =>
          match lowerNames lower rs with
          | .error e => .error e
          | .ok roles => .ok (some (roleDashboard roles))

/-- `handleRedirect(user, orgData)` run in the state `s`: the new state, and the
exception that escapes, if any. -/
def handleRedirect (lower : String → String) (s : AuthState) (user : Option User)
    (orgData : Option OrgData) : AuthState × Option String :=
  match handleRedirectTarget lower s.pathConfig s.pathname user orgData with
  | .error e => (s, some e)
  | .ok none => (s, none)
  | .ok (some href) => (navigate s href, none)

/-- The callback passed to `auth.onAuthStateChange` (auth.js lines 85-106), run for
one notification `(event, session)`; the role resolution it awaits is answered by
`store`. The second component is the exception that escapes, if any. -/
def authStateHandler (lower : String → String) (s : AuthState) (event : String)
    (session : Option Session) (store : Store) : AuthState × Option String :=
  let s1 := { s with authCurrentUser := session.bind (fun x => x.user) }
  match s1.authCurrentUser with
  | some _ =>
    let s2 := (fetchUserOrganizationRoles s1 store).1
    if event = "SIGNED_IN" then
      let s3 := emitEvent s2 SystemEvents.AUTH_LOGIN_SUCCESS
        (.loginSuccess s2.authCurrentUser s2.authUserOrganizationData)
      match handleRedirect lower s3 s3.authCurrentUser s3.authUserOrganizationData with
      | (s4, some e) => (s4, some e)
      | (s4, none) =>
        (emitEvent s4 SystemEvents.AUTH_STATE_CHANGED
          (.stateChanged event s4.authCurrentUser s4.authUserOrganizationData), none)
    else
      (emitEvent s2 SystemEvents.AUTH_STATE_CHANGED
        (.stateChanged event s2.authCurrentUser s2.authUserOrganizationData), none)
  | none =>
    let s2 := { s1 with authUserOrganizationData := none }
    let s3 :=
      if event = "SIGNED_OUT" then
        if s2.pathConfig && s2.pathname != PathConfig.LOGIN &&
            !endsWith s2.pathname PathConfig.LOGIN then
          navigate s2 (.page PathConfig.LOGIN)
        else s2
      else s2
    (emitEvent s3 SystemEvents.AUTH_STATE_CHANGED
      (.stateChanged event s3.authCurrentUser s3.authUserOrganizationData), none)

/-! ### The notification handler between its suspension points

`fetchUserOrganizationRoles` and the notification callback are `async`: at each
awaited store query the run is suspended, and other code (another run of the
callback, an initialization attempt) may read and write the module variables
before it is resumed. The definitions below cut the two functions at those
points; a resumed run reads the module variables as they are when it resumes. An
`await` of a call that returned without making a query is not counted as a
suspension point. -/

/-- Where a run of `fetchUserOrganizationRoles` is suspended: at the awaited
`organization_members` query, made for `userId`, or at the awaited `member_roles`
query, made for `memberId`, the joined organization being held in a local
variable. -/
inductive FetchPoint
  | membership (userId : String)
  | memberRoles (organization : Option Organization) (memberId : Nat)
  deriving DecidableEq, Repr

/-- The `message` of the `TypeError` raised by reading `property` of `null`. -/
def nullPropertyMessage (property : String) : String :=
  "Cannot read properties of null (reading '" ++ property ++ "')"

/-- `fetchUserOrganizationRoles()` from its call to its first `await` (auth.js
lines 133-149); no suspension point when it returns through its guard. -/
def fetchBegin (s : AuthState) : AuthState × Option FetchPoint :=
  match s.authSupabaseClient, s.authCurrentUser with
  | some _, some user =>
    ({ s with userProfile := true,
              trace := s.trace ++ [Effect.selectMembership user.id] },
      some (.membership user.id))
  | _, _ => ({ s with authUserOrganizationData := some ⟨none, some [], none⟩ }, none)

/-- The branch `!orgMember || !orgMember.organization_id` in a resumed run (auth.js
lines 157-162): its `console.warn` reads `authCurrentUser.id`, which raises a
`TypeError` inside the `try` block when the user has been cleared meanwhile. -/
def fetchNoMembershipResumed (s : AuthState) : AuthState :=
  match s.authCurrentUser with
  | some _ => (fetchNoMembership s).1
  | none => (fetchCatch s (nullPropertyMessage "id")).1

/-- `fetchUserOrganizationRoles()` resumed at `point` in the state `s`, the
awaited query being answered by `store`, up to the next `await` or to its
return. -/
def fetchResume (s : AuthState) (store : Store) : FetchPoint → AuthState × Option FetchPoint
  | .membership userId =>
    match store.membership userId with
    | .error thrown => ((fetchCatch s thrown).1, none)
    | .ok ⟨orgMember, memberError⟩ =>
      match memberError with
      | some message =>
        ((fetchCatch s ("Failed to fetch organization membership: " ++ message)).1, none)
      | none =>
        match orgMember with
        | none => (fetchNoMembershipResumed s, none)
        | some row =>
          if !truthyId row.organization_id then (fetchNoMembershipResumed s, none)
          else
            match s.authSupabaseClient with
            | none => ((fetchCatch s (nullPropertyMessage "from")).1, none)
            | some _ =>
              ({ s with trace := s.trace ++ [Effect.selectMemberRoles row.id] },
                some (.memberRoles row.organizations row.id))
  | .memberRoles organization memberId =>
    match store.memberRoles memberId with
    | .error thrown => ((fetchCatch s thrown).1, none)
    | .ok ⟨memberRoles, rolesError⟩ =>
      match rolesError with
      | some message =>
        ((fetchCatch s ("Failed to fetch member roles: " ++ message)).1, none)
      | none =>
        let roles : List Role :=
          match memberRoles with
          | some rows => (rows.map (fun mr => mr.roles)).filterMap id
          | none => []
        let od : OrgData :=
          { organization := organization, roles := some roles, error := none }
        ({ s with authUserOrganizationData := some od, userProfile := false }, none)

/-- A suspended run of the notification callback: the kind of the notification it
serves and the point at which the role resolution it awaits is suspended. -/
structure HandlerRun where
  event : String
  point : FetchPoint
  deriving DecidableEq, Repr

/-- The notification callback from the return of the awaited
`fetchUserOrganizationRoles()` to its end (auth.js lines 91-94 and 105); it reads
`authCurrentUser` and `authUserOrganizationData` as they are at that moment. The
second component is the exception that escapes, if any. -/
def handlerAfterFetch (lower : String → String) (s : AuthState) (event : String) :
    AuthState × Option String :=
  if event = "SIGNED_IN" then
    let s3 := emitEvent s SystemEvents.AUTH_LOGIN_SUCCESS
      (.loginSuccess s.authCurrentUser s.authUserOrganizationData)
    match handleRedirect lower s3 s3.authCurrentUser s3.authUserOrganizationData with
    | (s4, some e) => (s4, some e)
    | (s4, none) =>
      (emitEvent s4 SystemEvents.AUTH_STATE_CHANGED
        (.stateChanged event s4.authCurrentUser s4.authUserOrganizationData), none)
  else
    (emitEvent s SystemEvents.AUTH_STATE_CHANGED
      (.stateChanged event s.authCurrentUser s.authUserOrganizationData), none)

/-- The notification callback from its invocation with `(event, session)` to its
first suspension point or, when it awaits no query, to its end (auth.js lines
85-106). The components are the new state, the suspended run if any, and the
exception that escapes if any. -/
def handlerBegin (lower : String → String) (s : AuthState) (event : String)
    (session : Option Session) : AuthState × Option HandlerRun × Option String :=
  let s1 := { s with authCurrentUser := session.bind (fun x => x.user) }
  match s1.authCurrentUser with
  | some _ =>
    match fetchBegin s1 with
    | (s2, some point) => (s2, some ⟨event, point⟩, none)
    | (s2, none) => ((handlerAfterFetch lower s2 event).1, none,
        (handlerAfterFetch lower s2 event).2)
  | none =>
    let s2 := { s1 with authUserOrganizationData := none }
    let s3 :=
      if event = "SIGNED_OUT" then
        if s2.pathConfig && s2.pathname != PathConfig.LOGIN &&
            !endsWith s2.pathname PathConfig.LOGIN then
          navigate s2 (.page PathConfig.LOGIN)
        else s2
      else s2
    (emitEvent s3 SystemEvents.AUTH_STATE_CHANGED
      (.stateChanged event s3.authCurrentUser s3.authUserOrganizationData), none, none)

/-- A suspended run of the notification callback resumed in the state `s`, up to
its next suspension point or to its end. -/
def handlerResume (lower : String → String) (s : AuthState) (store : Store)
    (run : HandlerRun) : AuthState × Option HandlerRun × Option String :=
  match fetchResume s store run.point with
  | (s1, some point) => (s1, some ⟨run.event, point⟩, none)
  | (s1, none) => ((handlerAfterFetch lower s1 run.event).1, none,
      (handlerAfterFetch lower s1 run.event).2)

/-- A suspended run resumed until it ends, nothing else running between its
resumptions (it awaits two queries at most). -/
def handlerFinish (lower : String → String) (s : AuthState) (store : Store)
    (run : HandlerRun) : AuthState × Option String :=
  match handlerResume lower s store run with
  | (s1, none, e) => (s1, e)
  | (s1, some run1, _) =>
    ((handlerResume lower s1 store run1).1, (handlerResume lower s1 store run1).2.2)

/-- A run of the notification callback from its invocation to its end, nothing
else running while it is suspended. -/
def handlerAlone (lower : String → String) (s : AuthState) (event : String)
    (session : Option Session) (store : Store) : AuthState × Option String :=
  match handlerBegin lower s event session with
  | (s1, none, e) => (s1, e)
  | (s1, some run, _) => handlerFinish lower s1 store run

/-! ### Initialization -/

/-- What the identity gateway and the client module answer during one
initialization attempt: whether `getSupabaseClient` is a function, the handle it
returns, whether `auth.onAuthStateChange` throws, the `data.session` of the reply
`auth.getSession()` resolves to (`Except.error` when it rejects), the `error` of
that reply, and the store. `initializeAuthModule` destructures only
`data: { session }` (auth.js line 109) and never reads the `error`. -/
structure Gateway where
  clientFunction : Bool
  client : Option Nat
  subscribeThrows : Option String
  session : Except String (Option Session)
  sessionError : Option String
  store : Store

/-- What a call of `initializeAuthModule` gives its caller: the object the promise
resolves to (the already-initialized branch returns no `initialized` property), or
a promise that is pending until the next `AUTH_MODULE_READY` event. -/
inductive InitResult
  | value (initialized : Option Bool) (user : Option User)
      (organization : Option OrgData) (error : Option String)
  | pending
  deriving DecidableEq, Repr

/-- The `catch (error)` block of `initializeAuthModule` (auth.js lines 123-130). -/
def initCatch (s : AuthState) (message : String) : AuthState × InitResult :=
  let s1 := { s with authInitializing := false, authInitialized := false }
  (emitEvent s1 SystemEvents.AUTH_ERROR (.error "initialization" message),
    .value (some false) none none (some message))

/-- The statement `authInitializing = true` that opens an attempt (auth.js line
72). -/
def beginAttempt (s : AuthState) : AuthState :=
  { s with authInitializing := true }

/-- The `try` block of `initializeAuthModule` with its `catch` (auth.js lines
75-130), run to completion against the answers of `gw`. -/
def runAttempt (s : AuthState) (gw : Gateway) : AuthState × InitResult :=
  if !gw.clientFunction then
    initCatch s
      "getSupabaseClient function not available. Ensure supabaseClient.js is loaded."
  else
    let s1 := { s with authSupabaseClient := gw.client,
                       trace := s.trace ++ [Effect.getSupabaseClient] }
    match gw.client with
    | none => initCatch s1 "Failed to get Supabase client in auth module."
    | some _ =>
      let s2 := { s1 with trace := s1.trace ++ [Effect.onAuthStateChange] }
      match gw.subscribeThrows with
      | some thrown => initCatch s2 thrown
      | none =>
        let s3 := { s2 with trace := s2.trace ++ [Effect.getSession] }
        match gw.session with
        | .error thrown => initCatch s3 thrown
        | .ok session =>
          let s4 := { s3 with authCurrentUser := session.bind (fun x => x.user) }
          let s5 :=
            match s4.authCurrentUser with
            | some _ => (fetchUserOrganizationRoles s4 gw.store).1
            | none => s4
          let s6 := { s5 with authInitialized := true, authInitializing := false }
          (emitEvent s6 SystemEvents.AUTH_MODULE_READY
            (.ready true s6.authCurrentUser s6.authUserOrganizationData),
            .value (some true) s6.authCurrentUser s6.authUserOrganizationData none)

/-- `initializeAuthModule()` (auth.js lines 52-131). A call that finds an attempt
in progress only registers a one-shot `AUTH_MODULE_READY` listener and returns a
pending promise; a call that starts an attempt is followed here to the attempt's
end. -/
def initializeAuthModule (s : AuthState) (gw : Gateway) : AuthState × InitResult :=
  if s.authInitialized then
    (emitEvent s SystemEvents.AUTH_MODULE_READY
      (.ready true s.authCurrentUser s.authUserOrganizationData),
      .value none s.authCurrentUser s.authUserOrganizationData none)
  else if s.authInitializing then
    ({ s with readyWaiters := s.readyWaiters + 1 }, .pending)
  else runAttempt (beginAttempt s) gw

/-! ### Login and logout -/

/-- The `data` object of a `signInWithPassword` reply. -/
structure SignInData where
  user : Option User
  deriving DecidableEq, Repr

/-- The object a login or logout call resolves to: `{ success: true, user }`
(`user` absent for logout) or `{ success: false, error }`. -/
inductive CallResult
  | success (user : Option User)
  | failure (error : String)
  deriving DecidableEq, Repr

/-- The `finally` block of `loginWithEmailPassword` (auth.js lines 278-281). -/
def loginFinally (s : AuthState) : AuthState :=
  emitEvent { s with login := false } SystemEvents.APP_LOADING (.loading "login" false)

/-- `loginWithEmailPassword(email, password)` (auth.js lines 250-282), the awaited
`auth.signInWithPassword` being answered by `reply` (`Except.error message` when
it rejects with an `Error` of that message). -/
def loginWithEmailPassword (s : AuthState) (email : String)
    (reply : Except String (Reply SignInData)) : AuthState × CallResult :=
  match s.authSupabaseClient with
  | none => (s, .failure AUTH_ERRORS.SUPABASE_NOT_AVAILABLE)
  | some _ =>
    let s1 := emitEvent { s with login := true } SystemEvents.APP_LOADING
      (.loading "login" true)
    let s2 := { s1 with trace := s1.trace ++ [Effect.signInWithPassword email] }
    let caught (message : String) : AuthState × CallResult :=
      (loginFinally (emitEvent s2 SystemEvents.AUTH_LOGIN_FAILED (.loginFailed message)),
        .failure (if message = "" then AUTH_ERRORS.INVALID_CREDENTIALS else message))
    match reply with
    | .error thrown => caught thrown
    | .ok ⟨data, error⟩ =>
      match error with
      | some message => caught message
      | none => (loginFinally s2, .success data.user)

/-- The `finally` block of `logout` (auth.js lines 305-308). -/
def logoutFinally (s : AuthState) : AuthState :=
  emitEvent { s with logout := false } SystemEvents.APP_LOADING (.loading "logout" false)

/-- `logout()` (auth.js lines 284-309), the awaited `auth.signOut()` being
answered by `reply`: `Except.ok error` is the `error` property of the reply. -/
def logout (s : AuthState) (reply : Except String (Option String)) :
    AuthState × CallResult :=
  match s.authSupabaseClient with
  | none => (s, .failure AUTH_ERRORS.SUPABASE_NOT_AVAILABLE)
  | some _ =>
    let s1 := emitEvent { s with logout := true } SystemEvents.APP_LOADING
      (.loading "logout" true)
    let s2 := { s1 with trace := s1.trace ++ [Effect.signOut] }
    let caught (message : String) : AuthState × CallResult :=
      (logoutFinally (emitEvent s2 SystemEvents.AUTH_ERROR (.error "logout" message)),
        .failure message)
    match reply with
    | .error thrown => caught thrown
    | .ok (some message) => caught message
    | .ok none => (logoutFinally s2, .success none)

/-! ### Retries -/

/-- `AUTH_MAX_RETRIES` (auth.js line 29). -/
def AUTH_MAX_RETRIES : Nat := 3

/-- The `while (retries < maxRetries)` loop of `attempt` (auth.js lines 405-420).
`fn` is the awaited function acting on a state `σ`: `Except.error` is a rejection.
The result is `some (state, outcome)`: `Except.ok (some v)` when a call of `fn`
returned `v`, `Except.error e` when the last error is rethrown, `Except.ok none`
when the loop ends without a call (the function returns `undefined`). `none` is
running out of `fuel`. The delay between two tries is not modelled. -/
def attemptLoop {σ ε α : Type} (fn : σ → σ × Except ε α) (maxRetries : Nat) :
    Nat → Nat → σ → Option (σ × Except ε (Option α))
  | 0, _, _ => none
  | fuel + 1, retries, s =>
    if retries < maxRetries then
      match fn s with
      | (s', .ok v) => some (s', .ok (some v))
      | (s', .error e) =>
        if retries + 1 ≥ maxRetries then some (s', .error e)
        else attemptLoop fn maxRetries fuel (retries + 1) s'
    else some (s, .ok none)

/-- `attempt(fn, maxRetries)` (auth.js lines 405-420). -/
def attempt {σ ε α : Type} (fn : σ → σ × Except ε α) (maxRetries : Nat) (s : σ) :
    Option (σ × Except ε (Option α)) :=
  attemptLoop fn maxRetries (maxRetries + 1) 0 s

/-- `window.authModule.initialize`, that is `() => attempt(initializeAuthModule)`
(auth.js line 424). The state carries the number of calls of
`initializeAuthModule` made so far; the call number `i` is answered by the gateway
`gws i`. `initializeAuthModule` catches every exception itself, so the function
handed to `attempt` never rejects. -/
def authModuleInitialize (s : AuthState) (gws : Nat → Gateway) :
    Option ((AuthState × Nat) × Except String (Option InitResult)) :=
  attempt
    (fun (p : AuthState × Nat) =>
      (((initializeAuthModule p.1 (gws p.2)).1, p.2 + 1),
        (Except.ok (initializeAuthModule p.1 (gws p.2)).2 : Except String InitResult)))
    AUTH_MAX_RETRIES (s, 0)

/-! ## The event bus (js/events.js)

`window.emitEvent` and `window.onEvent` are thin wrappers around
`window.dispatchEvent` and `window.addEventListener`. The listener list of
`window` follows the DOM rules: a dispatch walks a snapshot of the list taken when
it starts, skips a listener removed in the meantime, and runs each callback to
completion (nested dispatches included) before the next one; an exception raised
by a callback is reported and does not stop the dispatch. -/

namespace EventBus

/-- What a callback passed to `onEvent` does with the bus when it is invoked with
a detail: it may call `window.emitEvent`, call `window.onEvent`, or raise an
exception (which ends the callback). -/
inductive Action (δ : Type) where
  | emit (name : String) (detail : δ)
  | subscribe (name : String) (once : Bool) (react : δ → List (Action δ))
  | raise

/-- A listener registered by `onEvent(eventName, callback, once)`: `id` numbers
the registrations, `react` is what `callback` does with the bus. -/
structure Listener (δ : Type) where
  id : Nat
  name : String
  once : Bool
  react : δ → List (Action δ)

/-- The listener list of `window` in registration order, the number of the next
registration, the callback invocations so far as (listener, detail) pairs, and
whether the call stack was exhausted. -/
structure Bus (δ : Type) where
  listeners : List (Listener δ)
  nextId : Nat
  delivered : List (Nat × δ)
  overflow : Bool

/-- The bus of a freshly loaded page. -/
def Bus.empty (δ : Type) : Bus δ :=
  { listeners := [], nextId := 0, delivered := [], overflow := false }

/-- `window.onEvent(eventName, callback, once)` (events.js lines 98-108): every
call wraps `callback` in a new function, so every call adds a listener. -/
def onEvent {δ : Type} (bus : Bus δ) (name : String) (react : δ → List (Action δ))
    (once : Bool) : Bus δ :=
  { bus with
    listeners := bus.listeners ++ [⟨bus.nextId, name, once, react⟩]
    nextId := bus.nextId + 1 }

/-- `window.emitEvent(eventName, data)` (events.js lines 82-90) with `fuel` levels
of call stack. Each listener of the snapshot that is still registered has its
callback invoked with the detail; a one-shot listener (`oneTimeHandler`) is
removed after its callback returned normally. -/
def emitEvent {δ : Type} : Nat → Bus δ → String → δ → Bus δ
  | 0, bus, _, _ => { bus with overflow := true }
  | fuel + 1, bus, name, detail =>
    (bus.listeners.filter (fun l => l.name == name)).foldl
      (fun b l =>
        if b.listeners.any (fun l' => l'.id == l.id) then
          let b1 := { b with delivered := b.delivered ++ [(l.id, detail)] }
          let r := (l.react detail).foldl
            (fun (st : Bus δ × Bool) a =>
              if st.2 then
                match a with
                | .emit n d => (emitEvent fuel st.1 n d, true)
                | .subscribe n once react => (onEvent st.1 n react once, true)
                | .raise => (st.1, false)
              else st)
            (b1, true)
          if l.once && r.2 then
            { r.1 with listeners := r.1.listeners.filter (fun l' => l'.id != l.id) }
          else r.1
        else b)
      bus

/-- One action of a callback, run with `fuel` levels of call stack left; the flag
tells whether the callback is still running (no exception so far). -/
def act {δ : Type} (fuel : Nat) (st : Bus δ × Bool) (a : Action δ) : Bus δ × Bool :=
  if st.2 then
    match a with
    | .emit n d => (emitEvent fuel st.1 n d, true)
    | .subscribe n once react => (onEvent st.1 n react once, true)
    | .raise => (st.1, false)
  else st

/-- The turn of one listener of the snapshot in a dispatch of `detail`. -/
def deliver {δ : Type} (fuel : Nat) (detail : δ) (b : Bus δ) (l : Listener δ) : Bus δ :=
  if b.listeners.any (fun l' => l'.id == l.id) then
    let r := (l.react detail).foldl (act fuel)
      ({ b with delivered := b.delivered ++ [(l.id, detail)] }, true)
    if l.once && r.2 then
      { r.1 with listeners := r.1.listeners.filter (fun l' => l'.id != l.id) }
    else r.1
  else b

/-- The identifiers of the listeners registered for `name`, in registration
order. -/
def subscribers {δ : Type} (bus : Bus δ) (name : String) : List Nat :=
  (bus.listeners.filter (fun l => l.name == name)).map (fun l => l.id)

/-- An action is a call of `window.emitEvent`. -/
def Action.isEmit {δ : Type} : Action δ → Bool
  | .emit _ _ => true
  | _ => false

/-- The bookkeeping of the bus is consistent: registrations are numbered without
repetition below `nextId`, and every recorded invocation is of a registration
already made. -/
def Bus.WellFormed {δ : Type} (bus : Bus δ) : Prop :=
  (bus.listeners.map (fun l => l.id)).Nodup ∧
  (∀ l ∈ bus.listeners, l.id < bus.nextId) ∧
  (∀ p ∈ bus.delivered, p.1 < bus.nextId)

/-- The listeners registered for `name`, in registration order. -/
def listenersFor {δ : Type} (bus : Bus δ) (name : String) : List (Listener δ) :=
  bus.listeners.filter (fun l => l.name == name)

/-- The bus `b` is a later state of the bus `b0`, `extra` being the invocations
recorded in between: registrations made since are numbered from `b0.nextId` on,
and a listener of `b0` that is no longer registered is a one-shot listener that
was invoked in between. -/
def Bus.Extends {δ : Type} (b0 b : Bus δ) (extra : List (Nat × δ)) : Prop :=
  b.delivered = b0.delivered ++ extra ∧
  b0.nextId ≤ b.nextId ∧
  (∀ l ∈ b.listeners, l ∈ b0.listeners ∨ b0.nextId ≤ l.id) ∧
  (∀ l ∈ b0.listeners, l ∈ b.listeners ∨ (l.once = true ∧ ∃ d, (l.id, d) ∈ extra))

/-- A one-shot listener that, handed detail 1, emits the same event with detail
2. -/
def echoOnce : Listener Nat :=
  ⟨0, "e", true, fun d => if d = 1 then [.emit "e" 2] else []⟩

/-- A one-shot listener that only receives. -/
def quietOnce : Listener Nat := ⟨1, "e", true, fun _ => []⟩

/-- A bus with the two one-shot listeners above registered for `"e"`. -/
def nestedBus : Bus Nat := ⟨[echoOnce, quietOnce], 2, [], false⟩

/-- A bus with one permanent and one one-shot silent listener for `"e"`, and a
listener for another event. -/
def plainBus : Bus Nat :=
  onEvent (onEvent (onEvent (Bus.empty Nat) "e" (fun _ => []) false)
    "other" (fun _ => []) false) "e" (fun _ => []) true

end EventBus

/-- The role list behind the guard of `checkPageAccess`, empty when the guard
fires. -/
def roleList (orgData : Option OrgData) : List Role :=
  match orgData with
  | none => []
  | some od => od.roles.getD []

/-- The principal holds the role `k`: some role of the list has a name whose
lower-cased form is `k`. -/
def holdsRole (lower : String → String) (orgData : Option OrgData) (k : String) :
    Prop :=
  ∃ r ∈ roleList orgData, ∃ n, r.name = some n ∧ lower n = k

/-- The same context with every role name rewritten by `f`. -/
def renameRoles (f : String → String) (orgData : Option OrgData) : Option OrgData :=
  orgData.map fun od =>
    { od with roles := od.roles.map (List.map fun r => { r with name := r.name.map f }) }

/-! ## The page bootstrapper (js/app.js, `initializeApp`) -/

namespace SystemEvents

def APP_INIT_STARTED : String := "app:init:started"
def APP_INIT_COMPLETE : String := "app:init:complete"
def SUPABASE_CLIENT_INITIALIZED : String := "supabase:client:initialized"
def SUPABASE_CLIENT_ERROR : String := "supabase:client:error"

end SystemEvents

/-- What `initializeApp` does to the page, in program order. -/
inductive AppEffect
  | showErrorMessage (message : String)
  | emit (name : String)
  | showLoadingIndicator (message : String)
  | hideLoadingIndicator
  | authInitialize
  | redirect (href : String)
  | initializeCurrentPage (path : String)
  deriving DecidableEq, Repr

/-- What `initializeApp` finds when it runs: whether `window.SystemEvents` and
`window.PathConfig` are defined, whether `getSupabaseClient()` returns a handle,
whether `window.authModule` is defined and initialized on entry, whether
`AUTH_MODULE_READY` fires before the 5 s timeout, the state of the auth module
when its accessors are read (lines 66-68), `window.location.pathname`, and
whether `initializeCurrentPage` returns or throws. -/
structure AppEnv where
  systemEvents : Bool
  pathConfig : Bool
  supabaseClient : Bool
  authModule : Bool
  authInitialized : Bool
  readyInTime : Bool
  auth : AuthState
  currentPath : String
  pageInit : Except String Unit

/-- The `catch (error)` block of `initializeApp` (app.js lines 115-119). -/
def appCatch : List AppEffect :=
  [.showErrorMessage "Failed to initialize application. Please try refreshing the page.",
    .hideLoadingIndicator]

/-- `initializeApp()` (app.js lines 5-120). -/
def initializeApp (lower : String → String) (env : AppEnv) : List AppEffect :=
  if !env.systemEvents then
    [.showErrorMessage "Critical system file (events.js) missing. Please contact support."]
  else if !env.pathConfig then
    [.showErrorMessage "Critical system file (PathConfig) missing. Please contact support."]
  else
    [.emit SystemEvents.APP_INIT_STARTED, .showLoadingIndicator "Initializing system..."] ++
    if !env.supabaseClient then appCatch
    else
      let wait : List AppEffect :=
        if env.authModule && env.authInitialized then []
        else if env.authModule then [.authInitialize] else []
      let isAuthenticated : Bool := env.authModule && env.auth.authCurrentUser.isSome
      let orgData : Option OrgData :=
        if env.authModule then env.auth.authUserOrganizationData else none
      wait ++
        match initializeAppRouting lower isAuthenticated env.currentPath orgData with
        | .redirect href =>
          [.redirect href, .emit SystemEvents.APP_INIT_COMPLETE, .hideLoadingIndicator]
        | .initializePage path =>
          match env.pageInit with
          | .ok _ =>
            [.initializeCurrentPage path, .emit SystemEvents.APP_INIT_COMPLETE,
              .hideLoadingIndicator]
          | .error _ => .initializeCurrentPage path :: appCatch

/-! ## The client module (js/supabaseClient.js) -/

/-- `MAX_RETRIES` (supabaseClient.js line 16). -/
def MAX_RETRIES : Nat := 3

/-- The module variables of supabaseClient.js; a handle is the number of the
`supabase.createClient` call that made it, `created` counts those calls. -/
structure ClientState where
  supabaseClientInstance : Option Nat
  connectionVerified : Bool
  initializing : Bool
  created : Nat
  deriving DecidableEq, Repr

/-- What the page provides to the client module: whether the `supabase` SDK is
loaded, whether URL and key are configured, whether `createClient` throws. -/
structure ClientEnv where
  sdkLoaded : Bool
  configured : Bool
  createThrows : Bool
  deriving DecidableEq, Repr

/-- The state when supabaseClient.js is loaded. -/
def ClientState.initial : ClientState :=
  { supabaseClientInstance := none, connectionVerified := false,
    initializing := false, created := 0 }

/-- `getSupabaseClient()` (supabaseClient.js lines 23-85): the new state and the
value returned (`none` for `null`). -/
def getSupabaseClient (env : ClientEnv) (c : ClientState) : ClientState × Option Nat :=
  match c.supabaseClientInstance with
  | some handle => (c, some handle)
  | none =>
    if c.initializing then (c, none)
    else if !env.sdkLoaded then ({ c with initializing := false }, none)
    else if !env.configured then ({ c with initializing := false }, none)
    else if env.createThrows then ({ c with initializing := false }, none)
    else
      ({ c with supabaseClientInstance := some c.created, created := c.created + 1,
                initializing := false }, some c.created)

/-- `verifyConnection()` (supabaseClient.js lines 91-121), the awaited query being
answered by `reply` (`true` when it resolves without error). `Except.error` is
the exception thrown when no client exists. -/
def verifyConnection (c : ClientState) (reply : Bool) : ClientState × Except String Bool :=
  if c.connectionVerified then (c, .ok true)
  else
    match c.supabaseClientInstance with
    | none => (c, .error "Supabase client not initialized")
    | some _ =>
      if reply then ({ c with connectionVerified := true }, .ok true)
      else ({ c with connectionVerified := false }, .ok false)

/-- The `while (retries < MAX_RETRIES)` loop of `initializeWithRetries`
(supabaseClient.js lines 127-155), `fuel` bounding the iterations; the try number
`i` has its connection check answered by `replies i`. -/
def initializeWithRetriesLoop (env : ClientEnv) (replies : Nat → Bool) :
    Nat → Nat → ClientState → ClientState × Option Nat
  | 0, _, c => (c, none)
  | fuel + 1, retries, c =>
    if retries < MAX_RETRIES then
      let r := getSupabaseClient env c
      let connected : ClientState × Bool :=
        match r.2 with
        | some _ =>
          match verifyConnection r.1 (replies retries) with
          | (c', .ok b) => (c', b)
          | (c', .error _) => (c', false)
        | none => (r.1, false)
      if r.2.isSome && connected.2 then (connected.1, r.2)
      else
        initializeWithRetriesLoop env replies fuel (retries + 1)
          { connected.1 with supabaseClientInstance := none }
    else (c, none)

/-- `initializeWithRetries()` (supabaseClient.js lines 127-155). -/
def initializeWithRetries (env : ClientEnv) (replies : Nat → Bool) (c : ClientState) :
    ClientState × Option Nat :=
  initializeWithRetriesLoop env replies (MAX_RETRIES + 1) 0 c

/-! ### Vocabulary of the claims on role resolution -/

/-- A store query fails: its promise rejects, or its reply carries an error. -/
def queryFails {α : Type} : Except String (Reply α) → Bool
  | .error _ => true
  | .ok r => r.error.isSome

/-- The membership of the principal: the row answered by the membership query
when that query does not fail and the row carries an organization id. -/
def membershipOf (store : Store) (userId : String) : Option MemberRow :=
  match store.membership userId with
  | .error _ => none
  | .ok r =>
    match r.error, r.data with
    | none, some row => if truthyId row.organization_id then some row else none
    | _, _ => none

/-- Either lookup of role resolution fails: the membership query, or the role
query made for the membership found. -/
def resolutionFails (store : Store) (userId : String) : Bool :=
  queryFails (store.membership userId) ||
    match membershipOf store userId with
    | some row => queryFails (store.memberRoles row.id)
    | none => false

/-- The `roles` columns of the rows answered by the role query for a membership,
`null` ones included, in the order of the reply. -/
def roleRows (store : Store) (row : MemberRow) : List (Option Role) :=
  match store.memberRoles row.id with
  | .ok r => (r.data.getD []).map fun mr => mr.roles
  | .error _ => []

/-- An operation of the Session Manager that writes `authUserOrganizationData`. -/
inductive AuthOp
  | notification (event : String) (session : Option Session) (store : Store)
  | resolve (store : Store)
  | initializeCall (gw : Gateway)

/-- The state after the operation. -/
def AuthOp.run (lower : String → String) (s : AuthState) : AuthOp → AuthState
  | .notification event session store => (authStateHandler lower s event session store).1
  | .resolve store => (fetchUserOrganizationRoles s store).1
  | .initializeCall gw => (initializeAuthModule s gw).1

/-- The operation is answered by a store whose lookups for its principal do not
fail. -/
def AuthOp.resolves (s : AuthState) : AuthOp → Bool
  | .notification _ session store =>
    match session.bind (fun x => x.user) with
    | some user => !resolutionFails store user.id
    | none => false
  | .resolve store =>
    match s.authCurrentUser with
    | some user => !resolutionFails store user.id
    | none => false
  | .initializeCall gw =>
    match gw.session with
    | .ok session =>
      match session.bind (fun x => x.user) with
      | some user => !resolutionFails gw.store user.id
      | none => false
    | .error _ => false

/-- The state after a sequence of operations. -/
def runOps (lower : String → String) (s : AuthState) : List AuthOp → AuthState
  | [] => s
  | op :: rest => runOps lower (op.run lower s) rest

/-- No operation of the sequence is a resolution that succeeds. -/
def noneResolves (lower : String → String) (s : AuthState) : List AuthOp → Prop
  | [] => True
  | op :: rest => op.resolves s = false ∧ noneResolves lower (op.run lower s) rest

/-- The state of `fetchUserOrganizationRoles` once the queries `queries` have
been issued. -/
def querying (s : AuthState) (queries : List Effect) : AuthState :=
  { s with userProfile := true, trace := s.trace ++ queries }

/-- The state in which `fetchUserOrganizationRoles` publishes `od` after the
queries `queries`. -/
def published (s : AuthState) (queries : List Effect) (od : OrgData) : AuthState :=
  { s with authUserOrganizationData := some od, userProfile := false,
           trace := s.trace ++ queries }

/-- The state of an initialization attempt after the session check answered
`user`: the handle is stored and the three gateway calls are on the trace. -/
def sessionChecked (s : AuthState) (client : Option Nat) (user : Option User) :
    AuthState :=
  { s with authSupabaseClient := client, authCurrentUser := user,
           trace := s.trace ++ [Effect.getSupabaseClient] ++ [Effect.onAuthStateChange]
             ++ [Effect.getSession] }

/-! ### Vocabulary of the claims on initialization -/

/-- An effect is a call to the gateway made by an initialization attempt: handle
acquisition, notification subscription or session check. -/
def Effect.isGatewayCall : Effect → Bool
  | .getSupabaseClient => true
  | .onAuthStateChange => true
  | .getSession => true
  | _ => false

/-- The gateway calls of a trace, in order. -/
def gatewayCalls (trace : List Effect) : List Effect :=
  trace.filter Effect.isGatewayCall

/-- The gateway calls one attempt makes against `gw`: it stops at the first step
that fails. -/
def attemptCalls (gw : Gateway) : List Effect :=
  if !gw.clientFunction then []
  else if gw.client.isNone then [Effect.getSupabaseClient]
  else if gw.subscribeThrows.isSome then
    [Effect.getSupabaseClient, Effect.onAuthStateChange]
  else [Effect.getSupabaseClient, Effect.onAuthStateChange, Effect.getSession]

/-- The state after a sequence of `initializeAuthModule()` calls, the call `i`
being answered by the gateway `gws[i]` should it start an attempt. -/
def initializeCalls (s : AuthState) (gws : List Gateway) : AuthState :=
  gws.foldl (fun st gw => (initializeAuthModule st gw).1) s

/-- An initialization attempt against `gw` fails: the handle is unavailable, or
the subscription or the session check throws. -/
def attemptFails (gw : Gateway) : Bool :=
  !gw.clientFunction || gw.client.isNone || gw.subscribeThrows.isSome ||
    match gw.session with
    | .error _ => true
    | .ok _ => false

/-- The session check fails or throws: the reply of `auth.getSession()` carries
an error, or its promise rejects. -/
def sessionCheckFails (gw : Gateway) : Bool :=
  gw.sessionError.isSome ||
    match gw.session with
    | .error _ => true
    | .ok _ => false

/-! ### Vocabulary of the claims on notifications -/

/-- The values assigned to `window.location.href` along a trace, in order. -/
def navigations (trace : List Effect) : List Href :=
  trace.filterMap fun e =>
    match e with
    | .navigate href => some href
    | _ => none

/-- The events emitted along a trace, in order. -/
def emitted (trace : List Effect) : List (String × Payload) :=
  trace.filterMap fun e =>
    match e with
    | .emit name detail => some (name, detail)
    | _ => none

/-- The pathname is that of the login page or of the root page, with or without a
trailing slash (the empty pathname counts as the root). -/
def onLoginOrRootPage (pathname : String) : Prop :=
  pathname ∈ ["/login.html", "/login.html/", "/", "", "/index.html", "/index.html/"]

/-- A state that differs from `s` by what a role resolution writes: the
organization data, the `userProfile` loading flag and more trace. -/
def resolved (s : AuthState) (od : OrgData) (up : Bool) (extra : List Effect) :
    AuthState :=
  { s with authUserOrganizationData := some od, userProfile := up,
           trace := s.trace ++ extra }

/-- A sequence of `SIGNED_OUT` notifications, each with its session and the store
that would answer a role resolution. -/
def signedOutNotifications (notes : List (Option Session × Store)) : List AuthOp :=
  notes.map fun n => AuthOp.notification "SIGNED_OUT" n.1 n.2

/-- The state in which the notification handler resolves the roles of `user`. -/
def withUser (s : AuthState) (user : User) : AuthState :=
  { s with authCurrentUser := some user }

/-! ### Vocabulary of the claims on subscriptions and joined callers -/

/-- The number of registrations of the notification callback along a trace. -/
def subscriptions (trace : List Effect) : Nat :=
  trace.count Effect.onAuthStateChange

/-- An attempt against `gw` fails after it has registered the notification
callback: the registration call itself or the session check throws. -/
def failsAfterSubscribing (gw : Gateway) : Bool :=
  gw.clientFunction && gw.client.isSome &&
    (gw.subscribeThrows.isSome ||
      match gw.session with
      | .error _ => true
      | .ok _ => false)

/-- The promises of joined callers resolved along a trace. -/
def resolvedWaiters (trace : List Effect) : List Payload :=
  trace.filterMap fun e =>
    match e with
    | .resolveWaiter detail => some detail
    | _ => none

/-! ### Vocabulary of the claims on retries -/

/-- The state after `k` calls of `fn` made one after the other from `s`. -/
def stateAfter {σ ε α : Type} (fn : σ → σ × Except ε α) : Nat → σ → σ
  | 0, s => s
  | k + 1, s => stateAfter fn k (fn s).1

/-- The outcome of the call number `k` (from 0) of `fn` in such a run. -/
def outcomeAt {σ ε α : Type} (fn : σ → σ × Except ε α) (k : Nat) (s : σ) : Except ε α :=
  (fn (stateAfter fn k s)).2

/-! ### Vocabulary of the claims on the client module -/

/-- An operation of the client module. -/
inductive ClientOp
  | get
  | verify (reply : Bool)
  | retries (replies : Nat → Bool)

/-- The state after the operation. -/
def ClientOp.run (env : ClientEnv) (c : ClientState) : ClientOp → ClientState
  | .get => (getSupabaseClient env c).1
  | .verify reply => (verifyConnection c reply).1
  | .retries replies => (initializeWithRetries env replies c).1

/-- The operation never reaches the statement that clears the instance: it is
not `initializeWithRetries`, or the connection is already verified, or the first
connection check succeeds. -/
def ClientOp.keeps (c : ClientState) : ClientOp → Bool
  | .get => true
  | .verify _ => true
  | .retries replies => c.connectionVerified || replies 0

/-- The state after a sequence of operations. -/
def runClientOps (env : ClientEnv) (c : ClientState) : List ClientOp → ClientState
  | [] => c
  | op :: rest => runClientOps env (op.run env c) rest

/-- Every operation of the sequence keeps the instance. -/
def allKeep (env : ClientEnv) (c : ClientState) : List ClientOp → Prop
  | [] => True
  | op :: rest => op.keeps c = true ∧ allKeep env (op.run env c) rest

/-! ### Vocabulary of the claims on the page bootstrapper -/

/-- The pathname is one of the two forms of the login page or of the
reset-password page that `initializeApp` recognises. -/
def isLoginOrResetPage (path : String) : Bool :=
  path == PathConfig.LOGIN || path == "/" ++ PathConfig.LOGIN ||
    path == PathConfig.RESET_PASSWORD_PAGE || path == "/" ++ PathConfig.RESET_PASSWORD_PAGE

/-- The pathname is that of the root page. -/
def isRootPage (path : String) : Bool :=
  path == "/" || path == "/index.html"

/-- The action the routing rule of the specification gives for
(authenticated, path, roles), clause by clause. -/
def specifiedAction (lower : String → String) (authenticated : Bool) (path : String)
    (orgData : Option OrgData) : AppAction :=
  if !authenticated && !isLoginOrResetPage path then .redirect PathConfig.LOGIN
  else if !authenticated then .initializePage path
  else if isLoginOrResetPage path || isRootPage path then
    .redirect (routeUserToDashboard lower orgData)
  else if checkPageAccess lower path orgData then .initializePage path
  else .redirect (routeUserToDashboard lower orgData)

/-- The effect that carries out an action. -/
def AppAction.effect : AppAction → AppEffect
  | .redirect href => .redirect href
  | .initializePage path => .initializeCurrentPage path

/-- The page initializer is called and throws. -/
def pageInitializerThrows (action : AppAction) (pageInit : Except String Unit) : Bool :=
  match action, pageInit with
  | .initializePage _, .error _ => true
  | _, _ => false

/-- What `initializeApp` does after the routing action: the `catch` block when
the page initializer threw, else `APP_INIT_COMPLETE` and the end of loading. -/
def completion (action : AppAction) (pageInit : Except String Unit) : List AppEffect :=
  if pageInitializerThrows action pageInit then appCatch
  else [.emit SystemEvents.APP_INIT_COMPLETE, .hideLoadingIndicator]

/-- What `window.authModule?.isAuthenticated() || false` evaluates to. -/
def AppEnv.isAuthenticated (env : AppEnv) : Bool :=
  env.authModule && env.auth.authCurrentUser.isSome

/-- What `window.authModule?.getUserOrganizationData() || null` evaluates to. -/
def AppEnv.orgData (env : AppEnv) : Option OrgData :=
  if env.authModule then env.auth.authUserOrganizationData else none

/-- The bounded wait for `AUTH_MODULE_READY` elapses without the event: the auth
module is loaded, not initialized on entry, and the event does not fire in time. -/
def AppEnv.timedOut (env : AppEnv) : Bool :=
  env.authModule && !env.authInitialized && !env.readyInTime

/-- The events among the effects. -/
def appEmitted (effects : List AppEffect) : List String :=
  effects.filterMap fun e =>
    match e with
    | .emit name => some name
    | _ => none

/-- The redirections among the effects. -/
def appRedirects (effects : List AppEffect) : List String :=
  effects.filterMap fun e =>
    match e with
    | .redirect href => some href
    | _ => none

/-! ### Vocabulary of the claims on the published context -/

/-- The states of the module at the suspension points of
`fetchUserOrganizationRoles` (auth.js lines 145-149 and 167-170): the two awaited
store queries. -/
def fetchSuspensions (s : AuthState) (store : Store) : List AuthState :=
  match s.authSupabaseClient, s.authCurrentUser with
  | some _, some user =>
    let s1 := querying s [Effect.selectMembership user.id]
    match store.membership user.id with
    | .ok ⟨some row, none⟩ =>
      if !truthyId row.organization_id then [s1]
      else [s1, querying s [Effect.selectMembership user.id, Effect.selectMemberRoles row.id]]
    | _ => [s1]
  | _, _ => []

/-- The states of the module at the suspension points of the notification handler
(auth.js lines 85-89): those of the role resolution it awaits after it has stored
the user of the session. -/
def handlerSuspensions (s : AuthState) (session : Option Session) (store : Store) :
    List AuthState :=
  let s1 := { s with authCurrentUser := session.bind (fun x => x.user) }
  match s1.authCurrentUser with
  | some _ => fetchSuspensions s1 store
  | none => []

/-! ### Example inputs -/

/-- A state with a gateway handle and a signed-in user, on the student page. -/
def signedIn : AuthState :=
  { AuthState.initial true "/student.html" with
    authSupabaseClient := some 1, authCurrentUser := some ⟨"u1", "a@b.c"⟩ }

/-- A gateway that hands out handle 1 and reports no session. -/
def anonymousGateway : Gateway :=
  { clientFunction := true, client := some 1, subscribeThrows := none,
    session := .ok none, sessionError := none,
    store := { membership := fun _ => .ok ⟨none, none⟩,
               memberRoles := fun _ => .ok ⟨none, none⟩ } }

/-- A gateway whose client module hands out no handle. -/
def unavailableGateway : Gateway :=
  { clientFunction := true, client := none, subscribeThrows := none,
    session := .ok none, sessionError := none,
    store := { membership := fun _ => .ok ⟨none, none⟩,
               memberRoles := fun _ => .ok ⟨none, none⟩ } }

/-- A state with a gateway handle and nobody signed in, on the page `pathname`. -/
def onPage (pathname : String) : AuthState :=
  { AuthState.initial true pathname with authSupabaseClient := some 1 }

/-- A session of the user `u1`. -/
def someSession : Option Session := some ⟨some ⟨"u1", "a@b.c"⟩⟩

/-- A store with a membership in organization 3 and an administrator role. -/
def administratorStore : Store :=
  { membership := fun _ => .ok ⟨some ⟨5, some 3, some ⟨3, "Faculty"⟩⟩, none⟩
    memberRoles := fun _ => .ok ⟨some [⟨some ⟨1, some "administrator"⟩⟩], none⟩ }

/-- A store with a membership in organization 3 and a role row whose name is
`null`. -/
def namelessStore : Store :=
  { membership := fun _ => .ok ⟨some ⟨5, some 3, some ⟨3, "Faculty"⟩⟩, none⟩
    memberRoles := fun _ => .ok ⟨some [⟨some ⟨1, none⟩⟩], none⟩ }

/-- A store whose membership query is rejected. -/
def failingStore : Store :=
  { membership := fun _ => .error "network down"
    memberRoles := fun _ => .ok ⟨none, none⟩ }

/-- A store with a membership row that carries no organization id, and an
administrator role row for that membership. -/
def orphanStore : Store :=
  { membership := fun _ => .ok ⟨some ⟨5, none, none⟩, none⟩
    memberRoles := fun _ => .ok ⟨some [⟨some ⟨1, some "administrator"⟩⟩], none⟩ }

/-- A store with a membership in organization 3 and no role row. -/
def roleLessStore : Store :=
  { membership := fun _ => .ok ⟨some ⟨5, some 3, some ⟨3, "Faculty"⟩⟩, none⟩
    memberRoles := fun _ => .ok ⟨some [], none⟩ }

/-- A store with a membership in organization 3 and two role rows, one `null`. -/
def supervisorStore : Store :=
  { membership := fun _ => .ok ⟨some ⟨5, some 3, some ⟨3, "Faculty"⟩⟩, none⟩
    memberRoles := fun _ =>
      .ok ⟨some [⟨none⟩, ⟨some ⟨2, some "Supervisor"⟩⟩], none⟩ }

/-- A gateway that hands out handle 1 and whose session check resolves to a reply
without session and with an error. -/
def sessionErrorGateway : Gateway :=
  { clientFunction := true, client := some 1, subscribeThrows := none,
    session := .ok none, sessionError := some "network down",
    store := { membership := fun _ => .ok ⟨none, none⟩,
               memberRoles := fun _ => .ok ⟨none, none⟩ } }

/-- A gateway that hands out handle 1 and whose session check is rejected. -/
def sessionFailsGateway : Gateway :=
  { clientFunction := true, client := some 1, subscribeThrows := none,
    session := .error "network down", sessionError := none,
    store := { membership := fun _ => .ok ⟨none, none⟩,
               memberRoles := fun _ => .ok ⟨none, none⟩ } }

/-- The context of a principal who is both student and committee member. -/
def studentCommittee : Option OrgData :=
  some ⟨some ⟨3, "Faculty"⟩, some [⟨1, some "student"⟩, ⟨2, some "committee member"⟩], none⟩

/-- The context of a principal without membership. -/
def noMembership : Option OrgData := some ⟨none, some [], none⟩

/-- A function that fails on its first two calls and then returns the number of
calls made before; its state counts the calls. -/
def thirdTimeLucky (n : Nat) : Nat × Except String Nat :=
  (n + 1, if n < 2 then .error "not yet" else .ok n)

/-- A page with the SDK loaded and configured. -/
def workingEnv : ClientEnv := { sdkLoaded := true, configured := true, createThrows := false }

/-- The organization data of a member of organization 3 with the administrator
role. -/
def administratorData : Option OrgData :=
  some ⟨some ⟨3, "Faculty"⟩, some [⟨1, some "administrator"⟩], none⟩

/-- A page with every script loaded, on `path`, whose auth module is initialized
and holds `auth`, and whose page initializer ends as `pageInit`. -/
def loadedPage (path : String) (auth : AuthState) (pageInit : Except String Unit) :
    AppEnv :=
  { systemEvents := true, pathConfig := true, supabaseClient := true,
    authModule := true, authInitialized := true, readyInTime := true,
    auth := auth, currentPath := path, pageInit := pageInit }

/-- An administrator on the administrator dashboard. -/
def administratorOnDashboard : AuthState :=
  { signedIn with pathname := "/admin.html", authUserOrganizationData := administratorData }

/-- The auth module in the middle of an initialization attempt on the
administrator dashboard: the session check has answered the user `u1` and the
role resolution has not answered yet. -/
def awaitingRoles : AuthState :=
  querying (sessionChecked (beginAttempt (AuthState.initial true "/admin.html")) (some 1)
    (some ⟨"u1", "a@b.c"⟩)) [Effect.selectMembership "u1"]

/-- A page on which the wait for `AUTH_MODULE_READY` times out while the auth
module is in the state `awaitingRoles`. -/
def timedOutPage : AppEnv :=
  { systemEvents := true, pathConfig := true, supabaseClient := true,
    authModule := true, authInitialized := false, readyInTime := false,
    auth := awaitingRoles, currentPath := "/admin.html", pageInit := .ok () }

/-- A store in which `u1` is an administrator of organization 3 and nobody else
is a member of anything. -/
def perUserStore : Store :=
  { membership := fun id =>
      if id = "u1" then .ok ⟨some ⟨5, some 3, some ⟨3, "Faculty"⟩⟩, none⟩
      else .ok ⟨none, none⟩
    memberRoles := fun _ => .ok ⟨some [⟨some ⟨1, some "administrator"⟩⟩], none⟩ }

/-- The state after the handler has served `SIGNED_IN` for `u1` against
`perUserStore` on the administrator dashboard. -/
def administratorSignedIn : AuthState :=
  (authStateHandler asciiLower (onPage "/admin.html") "SIGNED_IN" someSession
    perUserStore).1

/-- A session of the user `u2`. -/
def otherSession : Option Session := some ⟨some ⟨"u2", "c@d.e"⟩⟩

/-- The state in which the run of the handler for `SIGNED_IN` of `u1`, started on
the administrator dashboard, is suspended at its membership query. -/
def firstRunSuspended : AuthState :=
  (handlerBegin asciiLower (onPage "/admin.html") "SIGNED_IN" someSession).1

/-- The state after a second run, for `SIGNED_IN` of `u2`, has started and ended
while the first run was suspended. -/
def secondRunEnded : AuthState :=
  (handlerAlone asciiLower firstRunSuspended "SIGNED_IN" otherSession perUserStore).1

/-- The state after the first run has then been resumed to its end. -/
def firstRunEnded : AuthState :=
  (handlerFinish asciiLower secondRunEnded perUserStore ⟨"SIGNED_IN", .membership "u1"⟩).1

/-! ## Lemmas on the access-control functions -/

theorem listIncludes_iff (pat s : List Char) :
    listIncludes pat s = true ↔ pat <:+: s := by
  induction s with
  | nil =>
    cases pat <;> simp [listIncludes, List.isPrefixOf]
  | cons c cs ih =>
    simp only [listIncludes, Bool.or_eq_true, ih, List.isPrefixOf_iff_prefix,
      List.infix_cons_iff]

theorem includes_iff (s pat : String) :
    includes s pat = true ↔ pat.data <:+: s.data :=
  listIncludes_iff pat.data s.data

theorem heldRoles_eq_none_iff (orgData : Option OrgData) :
    heldRoles orgData = none ↔ roleList orgData = [] := by
  rcases orgData with _ | ⟨org, roles, err⟩
  · simp [heldRoles, roleList]
  · rcases roles with _ | _ | ⟨r, rs⟩ <;> simp [heldRoles, roleList]

theorem heldRoles_of_ne_nil (orgData : Option OrgData) (h : roleList orgData ≠ []) :
    heldRoles orgData = some (roleList orgData) := by
  rcases orgData with _ | ⟨org, roles, err⟩
  · simp [roleList] at h
  · rcases roles with _ | _ | ⟨r, rs⟩ <;> simp_all [heldRoles, roleList]

theorem scanAccessMap_append (path : String) (roles : List String)
    (l₁ l₂ : List (String × List String))
    (h : ∀ e ∈ l₁, includes path e.1 = false) :
    scanAccessMap path roles (l₁ ++ l₂) = scanAccessMap path roles l₂ := by
  induction l₁ with
  | nil => rfl
  | cons e l ih =>
    obtain ⟨p, req⟩ := e
    have hp : includes path p = false := h (p, req) (List.mem_cons_self _ _)
    simp only [List.cons_append, scanAccessMap, hp, Bool.false_eq_true, if_false]
    exact ih (fun e he => h e (List.mem_cons_of_mem _ he))

theorem roleKey_mem_iff (lower : String → String) (hlower : lower "" = "")
    (req : List String) (hreq : "" ∉ req) (role : Role) :
    roleKey lower role ∈ req ↔ ∃ n, role.name = some n ∧ lower n ∈ req := by
  obtain ⟨id, name⟩ := role
  rcases name with _ | n
  · simp [roleKey, hreq]
  · by_cases hn : n = ""
    · subst hn
      simp [roleKey, hreq, hlower]
    · simp [roleKey, hn]

theorem pageAccessMap_required_nonempty :
    ∀ e ∈ pageAccessMap, "" ∉ e.2 := by decide

theorem checkPageAccess_of_roles (lower : String → String) (path : String)
    (orgData : Option OrgData) (h : roleList orgData ≠ []) :
    checkPageAccess lower path orgData
      = scanAccessMap path ((roleList orgData).map (roleKey lower)) pageAccessMap := by
  simp [checkPageAccess, heldRoles_of_ne_nil orgData h]

theorem routeUserToDashboard_of_roles (lower : String → String)
    (orgData : Option OrgData) :
    routeUserToDashboard lower orgData =
      (let roles := (roleList orgData).map (roleKey lower)
       if roles.contains "administrator" then PathConfig.ADMIN_DASHBOARD
       else if roles.contains "supervisor" then PathConfig.SUPERVISOR_DASHBOARD
       else if roles.contains "committee member" then PathConfig.COMMITTEE_DASHBOARD
       else if roles.contains "marker" then PathConfig.MARKERS
       else PathConfig.STUDENT_DASHBOARD) := by
  by_cases h : roleList orgData = []
  · have h' := (heldRoles_eq_none_iff orgData).2 h
    simp [routeUserToDashboard, h', h]
  · simp [routeUserToDashboard, heldRoles_of_ne_nil orgData h]

theorem mem_roleKeys_iff (lower : String → String) (hlower : lower "" = "")
    (orgData : Option OrgData) (k : String) (hk : k ≠ "") :
    k ∈ (roleList orgData).map (roleKey lower) ↔ holdsRole lower orgData k := by
  have hreq : "" ∉ [k] := by simpa using fun h => hk h.symm
  simp only [List.mem_map, holdsRole]
  constructor
  · rintro ⟨r, hr, rfl⟩
    obtain ⟨n, hn, hmem⟩ :=
      (roleKey_mem_iff lower hlower [roleKey lower r] hreq r).1 (by simp)
    exact ⟨r, hr, n, hn, by simpa using hmem⟩
  · rintro ⟨r, hr, n, hn, rfl⟩
    refine ⟨r, hr, ?_⟩
    have := (roleKey_mem_iff lower hlower [lower n] hreq r).2 ⟨n, hn, by simp⟩
    simpa using this

theorem roleKeys_renameRoles (lower f : String → String) (hlower : lower "" = "")
    (hf : ∀ n, lower (f n) = lower n) (orgData : Option OrgData) :
    (roleList (renameRoles f orgData)).map (roleKey lower)
      = (roleList orgData).map (roleKey lower) := by
  have hkey : ∀ r : Role, roleKey lower { r with name := r.name.map f } = roleKey lower r := by
    rintro ⟨id, name⟩
    rcases name with _ | n
    · rfl
    · simp only [roleKey, Option.map_some']
      by_cases h2 : n = ""
      · subst h2
        by_cases h1 : f "" = ""
        · simp [h1]
        · simp [h1, hf, hlower]
      · by_cases h1 : f n = ""
        · have := hf n
          rw [h1, hlower] at this
          simp [h1, h2, ← this]
        · simp [h1, h2, hf]
  rcases orgData with _ | ⟨org, roles, err⟩
  · rfl
  · rcases roles with _ | rs
    · rfl
    · simp [renameRoles, roleList, List.map_map, Function.comp_def, hkey]

theorem contains_roleKeys_iff (lower : String → String) (hlower : lower "" = "")
    (orgData : Option OrgData) (k : String) (hk : k ≠ "") :
    ((roleList orgData).map (roleKey lower)).contains k = true
      ↔ holdsRole lower orgData k := by
  rw [← mem_roleKeys_iff lower hlower orgData k hk]
  simp [List.contains_iff_exists_mem_beq]

theorem routeUserToDashboard_congr (lower : String → String)
    (o o' : Option OrgData)
    (h : ∀ k, k ≠ "" → ((roleList o').map (roleKey lower)).contains k
      = ((roleList o).map (roleKey lower)).contains k) :
    routeUserToDashboard lower o' = routeUserToDashboard lower o := by
  rw [routeUserToDashboard_of_roles, routeUserToDashboard_of_roles]
  simp only [h "administrator" (by decide), h "supervisor" (by decide),
    h "committee member" (by decide), h "marker" (by decide)]

/-! ## Lemmas on role resolution -/

theorem emitEvent_of_ne (s : AuthState) (name : String) (detail : Payload)
    (h : name ≠ SystemEvents.AUTH_MODULE_READY) :
    emitEvent s name detail = { s with trace := s.trace ++ [Effect.emit name detail] } := by
  simp [emitEvent, h]

theorem fetchCatch_eq (s : AuthState) (message : String) :
    fetchCatch s message =
      (published s [Effect.emit SystemEvents.AUTH_ERROR
          (.error "fetch_user_organization_roles" message)] ⟨none, some [], some message⟩,
        ⟨none, some [], some message⟩) := by
  simp only [fetchCatch]
  rw [emitEvent_of_ne _ _ _ (by decide)]
  rfl

/-- The three ways `fetchUserOrganizationRoles` ends when a handle and a user are
present: a failed lookup, no membership, a membership with its role rows. -/
theorem fetch_cases (s : AuthState) (store : Store) (handle : Nat) (user : User)
    (hc : s.authSupabaseClient = some handle) (hu : s.authCurrentUser = some user) :
    (resolutionFails store user.id = true ∧
      ∃ message queries,
        (queries = [Effect.selectMembership user.id] ∨
          ∃ row, membershipOf store user.id = some row ∧
            queries = [Effect.selectMembership user.id, Effect.selectMemberRoles row.id]) ∧
        fetchUserOrganizationRoles s store =
          fetchCatch (querying s queries) message) ∨
    (resolutionFails store user.id = false ∧ membershipOf store user.id = none ∧
      fetchUserOrganizationRoles s store =
        fetchNoMembership (querying s [Effect.selectMembership user.id])) ∨
    (resolutionFails store user.id = false ∧
      ∃ row, membershipOf store user.id = some row ∧
        fetchUserOrganizationRoles s store =
          (published s [Effect.selectMembership user.id, Effect.selectMemberRoles row.id]
              ⟨row.organizations, some ((roleRows store row).filterMap id), none⟩,
            ⟨row.organizations, some ((roleRows store row).filterMap id), none⟩)) := by
  rcases hm : store.membership user.id with thrown | ⟨orgMember, memberError⟩
  · left
    refine ⟨by simp [resolutionFails, queryFails, hm], thrown, _, Or.inl rfl, ?_⟩
    simp [querying, published, fetchUserOrganizationRoles, hc, hu, hm]
  · rcases memberError with _ | message
    · rcases orgMember with _ | row
      · right; left
        refine ⟨by simp [resolutionFails, queryFails, membershipOf, hm],
          by simp [membershipOf, hm], ?_⟩
        simp [querying, published, fetchUserOrganizationRoles, hc, hu, hm]
      · by_cases hid : truthyId row.organization_id = true
        · have hmem : membershipOf store user.id = some row := by
            simp [membershipOf, hm, hid]
          rcases hr : store.memberRoles row.id with thrown | ⟨memberRoles, rolesError⟩
          · left
            refine ⟨by simp [resolutionFails, queryFails, hm, hmem, hr], thrown, _,
              Or.inr ⟨row, hmem, rfl⟩, ?_⟩
            simp [querying, published, fetchUserOrganizationRoles, hc, hu, hm, hid, hr]
          · rcases rolesError with _ | message
            · right; right
              refine ⟨by simp [resolutionFails, queryFails, hm, hmem, hr], row, hmem, ?_⟩
              rcases memberRoles with _ | rows <;>
                simp [querying, published, fetchUserOrganizationRoles, hc, hu, hm, hid, hr, roleRows]
            · left
              refine ⟨by simp [resolutionFails, queryFails, hm, hmem, hr],
                "Failed to fetch member roles: " ++ message, _,
                Or.inr ⟨row, hmem, rfl⟩, ?_⟩
              simp [querying, published, fetchUserOrganizationRoles, hc, hu, hm, hid, hr]
        · right; left
          refine ⟨by simp [resolutionFails, queryFails, membershipOf, hm, hid],
            by simp [membershipOf, hm, hid], ?_⟩
          simp [querying, published, fetchUserOrganizationRoles, hc, hu, hm, hid]
    · left
      refine ⟨by simp [resolutionFails, queryFails, hm],
        "Failed to fetch organization membership: " ++ message, _, Or.inl rfl, ?_⟩
      simp [querying, published, fetchUserOrganizationRoles, hc, hu, hm]

theorem fetch_without_principal (s : AuthState) (store : Store)
    (h : s.authSupabaseClient = none ∨ s.authCurrentUser = none) :
    fetchUserOrganizationRoles s store =
      ({ s with authUserOrganizationData := some ⟨none, some [], none⟩ },
        ⟨none, some [], none⟩) := by
  rcases hc : s.authSupabaseClient with _ | handle
  · simp [fetchUserOrganizationRoles, hc]
  · rcases hu : s.authCurrentUser with _ | user
    · simp [fetchUserOrganizationRoles, hc, hu]
    · rcases h with h | h
      · rw [hc] at h; cases h
      · rw [hu] at h; cases h

@[simp] theorem emitEvent_orgData (s : AuthState) (name : String) (detail : Payload) :
    (emitEvent s name detail).authUserOrganizationData = s.authUserOrganizationData := by
  unfold emitEvent
  split <;> rfl

@[simp] theorem navigate_orgData (s : AuthState) (href : Href) :
    (navigate s href).authUserOrganizationData = s.authUserOrganizationData := rfl

theorem handleRedirect_state (lower : String → String) (s : AuthState)
    (user : Option User) (orgData : Option OrgData) :
    (handleRedirect lower s user orgData).1 = s ∨
      ∃ href, (handleRedirect lower s user orgData).1 = navigate s href := by
  unfold handleRedirect
  split
  · exact Or.inl rfl
  · exact Or.inl rfl
  · exact Or.inr ⟨_, rfl⟩

theorem handleRedirect_orgData (lower : String → String) (s : AuthState)
    (user : Option User) (orgData : Option OrgData) :
    (handleRedirect lower s user orgData).1.authUserOrganizationData
      = s.authUserOrganizationData := by
  rcases handleRedirect_state lower s user orgData with h | ⟨href, h⟩ <;> rw [h]
  rfl

theorem fetch_roleList_nil (s : AuthState) (store : Store)
    (h : ∀ user, s.authCurrentUser = some user → resolutionFails store user.id = true) :
    roleList (fetchUserOrganizationRoles s store).1.authUserOrganizationData = [] := by
  rcases hc : s.authSupabaseClient with _ | handle
  · rw [fetch_without_principal s store (Or.inl hc)]; rfl
  · rcases hu : s.authCurrentUser with _ | user
    · rw [fetch_without_principal s store (Or.inr hu)]; rfl
    · have hf := h user hu
      rcases fetch_cases s store handle user hc hu with
        ⟨_, message, queries, _, he⟩ | ⟨hn, _⟩ | ⟨hn, _⟩
      · rw [he, fetchCatch_eq]; rfl
      · rw [hf] at hn; cases hn
      · rw [hf] at hn; cases hn

theorem authStateHandler_orgData (lower : String → String) (s : AuthState)
    (event : String) (session : Option Session) (store : Store) :
    (authStateHandler lower s event session store).1.authUserOrganizationData =
      match session.bind (fun x => x.user) with
      | some user =>
        (fetchUserOrganizationRoles { s with authCurrentUser := some user }
          store).1.authUserOrganizationData
      | none => none := by
  rcases hu : session.bind (fun x => x.user) with _ | user
  · simp only [authStateHandler, hu, emitEvent_orgData]
    split_ifs <;> rfl
  · simp only [authStateHandler, hu]
    split_ifs
    · split
      · rename_i heq
        have h1 := congrArg (fun p : AuthState × Option String =>
          p.1.authUserOrganizationData) heq
        simp only [handleRedirect_orgData, emitEvent_orgData] at h1
        exact h1.symm
      · rename_i heq
        have h1 := congrArg (fun p : AuthState × Option String =>
          p.1.authUserOrganizationData) heq
        simp only [handleRedirect_orgData, emitEvent_orgData] at h1
        simp only [emitEvent_orgData]
        exact h1.symm
    · simp only [emitEvent_orgData]

theorem runAttempt_orgData (s : AuthState) (gw : Gateway) :
    (runAttempt s gw).1.authUserOrganizationData = s.authUserOrganizationData ∨
    ∃ session user s', gw.session = .ok session ∧
      session.bind (fun x => x.user) = some user ∧ s'.authCurrentUser = some user ∧
      (runAttempt s gw).1.authUserOrganizationData
        = (fetchUserOrganizationRoles s' gw.store).1.authUserOrganizationData := by
  rcases hf : gw.clientFunction with _ | _
  · left; simp [runAttempt, hf, initCatch]
  · rcases hc : gw.client with _ | handle
    · left; simp [runAttempt, hf, hc, initCatch]
    · rcases ht : gw.subscribeThrows with _ | thrown
      · rcases hs : gw.session with thrown | session
        · left; simp [runAttempt, hf, hc, ht, hs, initCatch]
        · rcases hu : session.bind (fun x => x.user) with _ | user
          · left; simp [runAttempt, hf, hc, ht, hs, hu]
          · right
            refine ⟨session, user, sessionChecked s gw.client (some user), rfl, hu, rfl, ?_⟩
            simp only [runAttempt, hf, hc, ht, hs, hu, emitEvent_orgData]
            rfl
      · left; simp [runAttempt, hf, hc, ht, initCatch]

theorem run_roleList_nil (lower : String → String) (s : AuthState) (op : AuthOp)
    (h : op.resolves s = false) (hs : roleList s.authUserOrganizationData = []) :
    roleList (op.run lower s).authUserOrganizationData = [] := by
  cases op with
  | resolve store =>
    apply fetch_roleList_nil
    intro user hu
    simpa [AuthOp.resolves, hu] using h
  | notification event session store =>
    simp only [AuthOp.run, authStateHandler_orgData]
    rcases hu : session.bind (fun x => x.user) with _ | user
    · rfl
    · apply fetch_roleList_nil
      intro user' hu'
      have : user' = user := by simpa using hu'.symm
      subst this
      simpa [AuthOp.resolves, hu] using h
  | initializeCall gw =>
    simp only [AuthOp.run, initializeAuthModule]
    split_ifs
    · simpa using hs
    · exact hs
    · rcases runAttempt_orgData (beginAttempt s) gw with h1 | ⟨session, user, s', h1, h2, h3, h4⟩
      · rw [h1]; exact hs
      · rw [h4]
        apply fetch_roleList_nil
        intro user' hu'
        have : user' = user := by
          rw [h3] at hu'
          simpa using hu'.symm
        subst this
        simpa [AuthOp.resolves, h1, h2] using h

theorem noneResolves_take (lower : String → String) (ops : List AuthOp) :
    ∀ (s : AuthState) (k : Nat), noneResolves lower s ops →
      noneResolves lower s (ops.take k) := by
  induction ops with
  | nil => intro s k _; simp [noneResolves]
  | cons op rest ih =>
    intro s k h
    cases k with
    | zero => simp [noneResolves]
    | succ k => exact ⟨h.1, ih _ k h.2⟩

theorem runOps_roleList_nil (lower : String → String) (ops : List AuthOp) :
    ∀ s : AuthState, noneResolves lower s ops →
      roleList s.authUserOrganizationData = [] →
      roleList (runOps lower s ops).authUserOrganizationData = [] := by
  induction ops with
  | nil => intro s _ hs; exact hs
  | cons op rest ih =>
    intro s h hs
    exact ih _ h.2 (run_roleList_nil lower s op h.1 hs)

theorem map_some_filterMap_id {α : Type} (l : List (Option α)) :
    (l.filterMap id).map some = l.filter (fun x => x.isSome) := by
  induction l with
  | nil => rfl
  | cons x rest ih =>
    cases x with
    | none => simpa using ih
    | some a => simp [ih]

theorem membershipOf_eq_none_iff (store : Store) (userId : String)
    (reply : Reply (Option MemberRow)) (h : store.membership userId = .ok reply)
    (he : reply.error = none) :
    membershipOf store userId = none ↔
      (reply.data = none ∨
        ∃ row, reply.data = some row ∧ truthyId row.organization_id = false) := by
  obtain ⟨data, error⟩ := reply
  simp only at he
  subst he
  rcases data with _ | row
  · simp [membershipOf, h]
  · by_cases hid : truthyId row.organization_id = true
    · simp [membershipOf, h, hid]
    · simp [membershipOf, h, hid]

theorem filterMap_id_eq_nil_iff {α : Type} (l : List (Option α)) :
    l.filterMap id = [] ↔ ∀ x ∈ l, x = none := by
  induction l with
  | nil => simp
  | cons x rest ih =>
    cases x with
    | none => simp
    | some a => simp

/-! ## Lemmas on initialization -/

theorem gatewayCalls_append (t u : List Effect) :
    gatewayCalls (t ++ u) = gatewayCalls t ++ gatewayCalls u := by
  simp [gatewayCalls]

theorem gatewayCalls_emitEvent (s : AuthState) (name : String) (detail : Payload) :
    gatewayCalls (emitEvent s name detail).trace = gatewayCalls s.trace := by
  have hrep : ∀ n : Nat,
      gatewayCalls (List.replicate n (Effect.resolveWaiter detail)) = [] := by
    intro n
    induction n with
    | zero => rfl
    | succ n ih =>
      rw [List.replicate_succ]
      simp [gatewayCalls, Effect.isGatewayCall]
  unfold emitEvent
  split
  · simp only [gatewayCalls_append]
    rw [show (Effect.emit name detail ::
        List.replicate s.readyWaiters (Effect.resolveWaiter detail))
        = [Effect.emit name detail] ++
          List.replicate s.readyWaiters (Effect.resolveWaiter detail) from rfl,
      gatewayCalls_append, hrep]
    simp [gatewayCalls, Effect.isGatewayCall]
  · simp [gatewayCalls_append, gatewayCalls, Effect.isGatewayCall]

theorem gatewayCalls_fetch (s : AuthState) (store : Store) :
    gatewayCalls (fetchUserOrganizationRoles s store).1.trace = gatewayCalls s.trace := by
  rcases hc : s.authSupabaseClient with _ | handle
  · rw [fetch_without_principal s store (Or.inl hc)]
  · rcases hu : s.authCurrentUser with _ | user
    · rw [fetch_without_principal s store (Or.inr hu)]
    · rcases fetch_cases s store handle user hc hu with
        ⟨_, message, queries, hq, he⟩ | ⟨_, _, he⟩ | ⟨_, row, _, he⟩
      · rw [he, fetchCatch_eq]
        rcases hq with rfl | ⟨row, _, rfl⟩ <;>
          simp [published, querying, gatewayCalls, Effect.isGatewayCall]
      · rw [he]
        simp [fetchNoMembership, querying, gatewayCalls, Effect.isGatewayCall]
      · rw [he]
        simp [published, gatewayCalls, Effect.isGatewayCall]

theorem gatewayCalls_runAttempt (s : AuthState) (gw : Gateway) :
    gatewayCalls (runAttempt s gw).1.trace = gatewayCalls s.trace ++ attemptCalls gw := by
  rcases hf : gw.clientFunction with _ | _
  · simp [runAttempt, attemptCalls, hf, initCatch, gatewayCalls_emitEvent]
  · rcases hc : gw.client with _ | handle
    · simp [runAttempt, attemptCalls, hf, hc, initCatch, gatewayCalls_emitEvent,
        gatewayCalls_append]
      rfl
    · rcases ht : gw.subscribeThrows with _ | thrown
      · rcases hs : gw.session with thrown | session
        · simp [runAttempt, attemptCalls, hf, hc, ht, hs, initCatch,
            gatewayCalls_emitEvent, gatewayCalls_append]
          rfl
        · rcases hu : session.bind (fun x => x.user) with _ | user
          · simp [runAttempt, attemptCalls, hf, hc, ht, hs, hu,
              gatewayCalls_emitEvent, gatewayCalls_append]
            rfl
          · simp [runAttempt, attemptCalls, hf, hc, ht, hs, hu,
              gatewayCalls_emitEvent, gatewayCalls_fetch, gatewayCalls_append]
            rfl
      · simp [runAttempt, attemptCalls, hf, hc, ht, initCatch, gatewayCalls_emitEvent,
          gatewayCalls_append]
        rfl

theorem initializeCalls_inflight (gws : List Gateway) :
    ∀ s : AuthState, s.authInitialized = false → s.authInitializing = true →
      initializeCalls s gws = { s with readyWaiters := s.readyWaiters + gws.length } := by
  induction gws with
  | nil => intro s _ _; rfl
  | cons gw rest ih =>
    intro s hn hi
    have h1 : (initializeAuthModule s gw).1
        = { s with readyWaiters := s.readyWaiters + 1 } := by
      simp [initializeAuthModule, hn, hi]
    show initializeCalls (initializeAuthModule s gw).1 rest = _
    rw [h1, ih { s with readyWaiters := s.readyWaiters + 1 } hn hi]
    simp [Nat.add_assoc, Nat.add_comm 1]

/-! ## Lemmas on the event bus -/

namespace EventBus

theorem emitEvent_succ {δ : Type} (fuel : Nat) (bus : Bus δ) (name : String) (detail : δ) :
    emitEvent (fuel + 1) bus name detail
      = (bus.listeners.filter (fun l => l.name == name)).foldl (deliver fuel detail) bus :=
  rfl

theorem onEvent_wellFormed {δ : Type} (bus : Bus δ) (name : String)
    (react : δ → List (Action δ)) (once : Bool) (h : bus.WellFormed) :
    (onEvent bus name react once).WellFormed := by
  obtain ⟨h1, h2, h3⟩ := h
  refine ⟨?_, ?_, ?_⟩
  · simp only [onEvent, List.map_append, List.map_cons, List.map_nil]
    rw [List.nodup_append]
    refine ⟨h1, by simp, ?_⟩
    intro i hi hj
    simp only [List.mem_singleton] at hj
    subst hj
    obtain ⟨l, hl, hid⟩ := List.mem_map.1 hi
    have := h2 l hl
    rw [hid] at this
    exact absurd this (Nat.lt_irrefl _)
  · intro l hl
    simp only [onEvent, List.mem_append, List.mem_singleton] at hl ⊢
    rcases hl with hl | rfl
    · exact Nat.lt_succ_of_lt (h2 l hl)
    · exact Nat.lt_succ_self _
  · intro p hp
    exact Nat.lt_succ_of_lt (h3 p hp)

theorem act_fold_wellFormed {δ : Type} (fuel : Nat)
    (ih : ∀ (b : Bus δ) (name : String) (detail : δ), b.WellFormed →
      (emitEvent fuel b name detail).WellFormed ∧
        b.nextId ≤ (emitEvent fuel b name detail).nextId)
    (actions : List (Action δ)) :
    ∀ st : Bus δ × Bool, st.1.WellFormed →
      (actions.foldl (act fuel) st).1.WellFormed ∧
        st.1.nextId ≤ (actions.foldl (act fuel) st).1.nextId := by
  induction actions with
  | nil => intro st h; exact ⟨h, Nat.le_refl _⟩
  | cons a rest iha =>
    intro st h
    have hstep : (act fuel st a).1.WellFormed ∧ st.1.nextId ≤ (act fuel st a).1.nextId := by
      unfold act
      split
      · cases a with
        | emit n d => exact ih st.1 n d h
        | subscribe n once react =>
          exact ⟨onEvent_wellFormed _ _ _ _ h, Nat.le_succ _⟩
        | raise => exact ⟨h, Nat.le_refl _⟩
      · exact ⟨h, Nat.le_refl _⟩
    obtain ⟨h1, h2⟩ := iha (act fuel st a) hstep.1
    exact ⟨h1, Nat.le_trans hstep.2 h2⟩

theorem deliver_wellFormed {δ : Type} (fuel : Nat)
    (ih : ∀ (b : Bus δ) (name : String) (detail : δ), b.WellFormed →
      (emitEvent fuel b name detail).WellFormed ∧
        b.nextId ≤ (emitEvent fuel b name detail).nextId)
    (detail : δ) (b : Bus δ) (l : Listener δ) (h : b.WellFormed)
    (hl : l.id < b.nextId) :
    (deliver fuel detail b l).WellFormed ∧ b.nextId ≤ (deliver fuel detail b l).nextId := by
  unfold deliver
  split
  · have h1 : ({ b with delivered := b.delivered ++ [(l.id, detail)] } : Bus δ).WellFormed := by
      refine ⟨h.1, h.2.1, ?_⟩
      intro p hp
      simp only [List.mem_append, List.mem_singleton] at hp
      rcases hp with hp | rfl
      · exact h.2.2 p hp
      · exact hl
    obtain ⟨h2, h3⟩ := act_fold_wellFormed fuel ih (l.react detail) (_, true) h1
    simp only []
    split
    · refine ⟨⟨?_, ?_, h2.2.2⟩, h3⟩
      · exact h2.1.sublist ((List.filter_sublist _).map _)
      · intro l' hl'
        exact h2.2.1 l' (List.mem_of_mem_filter hl')
    · exact ⟨h2, h3⟩
  · exact ⟨h, Nat.le_refl _⟩

theorem deliver_fold_wellFormed {δ : Type} (fuel : Nat)
    (ih : ∀ (b : Bus δ) (name : String) (detail : δ), b.WellFormed →
      (emitEvent fuel b name detail).WellFormed ∧
        b.nextId ≤ (emitEvent fuel b name detail).nextId)
    (detail : δ) (ls : List (Listener δ)) :
    ∀ b : Bus δ, b.WellFormed → (∀ l ∈ ls, l.id < b.nextId) →
      (ls.foldl (deliver fuel detail) b).WellFormed ∧
        b.nextId ≤ (ls.foldl (deliver fuel detail) b).nextId := by
  induction ls with
  | nil => intro b h _; exact ⟨h, Nat.le_refl _⟩
  | cons l rest ihl =>
    intro b h hls
    obtain ⟨h1, h2⟩ := deliver_wellFormed fuel ih detail b l h (hls l (List.mem_cons_self _ _))
    obtain ⟨h3, h4⟩ := ihl (deliver fuel detail b l) h1
      (fun l' hl' => Nat.lt_of_lt_of_le (hls l' (List.mem_cons_of_mem _ hl')) h2)
    exact ⟨h3, Nat.le_trans h2 h4⟩

theorem emitEvent_wellFormed {δ : Type} (fuel : Nat) :
    ∀ (b : Bus δ) (name : String) (detail : δ), b.WellFormed →
      (emitEvent fuel b name detail).WellFormed ∧
        b.nextId ≤ (emitEvent fuel b name detail).nextId := by
  induction fuel with
  | zero => intro b name detail h; exact ⟨h, Nat.le_refl _⟩
  | succ fuel ih =>
    intro b name detail h
    rw [emitEvent_succ]
    exact deliver_fold_wellFormed fuel ih detail _ b h
      (fun l hl => h.2.1 l (List.mem_of_mem_filter hl))

theorem act_fold_quiet {δ : Type} (fuel : Nat) (actions : List (Action δ))
    (hq : ∀ a ∈ actions, a.isEmit = false) :
    ∀ st : Bus δ × Bool,
      (actions.foldl (act fuel) st).1.delivered = st.1.delivered ∧
      ∀ i, st.1.listeners.any (fun l' => l'.id == i) = true →
        (actions.foldl (act fuel) st).1.listeners.any (fun l' => l'.id == i) = true := by
  induction actions with
  | nil => intro st; exact ⟨rfl, fun _ h => h⟩
  | cons a rest iha =>
    intro st
    have hstep : (act fuel st a).1.delivered = st.1.delivered ∧
        ∀ i, st.1.listeners.any (fun l' => l'.id == i) = true →
          (act fuel st a).1.listeners.any (fun l' => l'.id == i) = true := by
      unfold act
      split
      · cases a with
        | emit n d =>
          have := hq (.emit n d) (List.mem_cons_self _ _)
          simp [Action.isEmit] at this
        | subscribe n once react =>
          refine ⟨rfl, ?_⟩
          intro i hi
          simp only [onEvent, List.any_append, Bool.or_eq_true]
          exact Or.inl hi
        | raise => exact ⟨rfl, fun _ h => h⟩
      · exact ⟨rfl, fun _ h => h⟩
    obtain ⟨h1, h2⟩ := iha (fun a' ha' => hq a' (List.mem_cons_of_mem _ ha')) (act fuel st a)
    exact ⟨h1.trans hstep.1, fun i hi => h2 i (hstep.2 i hi)⟩

theorem deliver_quiet {δ : Type} (fuel : Nat) (detail : δ) (b : Bus δ) (l : Listener δ)
    (hreg : b.listeners.any (fun l' => l'.id == l.id) = true)
    (hq : ∀ a ∈ l.react detail, a.isEmit = false) :
    (deliver fuel detail b l).delivered = b.delivered ++ [(l.id, detail)] ∧
    ∀ i, i ≠ l.id → b.listeners.any (fun l' => l'.id == i) = true →
      (deliver fuel detail b l).listeners.any (fun l' => l'.id == i) = true := by
  obtain ⟨h1, h2⟩ := act_fold_quiet fuel (l.react detail) hq
    ({ b with delivered := b.delivered ++ [(l.id, detail)] }, true)
  unfold deliver
  rw [if_pos hreg]
  simp only []
  split
  · refine ⟨h1, ?_⟩
    intro i hne hi
    have := h2 i hi
    simp only [List.any_eq_true, beq_iff_eq, List.mem_filter, bne_iff_ne] at this ⊢
    obtain ⟨l', hl', hid⟩ := this
    exact ⟨l', ⟨hl', by rw [hid]; exact hne⟩, hid⟩
  · exact ⟨h1, fun i _ hi => h2 i hi⟩

theorem deliver_fold_quiet {δ : Type} (fuel : Nat) (detail : δ) (ls : List (Listener δ)) :
    (ls.map (fun l => l.id)).Nodup →
    (∀ l ∈ ls, ∀ a ∈ l.react detail, a.isEmit = false) →
    ∀ b : Bus δ, (∀ l ∈ ls, b.listeners.any (fun l' => l'.id == l.id) = true) →
      (ls.foldl (deliver fuel detail) b).delivered
        = b.delivered ++ ls.map (fun l => (l.id, detail)) := by
  induction ls with
  | nil => intro _ _ b _; simp
  | cons l rest ihl =>
    intro hnd hq b hreg
    rw [List.map_cons, List.nodup_cons] at hnd
    obtain ⟨h1, h2⟩ := deliver_quiet fuel detail b l (hreg l (List.mem_cons_self _ _))
      (hq l (List.mem_cons_self _ _))
    have hrest := ihl hnd.2 (fun l' hl' => hq l' (List.mem_cons_of_mem _ hl'))
      (deliver fuel detail b l)
      (fun l' hl' => h2 l'.id
        (fun heq => hnd.1 (heq ▸ List.mem_map_of_mem (fun l => l.id) hl'))
        (hreg l' (List.mem_cons_of_mem _ hl')))
    rw [List.foldl_cons, hrest, h1]
    simp

theorem emitEvent_quiet {δ : Type} (fuel : Nat) (bus : Bus δ) (name : String) (detail : δ)
    (hwf : bus.WellFormed)
    (hq : ∀ l ∈ bus.listeners, l.name = name → ∀ a ∈ l.react detail, a.isEmit = false) :
    (emitEvent (fuel + 1) bus name detail).delivered
      = bus.delivered ++ (subscribers bus name).map (fun i => (i, detail)) := by
  rw [emitEvent_succ, deliver_fold_quiet fuel detail _
    (hwf.1.sublist ((List.filter_sublist _).map _))]
  · simp [subscribers, List.map_map, Function.comp_def]
  · intro l hl
    have := List.mem_filter.1 hl
    exact hq l this.1 (by simpa using this.2)
  · intro l hl
    simp only [List.any_eq_true, beq_iff_eq]
    exact ⟨l, List.mem_of_mem_filter hl, rfl⟩

theorem Bus.Extends.refl {δ : Type} (b : Bus δ) : b.Extends b [] :=
  ⟨by simp, Nat.le_refl _, fun _ h => Or.inl h, fun _ h => Or.inl h⟩

theorem Bus.Extends.trans {δ : Type} {b0 b1 b2 : Bus δ} {e1 e2 : List (Nat × δ)}
    (h1 : b0.Extends b1 e1) (h2 : b1.Extends b2 e2) : b0.Extends b2 (e1 ++ e2) := by
  obtain ⟨a1, a2, a3, a4⟩ := h1
  obtain ⟨c1, c2, c3, c4⟩ := h2
  refine ⟨by rw [c1, a1, List.append_assoc], Nat.le_trans a2 c2, ?_, ?_⟩
  · intro l hl
    rcases c3 l hl with h | h
    · rcases a3 l h with h' | h'
      · exact Or.inl h'
      · exact Or.inr h'
    · exact Or.inr (Nat.le_trans a2 h)
  · intro l hl
    rcases a4 l hl with h | ⟨ho, d, hd⟩
    · rcases c4 l h with h' | ⟨ho, d, hd⟩
      · exact Or.inl h'
      · exact Or.inr ⟨ho, d, List.mem_append_right _ hd⟩
    · exact Or.inr ⟨ho, d, List.mem_append_left _ hd⟩

theorem onEvent_extends {δ : Type} (b : Bus δ) (name : String)
    (react : δ → List (Action δ)) (once : Bool) :
    b.Extends (onEvent b name react once) [] := by
  refine ⟨by simp [onEvent], Nat.le_succ _, ?_, ?_⟩
  · intro l hl
    simp only [onEvent, List.mem_append, List.mem_singleton] at hl
    rcases hl with hl | rfl
    · exact Or.inl hl
    · exact Or.inr (Nat.le_refl _)
  · intro l hl
    left
    simp only [onEvent, List.mem_append, List.mem_singleton]
    exact Or.inl hl

theorem act_fold_extends {δ : Type} (fuel : Nat)
    (ih : ∀ (b : Bus δ) (name : String) (detail : δ), b.WellFormed →
      ∃ extra, b.Extends (emitEvent fuel b name detail) extra)
    (actions : List (Action δ)) :
    ∀ st : Bus δ × Bool, st.1.WellFormed →
      ∃ extra, st.1.Extends (actions.foldl (act fuel) st).1 extra := by
  induction actions with
  | nil => intro st _; exact ⟨[], Bus.Extends.refl _⟩
  | cons a rest iha =>
    intro st h
    have hwf : (act fuel st a).1.WellFormed :=
      (act_fold_wellFormed fuel (emitEvent_wellFormed fuel) [a] st h).1
    have hstep : ∃ extra, st.1.Extends (act fuel st a).1 extra := by
      unfold act
      split
      · cases a with
        | emit n d => exact ih st.1 n d h
        | subscribe n once react => exact ⟨[], onEvent_extends _ _ _ _⟩
        | raise => exact ⟨[], Bus.Extends.refl _⟩
      · exact ⟨[], Bus.Extends.refl _⟩
    obtain ⟨e1, h1⟩ := hstep
    obtain ⟨e2, h2⟩ := iha (act fuel st a) hwf
    exact ⟨e1 ++ e2, h1.trans h2⟩

theorem deliver_extends {δ : Type} (fuel : Nat)
    (ih : ∀ (b : Bus δ) (name : String) (detail : δ), b.WellFormed →
      ∃ extra, b.Extends (emitEvent fuel b name detail) extra)
    (detail : δ) (b : Bus δ) (l : Listener δ) (hwf : b.WellFormed)
    (hlt : l.id < b.nextId) (hrec : ∀ l' ∈ b.listeners, l'.id = l.id → l' = l) :
    ∃ turn, b.Extends (deliver fuel detail b l) turn ∧
      (b.listeners.any (fun l' => l'.id == l.id) = true → turn.head? = some (l.id, detail)) ∧
      (b.listeners.any (fun l' => l'.id == l.id) = false → turn = []) := by
  by_cases hreg : b.listeners.any (fun l' => l'.id == l.id) = true
  · have hwf1 : ({ b with delivered := b.delivered ++ [(l.id, detail)] } : Bus δ).WellFormed := by
      refine ⟨hwf.1, hwf.2.1, ?_⟩
      intro p hp
      simp only [List.mem_append, List.mem_singleton] at hp
      rcases hp with hp | rfl
      · exact hwf.2.2 p hp
      · exact hlt
    have hlog : b.Extends ({ b with delivered := b.delivered ++ [(l.id, detail)] } : Bus δ)
        [(l.id, detail)] :=
      ⟨rfl, Nat.le_refl _, fun _ h => Or.inl h, fun _ h => Or.inl h⟩
    obtain ⟨extra, hext⟩ := act_fold_extends fuel ih (l.react detail) (_, true) hwf1
    have hall := hlog.trans hext
    refine ⟨[(l.id, detail)] ++ extra, ?_, fun _ => rfl, fun h => by rw [hreg] at h; cases h⟩
    unfold deliver
    rw [if_pos hreg]
    simp only []
    split
    · rename_i honce
      simp only [Bool.and_eq_true] at honce
      obtain ⟨a1, a2, a3, a4⟩ := hall
      refine ⟨a1, a2, ?_, ?_⟩
      · intro l' hl'
        exact a3 l' (List.mem_of_mem_filter hl')
      · intro l0 hl0
        rcases a4 l0 hl0 with h | h
        · by_cases hid : l0.id = l.id
          · right
            have := hrec l0 hl0 hid
            subst this
            exact ⟨honce.1, detail, by simp⟩
          · left
            exact List.mem_filter.2 ⟨h, by simpa using hid⟩
        · exact Or.inr h
    · exact hall
  · have hreg' : b.listeners.any (fun l' => l'.id == l.id) = false := by
      simpa using hreg
    refine ⟨[], ?_, fun h => absurd h hreg, fun _ => rfl⟩
    unfold deliver
    rw [if_neg hreg]
    exact Bus.Extends.refl _

theorem deliver_fold_turns {δ : Type} (fuel : Nat)
    (ih : ∀ (b : Bus δ) (name : String) (detail : δ), b.WellFormed →
      ∃ extra, b.Extends (emitEvent fuel b name detail) extra)
    (detail : δ) (bs : Bus δ) (hbs : bs.WellFormed) (ls : List (Listener δ)) :
    ∀ (b : Bus δ) (pre : List (Nat × δ)), (∀ l ∈ ls, l ∈ bs.listeners) →
      b.WellFormed → bs.Extends b pre →
      ∃ turns : List (List (Nat × δ)), turns.length = ls.length ∧
        bs.Extends (ls.foldl (deliver fuel detail) b) (pre ++ turns.flatten) ∧
        ∀ i l, ls[i]? = some l → ∃ turn, turns[i]? = some turn ∧
          (turn.head? = some (l.id, detail) ∨
            (turn = [] ∧ l.once = true ∧ ∃ d, (l.id, d) ∈ pre ++ (turns.take i).flatten)) := by
  induction ls with
  | nil =>
    intro b pre _ _ hext
    exact ⟨[], rfl, by simpa using hext, fun i l h => by simp at h⟩
  | cons l rest ihl =>
    intro b pre hls hwf hext
    have hl : l ∈ bs.listeners := hls l (List.mem_cons_self _ _)
    have hlt : l.id < b.nextId := Nat.lt_of_lt_of_le (hbs.2.1 l hl) hext.2.1
    have hrec : ∀ l' ∈ b.listeners, l'.id = l.id → l' = l := by
      intro l' hl' hid
      rcases hext.2.2.1 l' hl' with h | h
      · exact List.inj_on_of_nodup_map hbs.1 h hl hid
      · have := hbs.2.1 l hl
        omega
    obtain ⟨turn, ht, hhead, hnil⟩ := deliver_extends fuel ih detail b l hwf hlt hrec
    have hwf' := (deliver_wellFormed fuel (emitEvent_wellFormed fuel) detail b l hwf hlt).1
    obtain ⟨turns, hlen, hE, hturns⟩ := ihl (deliver fuel detail b l) (pre ++ turn)
      (fun l' hl' => hls l' (List.mem_cons_of_mem _ hl')) hwf' (hext.trans ht)
    refine ⟨turn :: turns, by simp [hlen], ?_, ?_⟩
    · simpa [List.append_assoc] using hE
    · intro i l0 hi
      cases i with
      | zero =>
        simp only [List.getElem?_cons_zero, Option.some.injEq] at hi
        subst hi
        refine ⟨turn, by simp, ?_⟩
        by_cases hreg : b.listeners.any (fun l' => l'.id == l.id) = true
        · exact Or.inl (hhead hreg)
        · right
          have hreg' : b.listeners.any (fun l' => l'.id == l.id) = false := by
            simpa using hreg
          refine ⟨hnil hreg', ?_⟩
          rcases hext.2.2.2 l hl with h | ⟨ho, d, hd⟩
          · exfalso
            apply hreg
            simp only [List.any_eq_true, beq_iff_eq]
            exact ⟨l, h, rfl⟩
          · exact ⟨ho, d, by simpa using hd⟩
      | succ i =>
        simp only [List.getElem?_cons_succ] at hi
        obtain ⟨t, h1, h2⟩ := hturns i l0 hi
        refine ⟨t, by simpa using h1, ?_⟩
        rcases h2 with h | ⟨hn, ho, d, hd⟩
        · exact Or.inl h
        · exact Or.inr ⟨hn, ho, d, by simpa [List.append_assoc] using hd⟩

theorem emitEvent_extends {δ : Type} (fuel : Nat) :
    ∀ (b : Bus δ) (name : String) (detail : δ), b.WellFormed →
      ∃ extra, b.Extends (emitEvent fuel b name detail) extra := by
  induction fuel with
  | zero =>
    intro b name detail _
    exact ⟨[], by simp [emitEvent], Nat.le_refl _, fun _ h => Or.inl h, fun _ h => Or.inl h⟩
  | succ fuel ih =>
    intro b name detail hwf
    rw [emitEvent_succ]
    obtain ⟨turns, _, hE, _⟩ := deliver_fold_turns fuel ih detail b hwf
      (b.listeners.filter (fun l => l.name == name)) b []
      (fun l hl => List.mem_of_mem_filter hl) hwf (Bus.Extends.refl b)
    exact ⟨_, hE⟩

theorem emitEvent_turns {δ : Type} (fuel : Nat) (bus : Bus δ) (name : String) (detail : δ)
    (hwf : bus.WellFormed) :
    ∃ turns : List (List (Nat × δ)),
      turns.length = (listenersFor bus name).length ∧
      (emitEvent (fuel + 1) bus name detail).delivered = bus.delivered ++ turns.flatten ∧
      ∀ i l, (listenersFor bus name)[i]? = some l → ∃ turn, turns[i]? = some turn ∧
        (turn.head? = some (l.id, detail) ∨
          (turn = [] ∧ l.once = true ∧ ∃ d, (l.id, d) ∈ (turns.take i).flatten)) := by
  obtain ⟨turns, hlen, hE, hturns⟩ := deliver_fold_turns fuel (emitEvent_extends fuel) detail
    bus hwf (listenersFor bus name) bus []
    (fun l hl => List.mem_of_mem_filter hl) hwf (Bus.Extends.refl bus)
  refine ⟨turns, hlen, ?_, ?_⟩
  · rw [emitEvent_succ]
    simpa using hE.1
  · intro i l hi
    obtain ⟨t, h1, h2⟩ := hturns i l hi
    exact ⟨t, h1, by simpa using h2⟩

end EventBus

/-! ## Lemmas on traces -/

theorem emitted_append (t u : List Effect) :
    emitted (t ++ u) = emitted t ++ emitted u := by
  simp [emitted]

theorem navigations_append (t u : List Effect) :
    navigations (t ++ u) = navigations t ++ navigations u := by
  simp [navigations]

theorem initCatch_eq (s : AuthState) (message : String) :
    initCatch s message =
      ({ s with authInitializing := false, authInitialized := false,
                trace := s.trace ++ [Effect.emit SystemEvents.AUTH_ERROR
                  (.error "initialization" message)] },
        .value (some false) none none (some message)) := by
  simp only [initCatch]
  rw [emitEvent_of_ne _ _ _ (by decide)]

theorem runAttempt_of_fails (s : AuthState) (gw : Gateway)
    (h : attemptFails gw = true) :
    ∃ message,
      (runAttempt s gw).2 = .value (some false) none none (some message) ∧
      (runAttempt s gw).1.authInitialized = false ∧
      (runAttempt s gw).1.authInitializing = false ∧
      (runAttempt s gw).1.trace = s.trace ++ attemptCalls gw ++
        [Effect.emit SystemEvents.AUTH_ERROR (.error "initialization" message)] := by
  rcases hf : gw.clientFunction with _ | _
  · refine ⟨"getSupabaseClient function not available. Ensure supabaseClient.js is loaded.",
      ?_⟩
    simp only [runAttempt, hf, initCatch_eq, attemptCalls]
    simp
  · rcases hc : gw.client with _ | handle
    · refine ⟨"Failed to get Supabase client in auth module.", ?_⟩
      simp only [runAttempt, hf, hc, initCatch_eq, attemptCalls]
      simp
    · rcases ht : gw.subscribeThrows with _ | thrown
      · rcases hs : gw.session with thrown | session
        · refine ⟨thrown, ?_⟩
          simp only [runAttempt, hf, hc, ht, hs, initCatch_eq, attemptCalls]
          simp
        · simp [attemptFails, hf, hc, ht, hs] at h
      · refine ⟨thrown, ?_⟩
        simp only [runAttempt, hf, hc, ht, initCatch_eq, attemptCalls]
        simp

theorem runAttempt_of_succeeds (s : AuthState) (gw : Gateway)
    (h : attemptFails gw = false) :
    (runAttempt s gw).2 = .value (some true) (runAttempt s gw).1.authCurrentUser
      (runAttempt s gw).1.authUserOrganizationData none ∧
    (runAttempt s gw).1.authInitialized = true ∧
    (runAttempt s gw).1.authInitializing = false := by
  rcases hf : gw.clientFunction with _ | _
  · simp [attemptFails, hf] at h
  · rcases hc : gw.client with _ | handle
    · simp [attemptFails, hf, hc] at h
    · rcases ht : gw.subscribeThrows with _ | thrown
      · rcases hs : gw.session with thrown | session
        · simp [attemptFails, hf, hc, ht, hs] at h
        · simp only [runAttempt, hf, hc, ht, hs]
          unfold emitEvent
          simp
      · simp [attemptFails, hf, hc, ht] at h

/-! ## Lemmas on redirection and notifications -/

theorem append_slash_cancel (p q : String) (h : p ++ "/" = q ++ "/") : p = q := by
  have h1 := congrArg String.data h
  simp only [String.data_append] at h1
  exact String.ext (List.append_cancel_right h1)

theorem endsWith_self (p : String) : endsWith p p = true := by
  simp [endsWith]

theorem handleRedirectTarget_of_content (lower : String → String) (pathname : String)
    (user : Option User) (orgData : Option OrgData)
    (h : ¬ onLoginOrRootPage pathname) :
    handleRedirectTarget lower true pathname user orgData = .ok none := by
  have hlogin : (if endsWith PathConfig.LOGIN "/" then PathConfig.LOGIN
      else PathConfig.LOGIN ++ "/") = "/login.html/" := by decide
  simp only [onLoginOrRootPage, List.mem_cons, List.mem_singleton, List.not_mem_nil,
    or_false, not_or] at h
  obtain ⟨h1, h2, h3, h4, h5, h6⟩ := h
  have hcur : ∀ q : String, q ++ "/" ≠ pathname → q ≠ pathname →
      (if endsWith pathname "/" then pathname else pathname ++ "/") ≠ q ++ "/" := by
    intro q hq1 hq2
    split
    · exact fun heq => hq1 heq.symm
    · exact fun heq => hq2 (append_slash_cancel _ _ heq).symm
  have c1 := hcur "/login.html" (fun e => h2 e.symm) (fun e => h1 e.symm)
  have c2 := hcur "" (fun e => h3 e.symm) (fun e => h4 e.symm)
  have c3 := hcur "/index.html" (fun e => h6 e.symm) (fun e => h5 e.symm)
  have e1 : ("/login.html" : String) ++ "/" = "/login.html/" := by decide
  have e2 : ("" : String) ++ "/" = "/" := by decide
  have e3 : ("/index.html" : String) ++ "/" = "/index.html/" := by decide
  rw [e1] at c1
  rw [e2] at c2
  rw [e3] at c3
  simp only [handleRedirectTarget, hlogin, Bool.not_true, Bool.false_eq_true, if_false]
  simp [c1, c2, c3]

theorem lowerNames_of_named (lower : String → String) (rs : List Role)
    (h : ∀ r ∈ rs, r.name ≠ none) : ∃ names, lowerNames lower rs = .ok names := by
  induction rs with
  | nil => exact ⟨[], rfl⟩
  | cons r rest ih =>
    obtain ⟨names, hn⟩ := ih (fun r' hr' => h r' (List.mem_cons_of_mem _ hr'))
    rcases hr : r.name with _ | n
    · exact absurd hr (h r (List.mem_cons_self _ _))
    · exact ⟨lower n :: names, by simp [lowerNames, hr, hn]⟩

theorem handleRedirectTarget_of_login (lower : String → String) (pathname : String)
    (user : User) (orgData : Option OrgData) (h : onLoginOrRootPage pathname)
    (hnames : ∀ r ∈ roleList orgData, r.name ≠ none) :
    ∃ href, handleRedirectTarget lower true pathname (some user) orgData
      = .ok (some href) := by
  have hrest : ∃ href,
      (match heldRoles orgData with
        | none => (Except.ok (some (Href.loginWithError AUTH_ERRORS.NO_ROLE)) :
            Except String (Option Href))
        | some rs =>
          match lowerNames lower rs with
          | .error e => .error e
          | .ok roles => .ok (some (roleDashboard roles))) = .ok (some href) := by
    by_cases hne : roleList orgData = []
    · rw [(heldRoles_eq_none_iff orgData).2 hne]
      exact ⟨_, rfl⟩
    · rw [heldRoles_of_ne_nil orgData hne]
      obtain ⟨names, hn⟩ := lowerNames_of_named lower (roleList orgData) hnames
      simp only [hn]
      exact ⟨_, rfl⟩
  obtain ⟨href, hh⟩ := hrest
  refine ⟨href, ?_⟩
  rw [← hh]
  have g : ∀ p0 ∈ ["/login.html", "/login.html/", "/", "", "/index.html", "/index.html/"],
      ¬ (((if endsWith p0 "/" then p0 else p0 ++ "/") !=
            (if endsWith PathConfig.LOGIN "/" then PathConfig.LOGIN
              else PathConfig.LOGIN ++ "/") &&
          (if endsWith p0 "/" then p0 else p0 ++ "/") != "/" &&
          (if endsWith p0 "/" then p0 else p0 ++ "/") != "/index.html/") = true) := by
    decide
  have hg := g pathname h
  simp only [handleRedirectTarget, Bool.not_true, Bool.false_eq_true, if_false, hg]

theorem fetch_frame (s : AuthState) (store : Store) :
    ∃ od up extra, (fetchUserOrganizationRoles s store).1 = resolved s od up extra ∧
      navigations extra = [] ∧
      ∀ p ∈ emitted extra, p.1 = SystemEvents.AUTH_ERROR := by
  rcases hc : s.authSupabaseClient with _ | handle
  · rw [fetch_without_principal s store (Or.inl hc)]
    exact ⟨⟨none, some [], none⟩, s.userProfile, [], by simp [resolved], rfl,
      by simp [emitted]⟩
  · rcases hu : s.authCurrentUser with _ | user
    · rw [fetch_without_principal s store (Or.inr hu)]
      exact ⟨⟨none, some [], none⟩, s.userProfile, [], by simp [resolved], rfl,
      by simp [emitted]⟩
    · rcases fetch_cases s store handle user hc hu with
        ⟨_, message, queries, hq, he⟩ | ⟨_, _, he⟩ | ⟨_, row, _, he⟩
      · rw [he, fetchCatch_eq]
        refine ⟨⟨none, some [], some message⟩, false, queries ++ [Effect.emit SystemEvents.AUTH_ERROR
          (.error "fetch_user_organization_roles" message)], ?_, ?_, ?_⟩
        · simp [resolved, published, querying]
        · rcases hq with rfl | ⟨row, _, rfl⟩ <;> rfl
        · rcases hq with rfl | ⟨row, _, rfl⟩ <;> simp [emitted]
      · rw [he]
        exact ⟨⟨none, some [], none⟩, false, [Effect.selectMembership user.id],
          by simp [resolved, fetchNoMembership, querying], rfl, by simp [emitted]⟩
      · rw [he]
        exact ⟨_, false, _, rfl, rfl, by simp [emitted]⟩

theorem handler_of_no_user (lower : String → String) (s : AuthState) (event : String)
    (session : Option Session) (store : Store)
    (hu : session.bind (fun x => x.user) = none) :
    authStateHandler lower s event session store =
      (if event = "SIGNED_OUT" ∧ s.pathConfig = true ∧
          endsWith s.pathname PathConfig.LOGIN = false then
        { s with authCurrentUser := none, authUserOrganizationData := none,
                 trace := s.trace ++ [Effect.navigate (.page PathConfig.LOGIN),
                   Effect.emit SystemEvents.AUTH_STATE_CHANGED
                     (.stateChanged event none none)] }
      else
        { s with authCurrentUser := none, authUserOrganizationData := none,
                 trace := s.trace ++ [Effect.emit SystemEvents.AUTH_STATE_CHANGED
                   (.stateChanged event none none)] }, none) := by
  have hself : s.pathname = PathConfig.LOGIN → endsWith s.pathname PathConfig.LOGIN = true := by
    intro h; rw [h]; exact endsWith_self _
  simp only [authStateHandler, hu]
  by_cases he : event = "SIGNED_OUT"
  · by_cases hcfg : s.pathConfig = true
    · by_cases hend : endsWith s.pathname PathConfig.LOGIN = true
      · simp [he, hcfg, hend, emitEvent_of_ne _ _ _ (show SystemEvents.AUTH_STATE_CHANGED
          ≠ SystemEvents.AUTH_MODULE_READY by decide)]
      · have hne : s.pathname ≠ PathConfig.LOGIN := fun h => hend (hself h)
        simp [he, hcfg, hend, hne, navigate, emitEvent_of_ne _ _ _
          (show SystemEvents.AUTH_STATE_CHANGED ≠ SystemEvents.AUTH_MODULE_READY by decide)]
    · simp [he, hcfg, emitEvent_of_ne _ _ _ (show SystemEvents.AUTH_STATE_CHANGED
        ≠ SystemEvents.AUTH_MODULE_READY by decide)]
  · simp [he, emitEvent_of_ne _ _ _ (show SystemEvents.AUTH_STATE_CHANGED
      ≠ SystemEvents.AUTH_MODULE_READY by decide)]

theorem handler_signed_in_navigations (lower : String → String) (s : AuthState)
    (session : Option Session) (store : Store) (user : User)
    (hu : session.bind (fun x => x.user) = some user) :
    navigations (authStateHandler lower s "SIGNED_IN" session store).1.trace
      = navigations s.trace ++
        (match handleRedirectTarget lower s.pathConfig s.pathname (some user)
            (fetchUserOrganizationRoles (withUser s user) store).1.authUserOrganizationData with
          | .ok (some href) => [href]
          | _ => []) := by
  obtain ⟨od, up, extra, hfetch, hnav, _⟩ := fetch_frame (withUser s user) store
  have hl : SystemEvents.AUTH_LOGIN_SUCCESS ≠ SystemEvents.AUTH_MODULE_READY := by decide
  have hc : SystemEvents.AUTH_STATE_CHANGED ≠ SystemEvents.AUTH_MODULE_READY := by decide
  have hs1 : ({ s with authCurrentUser := session.bind (fun x => x.user) } : AuthState)
      = withUser s user := by rw [hu]; rfl
  simp only [authStateHandler, hs1]
  simp only [hu]
  simp only [hfetch, if_true, handleRedirect, emitEvent_of_ne _ _ _ hl]
  rw [show (resolved (withUser s user) od up extra).authUserOrganizationData = some od
    from rfl]
  have hp : (resolved (withUser s user) od up extra).pathConfig = s.pathConfig := rfl
  have hq : (resolved (withUser s user) od up extra).pathname = s.pathname := rfl
  have hu' : (resolved (withUser s user) od up extra).authCurrentUser = some user := rfl
  simp only [hp, hq, hu']
  rcases handleRedirectTarget lower s.pathConfig s.pathname (some user) (some od) with
    e | _ | href
  · simp only [resolved, withUser, navigations_append, hnav]
    simp [navigations]
  · simp only [emitEvent_of_ne _ _ _ hc, resolved, withUser, navigations_append, hnav]
    simp [navigations]
  · simp only [emitEvent_of_ne _ _ _ hc, resolved, withUser, navigate,
      navigations_append, hnav]
    simp [navigations]

/-! ## Lemmas on login -/

theorem login_without_handle (s : AuthState) (email : String)
    (reply : Except String (Reply SignInData)) (h : s.authSupabaseClient = none) :
    loginWithEmailPassword s email reply
      = (s, .failure AUTH_ERRORS.SUPABASE_NOT_AVAILABLE) := by
  simp [loginWithEmailPassword, h]

theorem login_succeeds (s : AuthState) (email : String) (data : SignInData)
    (handle : Nat) (h : s.authSupabaseClient = some handle) :
    loginWithEmailPassword s email (.ok ⟨data, none⟩)
      = ({ s with login := false, trace := s.trace ++
            [Effect.emit SystemEvents.APP_LOADING (.loading "login" true),
              Effect.signInWithPassword email,
              Effect.emit SystemEvents.APP_LOADING (.loading "login" false)] },
          .success data.user) := by
  have hl : SystemEvents.APP_LOADING ≠ SystemEvents.AUTH_MODULE_READY := by decide
  simp [loginWithEmailPassword, h, loginFinally, emitEvent_of_ne _ _ _ hl]

theorem login_fails (s : AuthState) (email : String)
    (reply : Except String (Reply SignInData)) (message : String) (handle : Nat)
    (h : s.authSupabaseClient = some handle)
    (hr : reply = .error message ∨ ∃ data, reply = .ok ⟨data, some message⟩) :
    loginWithEmailPassword s email reply
      = ({ s with login := false, trace := s.trace ++
            [Effect.emit SystemEvents.APP_LOADING (.loading "login" true),
              Effect.signInWithPassword email,
              Effect.emit SystemEvents.AUTH_LOGIN_FAILED (.loginFailed message),
              Effect.emit SystemEvents.APP_LOADING (.loading "login" false)] },
          .failure (if message = "" then AUTH_ERRORS.INVALID_CREDENTIALS else message)) := by
  have hl : SystemEvents.APP_LOADING ≠ SystemEvents.AUTH_MODULE_READY := by decide
  have hf : SystemEvents.AUTH_LOGIN_FAILED ≠ SystemEvents.AUTH_MODULE_READY := by decide
  rcases hr with rfl | ⟨data, rfl⟩ <;>
    simp [loginWithEmailPassword, h, loginFinally, emitEvent_of_ne _ _ _ hl,
      emitEvent_of_ne _ _ _ hf]

theorem login_reply_cases (reply : Except String (Reply SignInData)) :
    (∃ data, reply = .ok ⟨data, none⟩) ∨
      ∃ message, reply = .error message ∨ ∃ data, reply = .ok ⟨data, some message⟩ := by
  rcases reply with thrown | ⟨data, _ | message⟩
  · exact Or.inr ⟨thrown, Or.inl rfl⟩
  · exact Or.inl ⟨data, rfl⟩
  · exact Or.inr ⟨message, Or.inr ⟨data, rfl⟩⟩

/-! ## Claims on access control -/

/-- C1, as stated, fails: with no roles, a path that merely contains the login
page identifier is allowed although it is neither the login page nor the
password-reset page. -/
theorem checkPageAccess_public_counterexample :
    roleList none = [] ∧
    checkPageAccess asciiLower "/old/login.html.bak" none = true ∧
    ¬ ("/old/login.html.bak" = PathConfig.LOGIN ∨
       "/old/login.html.bak" = PathConfig.RESET_PASSWORD_PAGE) := by
  decide

/-- C1, amended: for every path and every context whose role list is absent or
empty, `checkPageAccess` allows exactly the paths that contain the login page
identifier or the password-reset page identifier as a substring (so the two
public pages themselves are allowed), and denies every other path. -/
theorem checkPageAccess_public (lower : String → String) (path : String)
    (orgData : Option OrgData) (h : roleList orgData = []) :
    (checkPageAccess lower path orgData = true ↔
      (PathConfig.LOGIN.data <:+: path.data ∨
        PathConfig.RESET_PASSWORD_PAGE.data <:+: path.data)) ∧
    (checkPageAccess lower path orgData = false ↔
      ¬ (PathConfig.LOGIN.data <:+: path.data ∨
        PathConfig.RESET_PASSWORD_PAGE.data <:+: path.data)) ∧
    checkPageAccess lower PathConfig.LOGIN orgData = true ∧
    checkPageAccess lower PathConfig.RESET_PASSWORD_PAGE orgData = true := by
  have h' := (heldRoles_eq_none_iff orgData).2 h
  have key : ∀ p : String, checkPageAccess lower p orgData = true ↔
      (PathConfig.LOGIN.data <:+: p.data ∨
        PathConfig.RESET_PASSWORD_PAGE.data <:+: p.data) := by
    intro p
    simp [checkPageAccess, h', includes_iff]
  refine ⟨key path, ?_, (key _).2 (Or.inl (List.infix_refl _)),
    (key _).2 (Or.inr (List.infix_refl _))⟩
  rw [← key path]
  simp

theorem checkPageAccess_public_witness :
    (checkPageAccess asciiLower "/admin.html" (some ⟨none, some [], none⟩) = true ↔
      (PathConfig.LOGIN.data <:+: "/admin.html".data ∨
        PathConfig.RESET_PASSWORD_PAGE.data <:+: "/admin.html".data)) :=
  (checkPageAccess_public asciiLower "/admin.html" (some ⟨none, some [], none⟩) rfl).1

/-- C2: with a non-empty role list, `checkPageAccess` scans the ten policy
entries in declaration order; the first entry whose page identifier is a substring
of the path decides alone: allowed iff some held role name, lower-cased, is in
that entry's allowed-role list; when no entry matches, the page is allowed. -/
theorem checkPageAccess_first_match (lower : String → String)
    (hlower : lower "" = "") (path : String) (orgData : Option OrgData)
    (h : roleList orgData ≠ []) :
    pageAccessMap.map Prod.fst =
      ["/admin.html", "/supervisor.html", "/student.html",
        "/committee-dashboard.html", "/markers.html", "/thesis-submission.html",
        "/thesis-review.html", "/thesis-marking.html", "/ethics-form.html",
        "/ethics-review.html"] ∧
    (∀ l₁ e l₂, pageAccessMap = l₁ ++ e :: l₂ →
      e.1.data <:+: path.data →
      (∀ e' ∈ l₁, ¬ e'.1.data <:+: path.data) →
      (checkPageAccess lower path orgData = true ↔
        ∃ r ∈ roleList orgData, ∃ n, r.name = some n ∧ lower n ∈ e.2)) ∧
    ((∀ e ∈ pageAccessMap, ¬ e.1.data <:+: path.data) →
      checkPageAccess lower path orgData = true) := by
  refine ⟨by decide, ?_, ?_⟩
  · intro l₁ e l₂ hsplit he hbefore
    have hmem : e ∈ pageAccessMap := by
      rw [hsplit]; exact List.mem_append_right _ (List.mem_cons_self _ _)
    have hreq := pageAccessMap_required_nonempty e hmem
    have hskip : ∀ e' ∈ l₁, includes path e'.1 = false := by
      intro e' he'
      have := hbefore e' he'
      rw [← includes_iff] at this
      simpa using this
    have hhit : includes path e.1 = true := (includes_iff _ _).2 he
    rw [checkPageAccess_of_roles lower path orgData h, hsplit,
      scanAccessMap_append path _ l₁ (e :: l₂) hskip]
    obtain ⟨p, req⟩ := e
    simp only [scanAccessMap, hhit, if_true, List.any_eq_true, List.mem_map,
      List.contains_iff_exists_mem_beq, beq_iff_eq, exists_eq_right']
    constructor
    · rintro ⟨k, ⟨r, hr, rfl⟩, hk⟩
      exact ⟨r, hr, (roleKey_mem_iff lower hlower req hreq r).1 hk⟩
    · rintro ⟨r, hr, hn⟩
      exact ⟨_, ⟨r, hr, rfl⟩, (roleKey_mem_iff lower hlower req hreq r).2 hn⟩
  · intro hnone
    have hskip : ∀ e' ∈ pageAccessMap, includes path e'.1 = false := by
      intro e' he'
      have := hnone e' he'
      rw [← includes_iff] at this
      simpa using this
    have := scanAccessMap_append path ((roleList orgData).map (roleKey lower))
      pageAccessMap [] hskip
    rw [List.append_nil] at this
    rw [checkPageAccess_of_roles lower path orgData h, this]
    rfl

theorem asciiLower_empty : asciiLower "" = "" := by decide

theorem checkPageAccess_first_match_witness :
    checkPageAccess asciiLower "/thesis-review.html"
      (some ⟨none, some [⟨7, some "Supervisor"⟩], none⟩) = true :=
  ((checkPageAccess_first_match asciiLower asciiLower_empty "/thesis-review.html"
      (some ⟨none, some [⟨7, some "Supervisor"⟩], none⟩) (by decide)).2.1
    (pageAccessMap.take 6) (pageAccessMap.get ⟨6, by decide⟩) (pageAccessMap.drop 7)
    (by decide) (by decide) (by decide)).2
    ⟨⟨7, some "Supervisor"⟩, by decide, "Supervisor", rfl, by decide⟩

/-- C3: for every role list that contains administrator and does not contain
student (names compared in lower case), `checkPageAccess` denies the student page
and the bootstrapper redirects to the administrator dashboard. -/
theorem administrator_denied_student_page (lower : String → String)
    (hlower : lower "" = "") (orgData : Option OrgData)
    (hadmin : holdsRole lower orgData "administrator")
    (hstudent : ¬ holdsRole lower orgData "student") :
    checkPageAccess lower PathConfig.STUDENT_DASHBOARD orgData = false ∧
    initializeAppRouting lower true PathConfig.STUDENT_DASHBOARD orgData
      = .redirect PathConfig.ADMIN_DASHBOARD := by
  have hne : roleList orgData ≠ [] := by
    obtain ⟨r, hr, _⟩ := hadmin
    exact List.ne_nil_of_mem hr
  have ha := (mem_roleKeys_iff lower hlower orgData "administrator" (by decide)).2 hadmin
  have hs : "student" ∉ (roleList orgData).map (roleKey lower) :=
    fun h => hstudent ((mem_roleKeys_iff lower hlower orgData "student" (by decide)).1 h)
  have hdeny : checkPageAccess lower PathConfig.STUDENT_DASHBOARD orgData = false := by
    have h2 : pageAccessMap = pageAccessMap.take 2 ++
        (pageAccessMap.get ⟨2, by decide⟩ :: pageAccessMap.drop 3) := by decide
    rw [checkPageAccess_of_roles lower _ orgData hne, h2,
      scanAccessMap_append _ _ _ _ (by decide)]
    have h3 : includes PathConfig.STUDENT_DASHBOARD
        (pageAccessMap.get ⟨2, by decide⟩).1 = true := by decide
    have h4 : (pageAccessMap.get ⟨2, by decide⟩).2 = ["student"] := by decide
    rw [scanAccessMap, h3, h4]
    simpa using hs
  refine ⟨hdeny, ?_⟩
  have hroute : routeUserToDashboard lower orgData = PathConfig.ADMIN_DASHBOARD := by
    rw [routeUserToDashboard_of_roles]
    simp [List.contains_iff_exists_mem_beq, List.mem_map] at ha ⊢
    intro h
    obtain ⟨r, hr, hk⟩ := ha
    exact absurd hk (h r hr)
  have hpath : (PathConfig.STUDENT_DASHBOARD == PathConfig.LOGIN ||
      PathConfig.STUDENT_DASHBOARD == "/" ++ PathConfig.LOGIN ||
      (PathConfig.STUDENT_DASHBOARD == PathConfig.RESET_PASSWORD_PAGE ||
        PathConfig.STUDENT_DASHBOARD == "/" ++ PathConfig.RESET_PASSWORD_PAGE) ||
      PathConfig.STUDENT_DASHBOARD == "/" ||
      PathConfig.STUDENT_DASHBOARD == "/index.html") = false := by decide
  simp only [initializeAppRouting, hpath, hdeny, hroute]
  rfl

theorem administrator_denied_student_page_witness :
    checkPageAccess asciiLower PathConfig.STUDENT_DASHBOARD
        (some ⟨none, some [⟨1, some "Administrator"⟩], none⟩) = false ∧
    initializeAppRouting asciiLower true PathConfig.STUDENT_DASHBOARD
        (some ⟨none, some [⟨1, some "Administrator"⟩], none⟩)
      = .redirect PathConfig.ADMIN_DASHBOARD :=
  administrator_denied_student_page asciiLower asciiLower_empty
    (some ⟨none, some [⟨1, some "Administrator"⟩], none⟩)
    ⟨⟨1, some "Administrator"⟩, by decide, "Administrator", rfl, by decide⟩
    (by
      rintro ⟨r, hr, n, hn, hl⟩
      have hr' : r = ⟨1, some "Administrator"⟩ := by simpa [roleList] using hr
      subst hr'
      have hn' : n = "Administrator" := by simpa using hn.symm
      subst hn'
      revert hl
      decide)

/-- C4: `routeUserToDashboard` selects the dashboard of the highest-precedence
role held, in the order administrator > supervisor > committee member > marker >
student (default); the result depends only on the set of lower-cased role names
(not on order or duplication) and is unchanged by re-casing the names; a list with
administrator yields the administrator dashboard whatever else it holds. -/
theorem routeUserToDashboard_precedence (lower : String → String)
    (hlower : lower "" = "") (orgData : Option OrgData) :
    (holdsRole lower orgData "administrator" →
      routeUserToDashboard lower orgData = PathConfig.ADMIN_DASHBOARD) ∧
    (¬ holdsRole lower orgData "administrator" →
      holdsRole lower orgData "supervisor" →
      routeUserToDashboard lower orgData = PathConfig.SUPERVISOR_DASHBOARD) ∧
    (¬ holdsRole lower orgData "administrator" →
      ¬ holdsRole lower orgData "supervisor" →
      holdsRole lower orgData "committee member" →
      routeUserToDashboard lower orgData = PathConfig.COMMITTEE_DASHBOARD) ∧
    (¬ holdsRole lower orgData "administrator" →
      ¬ holdsRole lower orgData "supervisor" →
      ¬ holdsRole lower orgData "committee member" →
      holdsRole lower orgData "marker" →
      routeUserToDashboard lower orgData = PathConfig.MARKERS) ∧
    (¬ holdsRole lower orgData "administrator" →
      ¬ holdsRole lower orgData "supervisor" →
      ¬ holdsRole lower orgData "committee member" →
      ¬ holdsRole lower orgData "marker" →
      routeUserToDashboard lower orgData = PathConfig.STUDENT_DASHBOARD) ∧
    (∀ orgData', (∀ k, holdsRole lower orgData' k ↔ holdsRole lower orgData k) →
      routeUserToDashboard lower orgData' = routeUserToDashboard lower orgData) ∧
    (∀ f : String → String, (∀ n, lower (f n) = lower n) →
      routeUserToDashboard lower (renameRoles f orgData)
        = routeUserToDashboard lower orgData) := by
  have ha := contains_roleKeys_iff lower hlower orgData "administrator" (by decide)
  have hs := contains_roleKeys_iff lower hlower orgData "supervisor" (by decide)
  have hc := contains_roleKeys_iff lower hlower orgData "committee member" (by decide)
  have hm := contains_roleKeys_iff lower hlower orgData "marker" (by decide)
  have hr := routeUserToDashboard_of_roles lower orgData
  refine ⟨?_, ?_, ?_, ?_, ?_, ?_, ?_⟩
  · intro h1
    rw [hr]; dsimp only; rw [if_pos (ha.2 h1)]
  · intro h1 h2
    have n1 := mt ha.1 h1
    rw [hr]; dsimp only; rw [if_neg n1, if_pos (hs.2 h2)]
  · intro h1 h2 h3
    have n1 := mt ha.1 h1
    have n2 := mt hs.1 h2
    rw [hr]; dsimp only; rw [if_neg n1, if_neg n2, if_pos (hc.2 h3)]
  · intro h1 h2 h3 h4
    have n1 := mt ha.1 h1
    have n2 := mt hs.1 h2
    have n3 := mt hc.1 h3
    rw [hr]; dsimp only; rw [if_neg n1, if_neg n2, if_neg n3, if_pos (hm.2 h4)]
  · intro h1 h2 h3 h4
    have n1 := mt ha.1 h1
    have n2 := mt hs.1 h2
    have n3 := mt hc.1 h3
    have n4 := mt hm.1 h4
    rw [hr]; dsimp only; rw [if_neg n1, if_neg n2, if_neg n3, if_neg n4]
  · intro orgData' hsame
    apply routeUserToDashboard_congr
    intro k hk
    rw [Bool.eq_iff_iff, contains_roleKeys_iff lower hlower orgData' k hk,
      contains_roleKeys_iff lower hlower orgData k hk]
    exact hsame k
  · intro f hf
    apply routeUserToDashboard_congr
    intro k _
    rw [roleKeys_renameRoles lower f hlower hf orgData]

theorem routeUserToDashboard_precedence_witness :
    routeUserToDashboard asciiLower
        (some ⟨none, some [⟨2, some "Supervisor"⟩, ⟨1, some "ADMINISTRATOR"⟩], none⟩)
      = PathConfig.ADMIN_DASHBOARD :=
  (routeUserToDashboard_precedence asciiLower asciiLower_empty
    (some ⟨none, some [⟨2, some "Supervisor"⟩, ⟨1, some "ADMINISTRATOR"⟩], none⟩)).1
    ⟨⟨1, some "ADMINISTRATOR"⟩, by decide, "ADMINISTRATOR", rfl, by decide⟩

/-- C5: an authenticated principal without any role (or with a role that has no
dashboard) who requests the administrator page is denied, and the bootstrapper
redirects to the student dashboard, not to the login page with an error; the
student dashboard is itself denied to that principal. The notification handler's
`handleRedirect` does send a principal without roles to the login page with the
"no role" error. -/
theorem no_role_redirects_to_student_dashboard :
    checkPageAccess asciiLower "/admin.html" (some ⟨none, some [], none⟩) = false ∧
    initializeAppRouting asciiLower true "/admin.html" (some ⟨none, some [], none⟩)
      = .redirect "/student.html" ∧
    initializeAppRouting asciiLower true "/admin.html"
        (some ⟨none, some [⟨9, some "guest"⟩], none⟩)
      = .redirect "/student.html" ∧
    checkPageAccess asciiLower "/student.html" (some ⟨none, some [], none⟩) = false ∧
    (handleRedirect asciiLower (AuthState.initial true "/login.html")
        (some ⟨"u1", "a@b.c"⟩) (some ⟨none, some [], none⟩)).1.trace
      = [Effect.navigate (.loginWithError AUTH_ERRORS.NO_ROLE)] := by
  decide

/-! ## Claims on the role accessors and role resolution -/

theorem someRoleNamed_str (lower : String → String) (m : String) (rs : List Role) :
    someRoleNamed lower (.str m) rs = .ok true ∧
        (∃ r ∈ rs, ∃ n, r.name = some n ∧ n ≠ "" ∧ lower n = lower m) ∨
    someRoleNamed lower (.str m) rs = .ok false ∧
        ¬ (∃ r ∈ rs, ∃ n, r.name = some n ∧ n ≠ "" ∧ lower n = lower m) := by
  induction rs with
  | nil => right; simp [someRoleNamed]
  | cons r rest ih =>
    obtain ⟨id, name⟩ := r
    rcases name with _ | n
    · simpa [someRoleNamed] using ih
    · by_cases hn : n = ""
      · subst hn
        simpa [someRoleNamed] using ih
      · by_cases hl : lower n = lower m
        · left
          simp [someRoleNamed, hn, hl]
        · simpa [someRoleNamed, hn, hl] using ih

theorem someRoleNamed_malformed (lower : String → String) (rs : List Role) :
    someRoleNamed lower .malformed rs ≠ .ok true := by
  induction rs with
  | nil => simp [someRoleNamed]
  | cons r rest ih =>
    obtain ⟨id, name⟩ := r
    rcases name with _ | n
    · simpa [someRoleNamed] using ih
    · by_cases hn : n = ""
      · subst hn
        simpa [someRoleNamed] using ih
      · simp [someRoleNamed, hn]

theorem hasRole_eq (lower : String → String) (s : AuthState) (arg : RoleArg) :
    hasRole lower s arg
      = someRoleNamed lower arg (roleList s.authUserOrganizationData) := by
  unfold hasRole roleList
  rcases s.authUserOrganizationData with _ | ⟨org, roles, err⟩
  · rfl
  · rcases roles with _ | rs <;> rfl

theorem hasRole_of_no_roles (lower : String → String) (s : AuthState)
    (h : roleList s.authUserOrganizationData = []) (arg : RoleArg) :
    hasRole lower s arg = .ok false := by
  rw [hasRole_eq, h]
  rfl

/-- C6, as stated, fails: with a role whose name is the empty string, `hasRole('')`
returns false although that role's name equals the argument. -/
theorem hasRole_empty_name_counterexample :
    ¬ (hasRole asciiLower
          { AuthState.initial true "/student.html" with
            authUserOrganizationData := some ⟨none, some [⟨1, some ""⟩], none⟩ }
          (.str "") = .ok true ↔
        ∃ r ∈ [(⟨1, some ""⟩ : Role)], ∃ n, r.name = some n ∧
          asciiLower n = asciiLower "") := by
  intro h
  have h1 := h.2 ⟨⟨1, some ""⟩, by simp, "", rfl, rfl⟩
  have h2 : hasRole asciiLower
      { AuthState.initial true "/student.html" with
        authUserOrganizationData := some ⟨none, some [⟨1, some ""⟩], none⟩ }
      (.str "") = .ok false := rfl
  rw [h2] at h1
  cases h1

/-- C6, amended: `hasRole(name)` returns true exactly when `name` is a string and
the current role list contains a role whose name is present, not empty, and equal
to `name` ignoring letter case; on a string it never raises; when the role list
is empty or absent it returns false for every argument, malformed ones included,
without raising. -/
theorem hasRole_spec (lower : String → String) (s : AuthState) (arg : RoleArg) :
    (hasRole lower s arg = .ok true ↔
      ∃ m, arg = .str m ∧ ∃ r ∈ roleList s.authUserOrganizationData,
        ∃ n, r.name = some n ∧ n ≠ "" ∧ lower n = lower m) ∧
    (∀ m, arg = .str m → ∃ b, hasRole lower s arg = .ok b) ∧
    (roleList s.authUserOrganizationData = [] → hasRole lower s arg = .ok false) := by
  refine ⟨?_, ?_, fun h => hasRole_of_no_roles lower s h arg⟩
  · rw [hasRole_eq]
    cases arg with
    | malformed =>
      constructor
      · intro h
        exact absurd h (someRoleNamed_malformed lower _)
      · rintro ⟨m, hm, _⟩
        cases hm
    | str m =>
      rcases someRoleNamed_str lower m (roleList s.authUserOrganizationData) with
        ⟨h1, h2⟩ | ⟨h1, h2⟩
      · simp only [h1, true_iff]
        exact ⟨m, rfl, h2⟩
      · rw [h1]
        constructor
        · intro h
          cases h
        · rintro ⟨m', hm', h3⟩
          cases hm'
          exact absurd h3 h2
  · rintro m rfl
    rw [hasRole_eq]
    rcases someRoleNamed_str lower m (roleList s.authUserOrganizationData) with
      ⟨h1, _⟩ | ⟨h1, _⟩
    · exact ⟨true, h1⟩
    · exact ⟨false, h1⟩

/-- C7: if either lookup of role resolution fails (error reply or rejected
promise), `fetchUserOrganizationRoles` returns and publishes
`{organization:null, roles:[], error}` with the error set, emits one `AUTH_ERROR`
event as its last effect, and `hasRole` returns false for every argument at every
later point, as long as no later resolution succeeds. The function is total: the
`catch` block handles every failure, nothing is thrown to the caller. -/
theorem fetch_fails_closed (lower : String → String) (s : AuthState) (store : Store)
    (handle : Nat) (user : User)
    (hc : s.authSupabaseClient = some handle) (hu : s.authCurrentUser = some user)
    (hfail : resolutionFails store user.id = true) :
    ∃ message queries,
      (fetchUserOrganizationRoles s store).2 = ⟨none, some [], some message⟩ ∧
      (fetchUserOrganizationRoles s store).1.authUserOrganizationData
        = some ⟨none, some [], some message⟩ ∧
      (fetchUserOrganizationRoles s store).1.trace
        = s.trace ++ queries ++ [Effect.emit SystemEvents.AUTH_ERROR
            (.error "fetch_user_organization_roles" message)] ∧
      (∀ e ∈ queries, ∀ name detail, e ≠ Effect.emit name detail) ∧
      ∀ ops, noneResolves lower (fetchUserOrganizationRoles s store).1 ops →
        ∀ k arg, hasRole lower
          (runOps lower (fetchUserOrganizationRoles s store).1 (ops.take k)) arg
            = .ok false := by
  rcases fetch_cases s store handle user hc hu with
    ⟨_, message, queries, hq, he⟩ | ⟨hn, _⟩ | ⟨hn, _⟩
  · refine ⟨message, queries, ?_, ?_, ?_, ?_, ?_⟩
    · rw [he, fetchCatch_eq]
    · rw [he, fetchCatch_eq]; rfl
    · rw [he, fetchCatch_eq]; rfl
    · intro e he' name detail
      rcases hq with rfl | ⟨row, _, rfl⟩
      · simp at he'; subst he'; simp
      · simp at he'; rcases he' with rfl | rfl <;> simp
    · intro ops hops k arg
      apply hasRole_of_no_roles
      apply runOps_roleList_nil lower _ _ (noneResolves_take lower ops _ k hops)
      rw [he, fetchCatch_eq]; rfl
  · rw [hfail] at hn; cases hn
  · rw [hfail] at hn; cases hn

theorem fetch_fails_closed_witness :
    ∃ message queries,
      (fetchUserOrganizationRoles signedIn failingStore).2 = ⟨none, some [], some message⟩ ∧
      (fetchUserOrganizationRoles signedIn failingStore).1.authUserOrganizationData = some ⟨none, some [], some message⟩ ∧
      (fetchUserOrganizationRoles signedIn failingStore).1.trace
        = [] ++ queries ++ [Effect.emit SystemEvents.AUTH_ERROR
            (.error "fetch_user_organization_roles" message)] := by
  obtain ⟨message, queries, h1, h2, h3, _⟩ :=
    fetch_fails_closed asciiLower
      signedIn failingStore 1 ⟨"u1", "a@b.c"⟩ rfl rfl rfl
  exact ⟨message, queries, h1, h2, h3⟩

/-- C8, as stated, fails: a membership row exists (without organization id) and
the role query for that membership answers an administrator row, yet resolution
publishes an empty role list, as for a principal without membership row. -/
theorem membership_row_without_organization_counterexample :
    resolutionFails orphanStore "u1" = false ∧
    orphanStore.membership "u1" = .ok ⟨some ⟨5, none, none⟩, none⟩ ∧
    (roleRows orphanStore ⟨5, none, none⟩).filterMap id = [⟨1, some "administrator"⟩] ∧
    (fetchUserOrganizationRoles signedIn orphanStore).2 = ⟨none, some [], none⟩ ∧
    (fetchUserOrganizationRoles signedIn orphanStore).2
      ≠ ⟨none, some [⟨1, some "administrator"⟩], none⟩ := by
  refine ⟨rfl, rfl, rfl, rfl, by decide⟩

/-- C8, amended: when neither lookup fails, role resolution publishes
`{organization:null, roles:[]}` with no error field and no event if the principal
has no membership row or the row carries no organization id, and otherwise
publishes the membership's organization together with exactly the non-null role
rows returned for that membership, in lookup order (possibly none). -/
theorem fetch_resolves (s : AuthState) (store : Store) (handle : Nat) (user : User)
    (hc : s.authSupabaseClient = some handle) (hu : s.authCurrentUser = some user)
    (hok : resolutionFails store user.id = false) :
    (∃ reply, store.membership user.id = .ok reply ∧ reply.error = none ∧
      (membershipOf store user.id = none ↔
        (reply.data = none ∨
          ∃ row, reply.data = some row ∧ truthyId row.organization_id = false))) ∧
    (membershipOf store user.id = none →
      (fetchUserOrganizationRoles s store).2 = ⟨none, some [], none⟩ ∧
      (fetchUserOrganizationRoles s store).1.authUserOrganizationData
        = some ⟨none, some [], none⟩ ∧
      (fetchUserOrganizationRoles s store).1.trace
        = s.trace ++ [Effect.selectMembership user.id]) ∧
    (∀ row, membershipOf store user.id = some row →
      ∃ roles,
        roles.map some = (roleRows store row).filter (fun x => x.isSome) ∧
        (fetchUserOrganizationRoles s store).2 = ⟨row.organizations, some roles, none⟩ ∧
        (fetchUserOrganizationRoles s store).1.authUserOrganizationData
          = some ⟨row.organizations, some roles, none⟩ ∧
        (fetchUserOrganizationRoles s store).1.trace
          = s.trace ++
            [Effect.selectMembership user.id, Effect.selectMemberRoles row.id]) := by
  refine ⟨?_, ?_, ?_⟩
  · rcases hm : store.membership user.id with thrown | reply
    · simp [resolutionFails, queryFails, hm] at hok
    · have he : reply.error = none := by
        simp only [resolutionFails, queryFails, hm, Bool.or_eq_false_iff] at hok
        simpa using hok.1
      exact ⟨reply, rfl, he, membershipOf_eq_none_iff store user.id reply hm he⟩
  · intro hnone
    rcases fetch_cases s store handle user hc hu with
      ⟨hf, _⟩ | ⟨_, _, he⟩ | ⟨_, row, hrow, _⟩
    · rw [hok] at hf; cases hf
    · rw [he]; exact ⟨rfl, rfl, rfl⟩
    · rw [hnone] at hrow; cases hrow
  · intro row hrow
    rcases fetch_cases s store handle user hc hu with
      ⟨hf, _⟩ | ⟨_, hnone, _⟩ | ⟨_, row', hrow', he⟩
    · rw [hok] at hf; cases hf
    · rw [hnone] at hrow; cases hrow
    · rw [hrow] at hrow'
      cases hrow'
      refine ⟨(roleRows store row).filterMap id, map_some_filterMap_id _, ?_, ?_, ?_⟩
      · rw [he]
      · rw [he]; rfl
      · rw [he]; rfl

theorem fetch_resolves_witness :
    ∃ roles,
      roles.map some =
        (roleRows supervisorStore ⟨5, some 3, some ⟨3, "Faculty"⟩⟩).filter
          (fun x => x.isSome) ∧
      (fetchUserOrganizationRoles signedIn supervisorStore).2
        = ⟨some ⟨3, "Faculty"⟩, some roles, none⟩ ∧
      (fetchUserOrganizationRoles signedIn supervisorStore).1.authUserOrganizationData
        = some ⟨some ⟨3, "Faculty"⟩, some roles, none⟩ ∧
      (fetchUserOrganizationRoles signedIn supervisorStore).1.trace
        = signedIn.trace ++
          [Effect.selectMembership "u1", Effect.selectMemberRoles 5] :=
  (fetch_resolves signedIn supervisorStore 1 ⟨"u1", "a@b.c"⟩ rfl rfl rfl).2.2
    ⟨5, some 3, some ⟨3, "Faculty"⟩⟩ rfl

/-- C9, as stated, fails: for a membership without role rows the published role
list is empty although the organization is not null and the resolution did not
fail. -/
theorem empty_roles_with_membership_counterexample :
    ¬ ((fetchUserOrganizationRoles signedIn roleLessStore).2.roles = some [] ↔
        ((fetchUserOrganizationRoles signedIn roleLessStore).2.organization = none ∨
          resolutionFails roleLessStore "u1" = true)) := by
  intro h
  have h1 := h.1 rfl
  revert h1
  decide

/-- C9, amended: every context published by role resolution carries a role list,
and that list is empty if and only if the resolution was skipped (no handle or no
user), failed, found no membership (no row, or a row without organization id), or
found a membership none of whose role rows is non-null. -/
theorem fetch_roles_empty_iff (s : AuthState) (store : Store) :
    (fetchUserOrganizationRoles s store).1.authUserOrganizationData
      = some (fetchUserOrganizationRoles s store).2 ∧
    ∃ roles, (fetchUserOrganizationRoles s store).2.roles = some roles ∧
      (roles = [] ↔
        (s.authSupabaseClient = none ∨ s.authCurrentUser = none ∨
          ∃ user, s.authCurrentUser = some user ∧
            (resolutionFails store user.id = true ∨
              membershipOf store user.id = none ∨
              ∃ row, membershipOf store user.id = some row ∧
                ∀ x ∈ roleRows store row, x = none))) := by
  rcases hc : s.authSupabaseClient with _ | handle
  · rw [fetch_without_principal s store (Or.inl hc)]
    exact ⟨rfl, [], rfl, by simp⟩
  · rcases hu : s.authCurrentUser with _ | user
    · rw [fetch_without_principal s store (Or.inr hu)]
      exact ⟨rfl, [], rfl, by simp⟩
    · rcases fetch_cases s store handle user hc hu with
        ⟨hf, message, queries, _, he⟩ | ⟨_, hnone, he⟩ | ⟨hok, row, hrow, he⟩
      · rw [he, fetchCatch_eq]
        refine ⟨rfl, [], rfl, ?_⟩
        simp [hf]
      · rw [he]
        refine ⟨rfl, [], rfl, ?_⟩
        simp [hnone]
      · rw [he]
        refine ⟨rfl, _, rfl, ?_⟩
        rw [filterMap_id_eq_nil_iff]
        simp [hok, hrow]

/-! ## Claims on initialization -/

/-- C10: while an attempt is in flight (`authInitializing` set, `authInitialized`
not), every call of `initializeAuthModule` only registers a one-shot
`AUTH_MODULE_READY` listener and returns a pending promise: after any sequence of
such calls the trace (hence the gateway calls: handle acquisition, subscription,
session check) and all state flags are unchanged, and the attempt in flight makes
each of the three gateway calls at most once, exactly as without those calls. -/
theorem initialize_while_initializing (s : AuthState)
    (hn : s.authInitialized = false) (hi : s.authInitializing = true)
    (gws : List Gateway) :
    (∀ gw, initializeAuthModule s gw
      = ({ s with readyWaiters := s.readyWaiters + 1 }, InitResult.pending)) ∧
    initializeCalls s gws = { s with readyWaiters := s.readyWaiters + gws.length } ∧
    (initializeCalls s gws).trace = s.trace ∧
    gatewayCalls (initializeCalls s gws).trace = gatewayCalls s.trace ∧
    (initializeCalls s gws).authInitialized = false ∧
    (initializeCalls s gws).authInitializing = true ∧
    (initializeCalls s gws).authSupabaseClient = s.authSupabaseClient ∧
    (∀ s0 gw, s0.authInitialized = false → s0.authInitializing = false →
      s = beginAttempt s0 →
      gatewayCalls (runAttempt (initializeCalls s gws) gw).1.trace
        = gatewayCalls (initializeAuthModule s0 gw).1.trace ∧
      gatewayCalls (runAttempt (initializeCalls s gws) gw).1.trace
        = gatewayCalls s0.trace ++ attemptCalls gw ∧
      (attemptCalls gw).count Effect.getSupabaseClient ≤ 1 ∧
      (attemptCalls gw).count Effect.onAuthStateChange ≤ 1 ∧
      (attemptCalls gw).count Effect.getSession ≤ 1) := by
  have hcalls := initializeCalls_inflight gws s hn hi
  refine ⟨?_, hcalls, ?_, ?_, ?_, ?_, ?_, ?_⟩
  · intro gw
    simp [initializeAuthModule, hn, hi]
  · rw [hcalls]
  · rw [hcalls]
  · rw [hcalls]; exact hn
  · rw [hcalls]; exact hi
  · rw [hcalls]
  · intro s0 gw h0 h0' hs
    have htrace : (initializeCalls s gws).trace = s0.trace := by
      rw [hcalls, hs]; rfl
    have hrun : gatewayCalls (runAttempt (initializeCalls s gws) gw).1.trace
        = gatewayCalls s0.trace ++ attemptCalls gw := by
      rw [gatewayCalls_runAttempt, htrace]
    have hinit : gatewayCalls (initializeAuthModule s0 gw).1.trace
        = gatewayCalls s0.trace ++ attemptCalls gw := by
      simp only [initializeAuthModule, h0, h0', Bool.false_eq_true, if_false]
      rw [gatewayCalls_runAttempt]
      rfl
    refine ⟨by rw [hrun, hinit], hrun, ?_, ?_, ?_⟩ <;>
      (unfold attemptCalls; split_ifs <;> decide)

theorem initialize_while_initializing_witness :
    initializeCalls (beginAttempt (AuthState.initial true "/login.html"))
        [anonymousGateway, anonymousGateway]
      = { beginAttempt (AuthState.initial true "/login.html") with readyWaiters := 2 } :=
  (initialize_while_initializing (beginAttempt (AuthState.initial true "/login.html"))
    rfl rfl [anonymousGateway, anonymousGateway]).2.1

/-! ## Claims on the event bus -/

namespace EventBus

/-- C20, as stated, fails: the one-shot listener `quietOnce` is registered for
`"e"` before `emitEvent("e", 1)` is called, and that call never hands it the detail
1: the first listener emits `"e"` again from its callback, the nested dispatch
serves and unregisters `quietOnce`, and the outer dispatch then skips it. -/
theorem emitEvent_skips_served_listener_counterexample :
    nestedBus.WellFormed ∧
    quietOnce.id ∈ subscribers nestedBus "e" ∧
    (emitEvent 3 nestedBus "e" 1).overflow = false ∧
    (emitEvent 3 nestedBus "e" 1).delivered = [(0, 1), (0, 2), (1, 2)] ∧
    (quietOnce.id, 1) ∉ (emitEvent 3 nestedBus "e" 1).delivered := by
  refine ⟨⟨by decide, by decide, by decide⟩, by decide, by decide, by decide, by decide⟩

/-- C20, amended: `emitEvent(name, detail)` synchronously takes the subscribers
registered for `name` before the call in registration order, one turn each. At
its turn a subscriber is handed `detail`, and what its callback does follows
before the next turn; the only subscriber whose turn is empty is a one-shot
subscriber that a nested emit of the same event, made from a callback earlier in
the call, has already served and thereby removed. So a permanent subscriber is
always handed `detail`; when no callback registered for `name` emits, every
subscriber registered before the call is handed `detail` exactly once; and
whatever the callbacks do, a subscriber registered after the call returned is
handed nothing by it (no queue, no replay). -/
theorem emitEvent_fan_out {δ : Type} (fuel : Nat) (bus : Bus δ) (name : String)
    (detail : δ) (hwf : bus.WellFormed) :
    (emitEvent fuel bus name detail).WellFormed ∧
    (∃ turns : List (List (Nat × δ)),
      turns.length = (listenersFor bus name).length ∧
      (emitEvent (fuel + 1) bus name detail).delivered = bus.delivered ++ turns.flatten ∧
      (∀ i l, (listenersFor bus name)[i]? = some l → ∃ turn, turns[i]? = some turn ∧
        (turn.head? = some (l.id, detail) ∨
          (turn = [] ∧ l.once = true ∧ ∃ d, (l.id, d) ∈ (turns.take i).flatten))) ∧
      (∀ l ∈ listenersFor bus name, l.once = false → (l.id, detail) ∈ turns.flatten)) ∧
    ((∀ l ∈ bus.listeners, l.name = name → ∀ a ∈ l.react detail, a.isEmit = false) →
      (emitEvent (fuel + 1) bus name detail).delivered
        = bus.delivered ++ (subscribers bus name).map (fun i => (i, detail))) ∧
    (∀ name' react once,
      (onEvent (emitEvent fuel bus name detail) name' react once).listeners
        = (emitEvent fuel bus name detail).listeners ++
          [⟨(emitEvent fuel bus name detail).nextId, name', once, react⟩] ∧
      ∀ p ∈ (onEvent (emitEvent fuel bus name detail) name' react once).delivered,
        p.1 ≠ (emitEvent fuel bus name detail).nextId) := by
  have h := (emitEvent_wellFormed fuel bus name detail hwf).1
  refine ⟨h, ?_, emitEvent_quiet fuel bus name detail hwf, ?_⟩
  · obtain ⟨turns, hlen, hd, hturns⟩ := emitEvent_turns fuel bus name detail hwf
    refine ⟨turns, hlen, hd, hturns, ?_⟩
    intro l hl ho
    obtain ⟨i, hi⟩ := List.mem_iff_getElem?.1 hl
    obtain ⟨turn, ht, hcase⟩ := hturns i l hi
    rcases hcase with hh | ⟨_, ho', _⟩
    · have hmem : turn ∈ turns := List.mem_iff_getElem?.2 ⟨i, ht⟩
      have hin : (l.id, detail) ∈ turn := List.mem_of_mem_head? hh
      exact List.mem_flatten.2 ⟨turn, hmem, hin⟩
    · rw [ho] at ho'
      cases ho'
  · intro name' react once
    refine ⟨rfl, ?_⟩
    intro p hp
    exact Nat.ne_of_lt (h.2.2 p hp)

theorem emitEvent_fan_out_witness :
    (emitEvent 1 plainBus "e" 7).delivered = [(0, 7), (2, 7)] ∧
    ∃ turns : List (List (Nat × Nat)),
      turns.length = (listenersFor nestedBus "e").length ∧
      (emitEvent 3 nestedBus "e" 1).delivered = nestedBus.delivered ++ turns.flatten ∧
      (∀ i l, (listenersFor nestedBus "e")[i]? = some l → ∃ turn, turns[i]? = some turn ∧
        (turn.head? = some (l.id, 1) ∨
          (turn = [] ∧ l.once = true ∧ ∃ d, (l.id, d) ∈ (turns.take i).flatten))) ∧
      (∀ l ∈ listenersFor nestedBus "e", l.once = false → (l.id, 1) ∈ turns.flatten) :=
  ⟨(emitEvent_fan_out 0 plainBus "e" 7 ⟨by decide, by decide, by decide⟩).2.2.1
      (by decide),
    (emitEvent_fan_out 2 nestedBus "e" 1 ⟨by decide, by decide, by decide⟩).2.1⟩

end EventBus

/-! ## Claims on initialization results and retries -/

/-- C11: a caller that starts an attempt and a caller that joined it both get the
payload `{initialized:true, user, organization}` of the `AUTH_MODULE_READY` event,
but a caller that finds the module already initialized gets `{user, organization}`
without the `initialized` property, although the event it emits carries
`initialized:true`. -/
theorem initialize_when_ready_omits_initialized :
    (runAttempt (initializeCalls (beginAttempt (AuthState.initial true "/login.html"))
        [anonymousGateway]) anonymousGateway).2
      = .value (some true) none none none ∧
    (runAttempt (initializeCalls (beginAttempt (AuthState.initial true "/login.html"))
        [anonymousGateway]) anonymousGateway).1.trace
      = [Effect.getSupabaseClient, Effect.onAuthStateChange, Effect.getSession,
          Effect.emit SystemEvents.AUTH_MODULE_READY (.ready true none none),
          Effect.resolveWaiter (.ready true none none)] ∧
    (runAttempt (initializeCalls (beginAttempt (AuthState.initial true "/login.html"))
        [anonymousGateway]) anonymousGateway).1.authInitialized = true ∧
    (initializeAuthModule
        (runAttempt (initializeCalls (beginAttempt (AuthState.initial true "/login.html"))
          [anonymousGateway]) anonymousGateway).1 anonymousGateway).2
      = .value none none none none ∧
    (InitResult.value none none none none : InitResult)
      ≠ .value (some true) none none none := by
  decide

/-- C12, as stated, fails: the session check fails without throwing, that is
`auth.getSession()` resolves to a reply that carries an error and no session.
`initializeAuthModule` does not read the error: the attempt ends initialized, the
only event is `AUTH_MODULE_READY`, no `AUTH_ERROR` is emitted, and the caller gets
`{initialized:true, user:null, organization:null}`. -/
theorem session_error_ends_ready_counterexample :
    sessionCheckFails sessionErrorGateway = true ∧
    (initializeAuthModule (AuthState.initial true "/login.html") sessionErrorGateway).2
      = .value (some true) none none none ∧
    (initializeAuthModule (AuthState.initial true "/login.html")
      sessionErrorGateway).1.authInitialized = true ∧
    emitted (initializeAuthModule (AuthState.initial true "/login.html")
      sessionErrorGateway).1.trace
      = [(SystemEvents.AUTH_MODULE_READY, .ready true none none)] ∧
    SystemEvents.AUTH_ERROR ∉ (emitted (initializeAuthModule
      (AuthState.initial true "/login.html") sessionErrorGateway).1.trace).map Prod.fst := by
  decide

/-- C12, amended: whatever the gateway does, `initializeAuthModule` returns (it is
total: its `catch` block handles every exception). When an exception is raised in
the attempt (`getSupabaseClient` missing or returning no handle, the subscription
throwing, or the promise of the session check rejecting) it leaves the state
neither initialized nor initializing, emits exactly one event, `AUTH_ERROR` with
context `initialization`, and returns `{initialized:false, error}`; in every other
case, a session check that resolves with an error included, it returns
`{initialized:true, user, organization}` and the state is initialized; the error
of a resolved session check has no influence on the outcome. -/
theorem initializeAuthModule_failure (s : AuthState) (gw : Gateway)
    (hn : s.authInitialized = false) (hi : s.authInitializing = false) :
    (attemptFails gw = true →
      ∃ message,
        (initializeAuthModule s gw).2 = .value (some false) none none (some message) ∧
        (initializeAuthModule s gw).1.authInitialized = false ∧
        (initializeAuthModule s gw).1.authInitializing = false ∧
        (initializeAuthModule s gw).1.trace = s.trace ++ attemptCalls gw ++
          [Effect.emit SystemEvents.AUTH_ERROR (.error "initialization" message)] ∧
        emitted (initializeAuthModule s gw).1.trace = emitted s.trace ++
          [(SystemEvents.AUTH_ERROR, .error "initialization" message)]) ∧
    (attemptFails gw = false →
      (initializeAuthModule s gw).2
        = .value (some true) (initializeAuthModule s gw).1.authCurrentUser
            (initializeAuthModule s gw).1.authUserOrganizationData none ∧
      (initializeAuthModule s gw).1.authInitialized = true ∧
      (initializeAuthModule s gw).1.authInitializing = false) ∧
    (∀ e, initializeAuthModule s { gw with sessionError := e } = initializeAuthModule s gw) := by
  have hrun : initializeAuthModule s gw = runAttempt (beginAttempt s) gw := by
    simp [initializeAuthModule, hn, hi]
  have hsame : ∀ e, initializeAuthModule s { gw with sessionError := e }
      = initializeAuthModule s gw := fun _ => rfl
  refine ⟨?_, ?_, hsame⟩
  swap
  · rw [hrun]
    exact runAttempt_of_succeeds (beginAttempt s) gw
  rw [hrun]
  intro hfail
  obtain ⟨message, h1, h2, h3, h4⟩ := runAttempt_of_fails (beginAttempt s) gw hfail
  refine ⟨message, h1, h2, h3, h4, ?_⟩
  rw [h4, emitted_append, emitted_append]
  have hcalls : emitted (attemptCalls gw) = [] := by
    unfold attemptCalls
    split_ifs <;> rfl
  rw [hcalls]
  simp [emitted, beginAttempt]

theorem initializeAuthModule_failure_witness :
    ∃ message,
      (initializeAuthModule (AuthState.initial true "/login.html")
        unavailableGateway).2 = .value (some false) none none (some message) ∧
      (initializeAuthModule (AuthState.initial true "/login.html")
        unavailableGateway).1.authInitialized = false ∧
      (initializeAuthModule (AuthState.initial true "/login.html")
        unavailableGateway).1.authInitializing = false := by
  obtain ⟨message, h1, h2, h3, _⟩ :=
    (initializeAuthModule_failure (AuthState.initial true "/login.html")
      unavailableGateway rfl rfl).1 rfl
  exact ⟨message, h1, h2, h3⟩

/-- C13: `window.authModule.initialize()` runs `initializeAuthModule` exactly once,
whatever the gateway answers: `initializeAuthModule` returns `{initialized:false}`
instead of throwing, so `attempt` sees a success and never retries. With a handle
that is unavailable on every try there is one handle acquisition, not
`AUTH_MAX_RETRIES = 3`, before the state is left failed. -/
theorem initialize_never_retries (s : AuthState) (gws : Nat → Gateway) :
    authModuleInitialize s gws
      = some (((initializeAuthModule s (gws 0)).1, 1),
          .ok (some (initializeAuthModule s (gws 0)).2)) ∧
    AUTH_MAX_RETRIES = 3 ∧
    attemptFails unavailableGateway = true ∧
    (authModuleInitialize (AuthState.initial true "/login.html")
        (fun _ => unavailableGateway)).map (fun r => r.1.2) = some 1 ∧
    (authModuleInitialize (AuthState.initial true "/login.html")
        (fun _ => unavailableGateway)).map (fun r => gatewayCalls r.1.1.trace)
      = some [Effect.getSupabaseClient] ∧
    (authModuleInitialize (AuthState.initial true "/login.html")
        (fun _ => unavailableGateway)).map
          (fun r => (r.1.1.authInitialized, r.1.1.authInitializing))
      = some (false, false) := by
  refine ⟨rfl, rfl, rfl, ?_, ?_, ?_⟩ <;> decide

/-! ## Claims on the notification handler -/

/-- C14, as stated, fails: on the password-reset page a `SIGNED_IN` notification
for an administrator leaves the location unchanged. -/
theorem signed_in_on_reset_page_counterexample :
    (onPage PathConfig.RESET_PASSWORD_PAGE).pathname = "/reset-password.html" ∧
    (authStateHandler asciiLower (onPage PathConfig.RESET_PASSWORD_PAGE) "SIGNED_IN"
      someSession administratorStore).2 = none ∧
    navigations (authStateHandler asciiLower (onPage PathConfig.RESET_PASSWORD_PAGE)
      "SIGNED_IN" someSession administratorStore).1.trace = [] := by
  decide

/-- C14, amended: on a `SIGNED_IN` notification with a principal present, with
`PathConfig` loaded and every resolved role carrying a name, the handler assigns
the location exactly once if the current location is the login page or the root
page (`/`, `/index.html`), and leaves it unchanged on every other page, the
password-reset page included. -/
theorem signed_in_redirect (lower : String → String) (s : AuthState)
    (session : Option Session) (store : Store) (user : User)
    (hu : session.bind (fun x => x.user) = some user) (hcfg : s.pathConfig = true)
    (hnames : ∀ r ∈ roleList
      (fetchUserOrganizationRoles (withUser s user) store).1.authUserOrganizationData,
      r.name ≠ none) :
    (onLoginOrRootPage s.pathname →
      ∃ href, navigations (authStateHandler lower s "SIGNED_IN" session store).1.trace
        = navigations s.trace ++ [href]) ∧
    (¬ onLoginOrRootPage s.pathname →
      navigations (authStateHandler lower s "SIGNED_IN" session store).1.trace
        = navigations s.trace) := by
  have hnav := handler_signed_in_navigations lower s session store user hu
  rw [hcfg] at hnav
  constructor
  · intro hpage
    obtain ⟨href, hh⟩ := handleRedirectTarget_of_login lower s.pathname user _ hpage hnames
    rw [hh] at hnav
    exact ⟨href, hnav⟩
  · intro hpage
    rw [handleRedirectTarget_of_content lower s.pathname _ _ hpage] at hnav
    simpa using hnav

theorem signed_in_redirect_witness :
    ∃ href, navigations (authStateHandler asciiLower (onPage "/login.html") "SIGNED_IN"
        someSession administratorStore).1.trace
      = navigations (onPage "/login.html").trace ++ [href] :=
  (signed_in_redirect asciiLower (onPage "/login.html") someSession administratorStore
    ⟨"u1", "a@b.c"⟩ rfl rfl (by decide)).1 (by unfold onLoginOrRootPage; decide)

/-- C15: while the current location is the login page (the pathname ends with the
login page identifier), `SIGNED_OUT` notifications without principal perform no
redirect, however many arrive: no location is assigned. -/
theorem signed_out_on_login_page (lower : String → String) (s : AuthState)
    (hpage : endsWith s.pathname PathConfig.LOGIN = true)
    (notes : List (Option Session × Store))
    (hnone : ∀ n ∈ notes, n.1.bind (fun x => x.user) = none) :
    navigations (runOps lower s (signedOutNotifications notes)).trace
      = navigations s.trace ∧
    (runOps lower s (signedOutNotifications notes)).pathname = s.pathname := by
  induction notes generalizing s with
  | nil => exact ⟨rfl, rfl⟩
  | cons n rest ih =>
    have hu := hnone n (List.mem_cons_self _ _)
    have hstep := handler_of_no_user lower s "SIGNED_OUT" n.1 n.2 hu
    rw [if_neg (by simp [hpage])] at hstep
    have hrun : runOps lower s (signedOutNotifications (n :: rest))
        = runOps lower (authStateHandler lower s "SIGNED_OUT" n.1 n.2).1
            (signedOutNotifications rest) := rfl
    have hs' : (authStateHandler lower s "SIGNED_OUT" n.1 n.2).1.pathname = s.pathname := by
      rw [hstep]
    have ht' : navigations (authStateHandler lower s "SIGNED_OUT" n.1 n.2).1.trace
        = navigations s.trace := by
      rw [hstep]
      simp [navigations]
    obtain ⟨h1, h2⟩ := ih (authStateHandler lower s "SIGNED_OUT" n.1 n.2).1
      (by rw [hs']; exact hpage)
      (fun n' hn' => hnone n' (List.mem_cons_of_mem _ hn'))
    rw [hrun]
    exact ⟨h1.trans ht', h2.trans hs'⟩

theorem signed_out_on_login_page_witness :
    navigations (runOps asciiLower (onPage "/login.html")
        (signedOutNotifications [(none, failingStore), (none, failingStore)])).trace
      = navigations (onPage "/login.html").trace :=
  (signed_out_on_login_page asciiLower (onPage "/login.html") (by decide)
    [(none, failingStore), (none, failingStore)] (by simp)).1

/-- C16, as stated, fails: a `SIGNED_OUT` notification without principal that
arrives on the password-reset page, a public page, redirects to the login page. -/
theorem signed_out_on_reset_page_counterexample :
    navigations (authStateHandler asciiLower (onPage PathConfig.RESET_PASSWORD_PAGE)
      "SIGNED_OUT" none failingStore).1.trace = [Href.page PathConfig.LOGIN] := by
  decide

/-- C16, amended: on a notification with no principal the user and the
organization data are cleared, and for kind `SIGNED_OUT` the location is
redirected to the login page if and only if `PathConfig` is loaded and the current
pathname does not end with the login page identifier (so also from the
password-reset page); for every other kind the location is unchanged. -/
theorem no_principal_notification (lower : String → String) (s : AuthState)
    (event : String) (session : Option Session) (store : Store)
    (hu : session.bind (fun x => x.user) = none) :
    (authStateHandler lower s event session store).1.authUserOrganizationData = none ∧
    (authStateHandler lower s event session store).1.authCurrentUser = none ∧
    (event = "SIGNED_OUT" → s.pathConfig = true →
      endsWith s.pathname PathConfig.LOGIN = false →
      navigations (authStateHandler lower s event session store).1.trace
        = navigations s.trace ++ [Href.page PathConfig.LOGIN]) ∧
    (event = "SIGNED_OUT" →
      (s.pathConfig = false ∨ endsWith s.pathname PathConfig.LOGIN = true) →
      navigations (authStateHandler lower s event session store).1.trace
        = navigations s.trace) ∧
    (event ≠ "SIGNED_OUT" →
      navigations (authStateHandler lower s event session store).1.trace
        = navigations s.trace) := by
  have hstep := handler_of_no_user lower s event session store hu
  rw [hstep]
  refine ⟨?_, ?_, ?_, ?_, ?_⟩
  · split_ifs <;> rfl
  · split_ifs <;> rfl
  · intro he hcfg hend
    rw [if_pos ⟨he, hcfg, hend⟩]
    simp [navigations]
  · intro he hor
    rw [if_neg (by rcases hor with h | h <;> simp [h])]
    simp [navigations]
  · intro he
    rw [if_neg (by simp [he])]
    simp [navigations]

theorem no_principal_notification_witness :
    (authStateHandler asciiLower signedIn "SIGNED_OUT" none
      failingStore).1.authUserOrganizationData = none ∧
    navigations (authStateHandler asciiLower signedIn "SIGNED_OUT" none
        failingStore).1.trace
      = navigations signedIn.trace ++ [Href.page PathConfig.LOGIN] :=
  ⟨(no_principal_notification asciiLower signedIn "SIGNED_OUT" none failingStore rfl).1,
    (no_principal_notification asciiLower signedIn "SIGNED_OUT" none failingStore
      rfl).2.2.1 rfl rfl (by decide)⟩

/-- C17: on the login page, a `SIGNED_IN` notification whose role resolution
returns a role row with a missing name makes `handleRedirect` raise a `TypeError`
(`role.name.toLowerCase()` on `null`); the exception escapes the handler and no
`AUTH_STATE_CHANGED` event is emitted. -/
theorem state_changed_lost_on_nameless_role :
    (authStateHandler asciiLower (onPage "/login.html") "SIGNED_IN" someSession
        namelessStore).2
      = some "TypeError: Cannot read properties of null (reading 'toLowerCase')" ∧
    (authStateHandler asciiLower (onPage "/login.html") "SIGNED_IN" someSession
        namelessStore).1.trace
      = [Effect.selectMembership "u1", Effect.selectMemberRoles 5,
          Effect.emit SystemEvents.AUTH_LOGIN_SUCCESS
            (.loginSuccess (some ⟨"u1", "a@b.c"⟩)
              (some ⟨some ⟨3, "Faculty"⟩, some [⟨1, none⟩], none⟩))] ∧
    (emitted (authStateHandler asciiLower (onPage "/login.html") "SIGNED_IN" someSession
        namelessStore).1.trace).map Prod.fst = [SystemEvents.AUTH_LOGIN_SUCCESS] := by
  decide

/-! ## Claims on login and logout -/

/-- C18: `loginWithEmailPassword` assigns no location and leaves the current
user and the organization data unchanged; it is total (its `catch` block handles
every exception). It returns `{success:false, error}` without any effect when the
handle is missing, `{success:true, user}` when the gateway reports no error, and
`{success:false, error}` after emitting `AUTH_LOGIN_FAILED` when the gateway
reports or throws an error. -/
theorem loginWithEmailPassword_spec (s : AuthState) (email : String)
    (reply : Except String (Reply SignInData)) :
    (loginWithEmailPassword s email reply).1.authCurrentUser = s.authCurrentUser ∧
    (loginWithEmailPassword s email reply).1.authUserOrganizationData
      = s.authUserOrganizationData ∧
    navigations (loginWithEmailPassword s email reply).1.trace = navigations s.trace ∧
    (s.authSupabaseClient = none →
      loginWithEmailPassword s email reply
        = (s, .failure AUTH_ERRORS.SUPABASE_NOT_AVAILABLE)) ∧
    (s.authSupabaseClient ≠ none → ∀ data, reply = .ok ⟨data, none⟩ →
      (loginWithEmailPassword s email reply).2 = .success data.user ∧
      emitted (loginWithEmailPassword s email reply).1.trace = emitted s.trace ++
        [(SystemEvents.APP_LOADING, .loading "login" true),
          (SystemEvents.APP_LOADING, .loading "login" false)]) ∧
    (s.authSupabaseClient ≠ none → ∀ message,
      (reply = .error message ∨ ∃ data, reply = .ok ⟨data, some message⟩) →
      (loginWithEmailPassword s email reply).2
        = .failure (if message = "" then AUTH_ERRORS.INVALID_CREDENTIALS else message) ∧
      emitted (loginWithEmailPassword s email reply).1.trace = emitted s.trace ++
        [(SystemEvents.APP_LOADING, .loading "login" true),
          (SystemEvents.AUTH_LOGIN_FAILED, .loginFailed message),
          (SystemEvents.APP_LOADING, .loading "login" false)]) := by
  rcases hc : s.authSupabaseClient with _ | handle
  · rw [login_without_handle s email reply hc]
    simp
  · have hframe : (loginWithEmailPassword s email reply).1.authCurrentUser
          = s.authCurrentUser ∧
        (loginWithEmailPassword s email reply).1.authUserOrganizationData
          = s.authUserOrganizationData ∧
        navigations (loginWithEmailPassword s email reply).1.trace
          = navigations s.trace := by
      rcases login_reply_cases reply with ⟨data, rfl⟩ | ⟨message, hr⟩
      · rw [login_succeeds s email data handle hc]
        simp [navigations]
      · rw [login_fails s email reply message handle hc hr]
        simp [navigations]
    refine ⟨hframe.1, hframe.2.1, hframe.2.2, by simp, ?_, ?_⟩
    · rintro _ data rfl
      rw [login_succeeds s email data handle hc]
      simp [emitted]
    · rintro _ message hr
      rw [login_fails s email reply message handle hc hr]
      simp [emitted]

/-- C19: a successful `logout()` followed by the handling of the resulting
`SIGNED_OUT` notification emits the loading events and `AUTH_STATE_CHANGED`, and
no `AUTH_LOGOUT_SUCCESS` event: `logout` leaves the emission to the notification
handler, which does not emit it either. -/
theorem logout_success_event_never_emitted :
    (logout signedIn (.ok none)).2 = .success none ∧
    emitted (authStateHandler asciiLower (logout signedIn (.ok none)).1 "SIGNED_OUT"
        none failingStore).1.trace
      = [(SystemEvents.APP_LOADING, .loading "logout" true),
          (SystemEvents.APP_LOADING, .loading "logout" false),
          (SystemEvents.AUTH_STATE_CHANGED, .stateChanged "SIGNED_OUT" none none)] ∧
    SystemEvents.AUTH_LOGOUT_SUCCESS ∉
      (emitted (authStateHandler asciiLower (logout signedIn (.ok none)).1 "SIGNED_OUT"
        none failingStore).1.trace).map Prod.fst := by
  decide

/-! ## Lemmas on retries -/

theorem stateAfter_succ {σ ε α : Type} (fn : σ → σ × Except ε α) (k : Nat) (s : σ) :
    stateAfter fn (k + 1) s = (fn (stateAfter fn k s)).1 := by
  induction k generalizing s with
  | zero => rfl
  | succ k ih =>
    show stateAfter fn (k + 1) (fn s).1 = _
    rw [ih]
    rfl

/-- The loop of `attempt` entered with `retries` failures behind it and at least
`maxRetries - retries` fuel. -/
theorem attemptLoop_spec {σ ε α : Type} (fn : σ → σ × Except ε α) (maxRetries : Nat) :
    ∀ (d fuel retries : Nat) (s : σ), retries + d = maxRetries → 1 ≤ d → d ≤ fuel →
      (∃ k v, k < d ∧ (∀ i < k, ∃ e, outcomeAt fn i s = .error e) ∧
          outcomeAt fn k s = .ok v ∧
          attemptLoop fn maxRetries fuel retries s
            = some (stateAfter fn (k + 1) s, .ok (some v))) ∨
      (∃ e, (∀ i < d, ∃ e', outcomeAt fn i s = .error e') ∧
          outcomeAt fn (d - 1) s = .error e ∧
          attemptLoop fn maxRetries fuel retries s = some (stateAfter fn d s, .error e)) := by
  intro d
  induction d with
  | zero => intro fuel retries s _ h; exact absurd h (by decide)
  | succ d ih =>
    intro fuel retries s hsum _ hfuel
    obtain ⟨fuel', rfl⟩ : ∃ f, fuel = f + 1 := ⟨fuel - 1, by omega⟩
    have hlt : retries < maxRetries := by omega
    rcases hfn : fn s with ⟨s', err | val⟩
    swap
    · -- the call succeeds
      left
      refine ⟨0, val, Nat.succ_pos _, fun i hi => absurd hi (Nat.not_lt_zero _), ?_, ?_⟩
      · simp [outcomeAt, stateAfter, hfn]
      · simp [attemptLoop, hlt, hfn, stateAfter]
    · -- the call fails
      by_cases hlast : d = 0
      · subst hlast
        right
        refine ⟨err, ?_, ?_, ?_⟩
        · intro i hi
          have : i = 0 := by omega
          subst this
          exact ⟨err, by simp [outcomeAt, stateAfter, hfn]⟩
        · simp [outcomeAt, stateAfter, hfn]
        · have : maxRetries ≤ retries + 1 := by omega
          simp [attemptLoop, hlt, hfn, stateAfter, this]
      · have hstep : attemptLoop fn maxRetries (fuel' + 1) retries s
            = attemptLoop fn maxRetries fuel' (retries + 1) s' := by
          have : ¬ maxRetries ≤ retries + 1 := by omega
          simp [attemptLoop, hlt, hfn, this]
        have hs' : s' = (fn s).1 := by rw [hfn]
        rcases ih fuel' (retries + 1) s' (by omega) (by omega) (by omega) with
          ⟨k, w, hk, hbefore, hat, hres⟩ | ⟨e', hall, hat, hres⟩
        · left
          refine ⟨k + 1, w, by omega, ?_, ?_, ?_⟩
          · intro i hi
            cases i with
            | zero => exact ⟨err, by simp [outcomeAt, stateAfter, hfn]⟩
            | succ i =>
              obtain ⟨e'', he''⟩ := hbefore i (by omega)
              exact ⟨e'', by simpa [outcomeAt, stateAfter, hs'] using he''⟩
          · simpa [outcomeAt, stateAfter, hs'] using hat
          · rw [hstep, hres]
            simp [stateAfter, hs']
        · right
          refine ⟨e', ?_, ?_, ?_⟩
          · intro i hi
            cases i with
            | zero => exact ⟨err, by simp [outcomeAt, stateAfter, hfn]⟩
            | succ i =>
              obtain ⟨e'', he''⟩ := hall i (by omega)
              exact ⟨e'', by simpa [outcomeAt, stateAfter, hs'] using he''⟩
          · obtain ⟨d', rfl⟩ : ∃ d', d = d' + 1 := ⟨d - 1, by omega⟩
            simpa [outcomeAt, stateAfter, hs'] using hat
          · rw [hstep, hres]
            simp [stateAfter, hs']

/-! ## Lemmas on the client module -/

theorem getSupabaseClient_of_instance (env : ClientEnv) (c : ClientState) (h : Nat)
    (hc : c.supabaseClientInstance = some h) :
    getSupabaseClient env c = (c, some h) := by
  simp [getSupabaseClient, hc]

theorem verifyConnection_frame (c : ClientState) (reply : Bool) :
    (verifyConnection c reply).1.supabaseClientInstance = c.supabaseClientInstance ∧
    (verifyConnection c reply).1.created = c.created := by
  unfold verifyConnection
  split
  · exact ⟨rfl, rfl⟩
  · split
    · exact ⟨rfl, rfl⟩
    · split <;> exact ⟨rfl, rfl⟩

theorem initializeWithRetries_keeps (env : ClientEnv) (replies : Nat → Bool)
    (c : ClientState) (h : Nat) (hc : c.supabaseClientInstance = some h)
    (hk : (c.connectionVerified || replies 0) = true) :
    (initializeWithRetries env replies c).1.supabaseClientInstance = some h ∧
    (initializeWithRetries env replies c).1.created = c.created ∧
    (initializeWithRetries env replies c).2 = some h := by
  have hget := getSupabaseClient_of_instance env c h hc
  have hver : ∃ c', verifyConnection c (replies 0) = (c', .ok true) ∧
      c'.supabaseClientInstance = some h ∧ c'.created = c.created := by
    by_cases hv : c.connectionVerified = true
    · exact ⟨c, by simp [verifyConnection, hv], hc, rfl⟩
    · have hr : replies 0 = true := by simpa [hv] using hk
      exact ⟨{ c with connectionVerified := true },
        by simp [verifyConnection, hv, hc, hr], hc, rfl⟩
  obtain ⟨c', hv, h1, h2⟩ := hver
  have : initializeWithRetries env replies c = (c', some h) := by
    simp [initializeWithRetries, initializeWithRetriesLoop, MAX_RETRIES, hget, hv]
  rw [this]
  exact ⟨h1, h2, rfl⟩

theorem run_keeps (env : ClientEnv) (c : ClientState) (op : ClientOp) (h : Nat)
    (hc : c.supabaseClientInstance = some h) (hk : op.keeps c = true) :
    (op.run env c).supabaseClientInstance = some h ∧ (op.run env c).created = c.created := by
  cases op with
  | get =>
    have hrun : ClientOp.get.run env c = c := by
      simp [ClientOp.run, getSupabaseClient_of_instance env c h hc]
    rw [hrun]
    exact ⟨hc, rfl⟩
  | verify reply =>
    obtain ⟨h1, h2⟩ := verifyConnection_frame c reply
    exact ⟨h1.trans hc, h2⟩
  | retries replies =>
    obtain ⟨h1, h2, _⟩ := initializeWithRetries_keeps env replies c h hc hk
    exact ⟨h1, h2⟩

/-! ## Lemmas on the page bootstrapper -/

theorem initializeAppRouting_eq_specifiedAction (lower : String → String)
    (authenticated : Bool) (path : String) (orgData : Option OrgData) :
    initializeAppRouting lower authenticated path orgData =
      specifiedAction lower authenticated path orgData := by
  unfold initializeAppRouting specifiedAction isLoginOrResetPage isRootPage
  cases authenticated <;>
  cases h1 : path == PathConfig.LOGIN <;>
  cases h2 : path == "/" ++ PathConfig.LOGIN <;>
  cases h3 : path == PathConfig.RESET_PASSWORD_PAGE <;>
  cases h4 : path == "/" ++ PathConfig.RESET_PASSWORD_PAGE <;>
  cases h5 : path == "/" <;>
  cases h6 : path == "/index.html" <;>
  cases h7 : checkPageAccess lower path orgData <;>
  simp

theorem initializeApp_eq (lower : String → String) (env : AppEnv)
    (hs : env.systemEvents = true) (hp : env.pathConfig = true)
    (hc : env.supabaseClient = true) :
    initializeApp lower env =
      [.emit SystemEvents.APP_INIT_STARTED, .showLoadingIndicator "Initializing system..."] ++
      (if env.authModule && !env.authInitialized then [AppEffect.authInitialize] else []) ++
      (initializeAppRouting lower env.isAuthenticated env.currentPath env.orgData).effect ::
      completion (initializeAppRouting lower env.isAuthenticated env.currentPath env.orgData)
        env.pageInit := by
  unfold initializeApp AppEnv.isAuthenticated AppEnv.orgData completion
  simp only [hs, hp, hc, Bool.not_true, Bool.false_eq_true, if_false]
  rcases hm : env.authModule with _ | _ <;> rcases hi : env.authInitialized with _ | _ <;>
    rcases hr : initializeAppRouting lower _ env.currentPath _ with href | path <;>
    rcases hpi : env.pageInit with e | u <;>
    simp [hm, hr, AppAction.effect, pageInitializerThrows]

/-! ## Lemmas on subscriptions, joined callers and the published context -/

theorem resolvedWaiters_append (t u : List Effect) :
    resolvedWaiters (t ++ u) = resolvedWaiters t ++ resolvedWaiters u := by
  simp [resolvedWaiters]

theorem runAttempt_fails_waiters (s : AuthState) (gw : Gateway)
    (h : attemptFails gw = true) :
    (runAttempt s gw).1.readyWaiters = s.readyWaiters := by
  rcases hf : gw.clientFunction with _ | _
  · simp only [runAttempt, hf, initCatch_eq]
    rfl
  · rcases hc : gw.client with _ | handle
    · simp only [runAttempt, hf, hc, initCatch_eq]
      rfl
    · rcases ht : gw.subscribeThrows with _ | thrown
      · rcases hs : gw.session with thrown | session
        · simp only [runAttempt, hf, hc, ht, hs, initCatch_eq]
          rfl
        · simp [attemptFails, hf, hc, ht, hs] at h
      · simp only [runAttempt, hf, hc, ht, initCatch_eq]
        rfl

theorem subscriptions_eq (t : List Effect) :
    subscriptions t = (gatewayCalls t).count Effect.onAuthStateChange := by
  unfold subscriptions gatewayCalls
  rw [List.count_filter]
  rfl

theorem initializeAuthModule_subscriptions (s : AuthState) (gw : Gateway)
    (hi : s.authInitializing = false)
    (hinv : (s.authInitialized = false ∧ subscriptions s.trace = 0) ∨
      (s.authInitialized = true ∧ subscriptions s.trace ≤ 1))
    (hg : failsAfterSubscribing gw = false) :
    (initializeAuthModule s gw).1.authInitializing = false ∧
    (((initializeAuthModule s gw).1.authInitialized = false ∧
        subscriptions (initializeAuthModule s gw).1.trace = 0) ∨
      ((initializeAuthModule s gw).1.authInitialized = true ∧
        subscriptions (initializeAuthModule s gw).1.trace ≤ 1)) := by
  rcases hinv with ⟨hn, hs⟩ | ⟨hn, hs⟩
  · have hrun : initializeAuthModule s gw = runAttempt (beginAttempt s) gw := by
      simp [initializeAuthModule, hn, hi]
    have hsub : subscriptions (runAttempt (beginAttempt s) gw).1.trace
        = (attemptCalls gw).count Effect.onAuthStateChange := by
      rw [subscriptions_eq, gatewayCalls_runAttempt, List.count_append,
        ← subscriptions_eq]
      show subscriptions s.trace + _ = _
      rw [hs, Nat.zero_add]
    rw [hrun]
    by_cases hfail : attemptFails gw = true
    · obtain ⟨message, _, h2, h3, _⟩ := runAttempt_of_fails (beginAttempt s) gw hfail
      refine ⟨h3, Or.inl ⟨h2, ?_⟩⟩
      rw [hsub]
      unfold attemptCalls
      unfold failsAfterSubscribing at hg
      unfold attemptFails at hfail
      rcases hf : gw.clientFunction with _ | _
      · simp
      · rcases hc : gw.client with _ | handle
        · simp
        · exfalso
          rcases ht : gw.subscribeThrows with _ | thrown
          · rcases hs' : gw.session with thrown | session
            · simp [hf, hc, ht, hs'] at hg
            · simp [hf, hc, ht, hs'] at hfail
          · simp [hf, hc, ht] at hg
    · have hok := runAttempt_of_succeeds (beginAttempt s) gw (by simpa using hfail)
      refine ⟨hok.2.2, Or.inr ⟨hok.2.1, ?_⟩⟩
      rw [hsub]
      unfold attemptCalls
      split_ifs <;> decide
  · have hready : (initializeAuthModule s gw).1
        = emitEvent s SystemEvents.AUTH_MODULE_READY
            (.ready true s.authCurrentUser s.authUserOrganizationData) := by
      simp [initializeAuthModule, hn]
    rw [hready]
    have hflags : (emitEvent s SystemEvents.AUTH_MODULE_READY
          (.ready true s.authCurrentUser s.authUserOrganizationData)).authInitializing
            = s.authInitializing ∧
        (emitEvent s SystemEvents.AUTH_MODULE_READY
          (.ready true s.authCurrentUser s.authUserOrganizationData)).authInitialized
            = s.authInitialized := by
      unfold emitEvent
      split <;> exact ⟨rfl, rfl⟩
    refine ⟨hflags.1.trans hi, Or.inr ⟨hflags.2.trans hn, ?_⟩⟩
    rw [subscriptions_eq, gatewayCalls_emitEvent, ← subscriptions_eq]
    exact hs

/-- Along a sequence of calls of `initializeAuthModule`, each followed to its end,
none of which fails after it has registered the notification callback, the
callback is registered at most once. -/
theorem subscriptions_at_most_one (s : AuthState) (gws : List Gateway)
    (hn : s.authInitialized = false) (hi : s.authInitializing = false)
    (hs : subscriptions s.trace = 0)
    (hg : ∀ gw ∈ gws, failsAfterSubscribing gw = false) :
    subscriptions (initializeCalls s gws).trace ≤ 1 := by
  have key : ∀ (gws : List Gateway) (s : AuthState),
      s.authInitializing = false →
      ((s.authInitialized = false ∧ subscriptions s.trace = 0) ∨
        (s.authInitialized = true ∧ subscriptions s.trace ≤ 1)) →
      (∀ gw ∈ gws, failsAfterSubscribing gw = false) →
      subscriptions (initializeCalls s gws).trace ≤ 1 := by
    intro gws
    induction gws with
    | nil =>
      intro s _ hinv _
      rcases hinv with ⟨_, h⟩ | ⟨_, h⟩
      · show subscriptions s.trace ≤ 1
        rw [h]; exact Nat.zero_le _
      · exact h
    | cons gw rest ih =>
      intro s hi hinv hg
      obtain ⟨h1, h2⟩ := initializeAuthModule_subscriptions s gw hi hinv
        (hg gw (List.mem_cons_self _ _))
      exact ih (initializeAuthModule s gw).1 h1 h2
        (fun gw' hgw' => hg gw' (List.mem_cons_of_mem _ hgw'))
  exact key gws s hi (Or.inl ⟨hn, hs⟩) hg

theorem emitEvent_user (s : AuthState) (name : String) (detail : Payload) :
    (emitEvent s name detail).authCurrentUser = s.authCurrentUser := by
  unfold emitEvent
  split <;> rfl

theorem handleRedirect_user (lower : String → String) (s : AuthState)
    (user : Option User) (orgData : Option OrgData) :
    (handleRedirect lower s user orgData).1.authCurrentUser = s.authCurrentUser := by
  rcases handleRedirect_state lower s user orgData with h | ⟨href, h⟩ <;> rw [h]
  rfl

theorem fetch_user (s : AuthState) (store : Store) :
    (fetchUserOrganizationRoles s store).1.authCurrentUser = s.authCurrentUser := by
  obtain ⟨od, up, extra, h, _⟩ := fetch_frame s store
  rw [h]
  rfl

theorem fetch_publishes (s : AuthState) (store : Store) :
    (fetchUserOrganizationRoles s store).1.authUserOrganizationData =
      some (fetchUserOrganizationRoles s store).2 := by
  rcases hc : s.authSupabaseClient with _ | handle
  · rw [fetch_without_principal s store (Or.inl hc)]
  · rcases hu : s.authCurrentUser with _ | user
    · rw [fetch_without_principal s store (Or.inr hu)]
    · rcases fetch_cases s store handle user hc hu with
        ⟨_, message, queries, _, he⟩ | ⟨_, _, he⟩ | ⟨_, row, _, he⟩
      · rw [he, fetchCatch_eq]; rfl
      · rw [he]; rfl
      · rw [he]; rfl

theorem authStateHandler_user (lower : String → String) (s : AuthState)
    (event : String) (session : Option Session) (store : Store) :
    (authStateHandler lower s event session store).1.authCurrentUser =
      session.bind (fun x => x.user) := by
  rcases hu : session.bind (fun x => x.user) with _ | user
  · simp only [authStateHandler, hu, emitEvent_user]
    split_ifs <;> rfl
  · simp only [authStateHandler, hu]
    split_ifs
    · split
      · rename_i heq
        have h1 := congrArg (fun p : AuthState × Option String => p.1.authCurrentUser) heq
        simp only [handleRedirect_user, emitEvent_user, fetch_user] at h1
        exact h1.symm
      · rename_i heq
        have h1 := congrArg (fun p : AuthState × Option String => p.1.authCurrentUser) heq
        simp only [handleRedirect_user, emitEvent_user, fetch_user] at h1
        simp only [emitEvent_user]
        exact h1.symm
    · simp only [emitEvent_user, fetch_user]

/-! ## Claims on one-shot listeners -/

namespace EventBus

/-- C21: a handler subscribed through `onEvent` with `once = true` is removed only
after its callback has returned. The one-shot listener `echoOnce`, which emits the
same event from inside its callback, is invoked for the first event and again for
the nested one (no fuel is missing); and a one-shot listener whose callback raises
stays registered, while the other one-shot listener of the dispatch is served and
removed, and is invoked again by the next emit. -/
theorem once_listener_invoked_twice :
    (onEvent (Bus.empty Nat) "e" echoOnce.react true).listeners.map
        (fun l => (l.id, l.name, l.once)) = [(0, "e", true)] ∧
    (emitEvent 3 (onEvent (Bus.empty Nat) "e" echoOnce.react true) "e" 1).overflow = false ∧
    (emitEvent 3 (onEvent (Bus.empty Nat) "e" echoOnce.react true) "e" 1).delivered
      = [(0, 1), (0, 2)] ∧
    (emitEvent 3 (onEvent (onEvent (Bus.empty Nat) "e" (fun _ => [.raise]) true)
        "e" (fun _ => []) true) "e" 1).listeners.map (fun l => l.id) = [0] ∧
    (emitEvent 3 (emitEvent 3 (onEvent (Bus.empty Nat) "e" (fun _ => [.raise]) true) "e" 1)
        "e" 2).delivered = [(0, 1), (0, 2)] := by
  decide

end EventBus

/-! ## Claims on the page bootstrapper -/

/-- C22, as stated, fails: an administrator opens the administrator dashboard, which
`checkPageAccess` allows, and the page initializer throws: `initializeApp` ends in
its `catch` block and `APP_INIT_COMPLETE` is not emitted. -/
theorem init_complete_missing_counterexample :
    checkPageAccess asciiLower "/admin.html" administratorData = true ∧
    initializeApp asciiLower
        (loadedPage "/admin.html" administratorOnDashboard (.error "dashboard failed")) =
      [.emit SystemEvents.APP_INIT_STARTED, .showLoadingIndicator "Initializing system...",
        .initializeCurrentPage "/admin.html",
        .showErrorMessage "Failed to initialize application. Please try refreshing the page.",
        .hideLoadingIndicator] ∧
    SystemEvents.APP_INIT_COMPLETE ∉ appEmitted (initializeApp asciiLower
      (loadedPage "/admin.html" administratorOnDashboard (.error "dashboard failed"))) := by
  decide

/-- C22, amended: with `SystemEvents`, `PathConfig` and a gateway handle present,
`initializeApp` emits `APP_INIT_STARTED`, shows the loading indicator, calls
`authModule.initialize()` when the module is loaded and not initialized, and then
carries out the action of the routing rule for (authenticated, path, roles):
unauthenticated off the login and reset pages redirects to the login page,
unauthenticated on them initializes the page, authenticated on login, reset or root
redirects to the target of `routeUserToDashboard`, authenticated elsewhere
initializes the page when `checkPageAccess` allows and redirects to that target
otherwise. `APP_INIT_COMPLETE` follows exactly when the page initializer did not
throw; when it threw, the error message is shown instead. -/
theorem initializeApp_spec (lower : String → String) (env : AppEnv)
    (hs : env.systemEvents = true) (hp : env.pathConfig = true)
    (hc : env.supabaseClient = true) :
    initializeApp lower env =
      [.emit SystemEvents.APP_INIT_STARTED, .showLoadingIndicator "Initializing system..."] ++
      (if env.authModule && !env.authInitialized then [AppEffect.authInitialize] else []) ++
      (specifiedAction lower env.isAuthenticated env.currentPath env.orgData).effect ::
      completion (specifiedAction lower env.isAuthenticated env.currentPath env.orgData)
        env.pageInit ∧
    (SystemEvents.APP_INIT_COMPLETE ∈ appEmitted (initializeApp lower env) ↔
      pageInitializerThrows
        (specifiedAction lower env.isAuthenticated env.currentPath env.orgData)
        env.pageInit = false) := by
  have h := initializeApp_eq lower env hs hp hc
  rw [initializeAppRouting_eq_specifiedAction] at h
  refine ⟨h, ?_⟩
  rw [h]
  rcases ha : specifiedAction lower env.isAuthenticated env.currentPath env.orgData
    with href | path <;>
  rcases hpi : env.pageInit with e | u <;>
  cases env.authModule <;> cases env.authInitialized <;>
  simp [appEmitted, completion, pageInitializerThrows, AppAction.effect, appCatch] <;>
  decide

theorem initializeApp_spec_witness :
    SystemEvents.APP_INIT_COMPLETE ∈ appEmitted (initializeApp asciiLower
        (loadedPage "/admin.html" administratorOnDashboard (.ok ()))) ↔
      pageInitializerThrows
        (specifiedAction asciiLower
          (loadedPage "/admin.html" administratorOnDashboard (.ok ())).isAuthenticated
          "/admin.html"
          (loadedPage "/admin.html" administratorOnDashboard (.ok ())).orgData)
        (.ok ()) = false :=
  (initializeApp_spec asciiLower (loadedPage "/admin.html" administratorOnDashboard (.ok ()))
    rfl rfl rfl).2

/-- C23, as stated, fails: the wait for `AUTH_MODULE_READY` times out while the auth
module has stored the user of the session and still awaits the roles (the state
at the first suspension point of the role resolution of an attempt). The
bootstrapper reads that user, treats the principal as authenticated and redirects
to the student dashboard; the decision for an unauthenticated principal on that
page is the redirect to the login page. -/
theorem timed_out_wait_routes_signed_in_counterexample :
    (fetchSuspensions (sessionChecked (beginAttempt (AuthState.initial true "/admin.html"))
      (some 1) (some ⟨"u1", "a@b.c"⟩)) administratorStore).head? = some timedOutPage.auth ∧
    timedOutPage.timedOut = true ∧
    initializeApp asciiLower timedOutPage =
      [.emit SystemEvents.APP_INIT_STARTED, .showLoadingIndicator "Initializing system...",
        .authInitialize, .redirect PathConfig.STUDENT_DASHBOARD,
        .emit SystemEvents.APP_INIT_COMPLETE, .hideLoadingIndicator] ∧
    initializeAppRouting asciiLower false timedOutPage.currentPath timedOutPage.orgData =
      .redirect PathConfig.LOGIN ∧
    PathConfig.STUDENT_DASHBOARD ≠ PathConfig.LOGIN := by
  refine ⟨rfl, ?_⟩
  decide

/-- C23, amended: when the wait for `AUTH_MODULE_READY` times out, the bootstrapper
proceeds with the user and the organization data the auth module holds at that
moment: its action is the one of the routing rule for a principal that is
authenticated exactly when the module holds a user, and it is the action for an
unauthenticated principal when the module holds none. -/
theorem timed_out_wait_routes_on_held_state (lower : String → String) (env : AppEnv)
    (hs : env.systemEvents = true) (hp : env.pathConfig = true)
    (hc : env.supabaseClient = true) (ht : env.timedOut = true) :
    initializeApp lower env =
      [.emit SystemEvents.APP_INIT_STARTED, .showLoadingIndicator "Initializing system...",
        .authInitialize] ++
      (initializeAppRouting lower env.auth.authCurrentUser.isSome env.currentPath
        env.auth.authUserOrganizationData).effect ::
      completion (initializeAppRouting lower env.auth.authCurrentUser.isSome env.currentPath
        env.auth.authUserOrganizationData) env.pageInit ∧
    (env.auth.authCurrentUser = none →
      ∀ orgData, initializeAppRouting lower env.auth.authCurrentUser.isSome env.currentPath
        env.auth.authUserOrganizationData =
          initializeAppRouting lower false env.currentPath orgData) := by
  have h := initializeApp_eq lower env hs hp hc
  simp only [AppEnv.timedOut, Bool.and_eq_true, Bool.not_eq_true'] at ht
  obtain ⟨⟨hm, hi⟩, _⟩ := ht
  refine ⟨?_, ?_⟩
  · rw [h]
    simp [AppEnv.isAuthenticated, AppEnv.orgData, hm, hi]
  · intro hu orgData
    rw [hu]
    simp [initializeAppRouting]

theorem timed_out_wait_routes_on_held_state_witness :
    initializeApp asciiLower timedOutPage =
      [.emit SystemEvents.APP_INIT_STARTED, .showLoadingIndicator "Initializing system...",
        .authInitialize] ++
      (initializeAppRouting asciiLower timedOutPage.auth.authCurrentUser.isSome
        timedOutPage.currentPath timedOutPage.auth.authUserOrganizationData).effect ::
      completion (initializeAppRouting asciiLower timedOutPage.auth.authCurrentUser.isSome
        timedOutPage.currentPath timedOutPage.auth.authUserOrganizationData)
        timedOutPage.pageInit :=
  (timed_out_wait_routes_on_held_state asciiLower timedOutPage rfl rfl rfl rfl).1

/-! ## Lemmas on the notification handler between its suspension points -/

theorem authStateHandler_of_user (lower : String → String) (s : AuthState)
    (event : String) (session : Option Session) (store : Store) (user : User)
    (hu : session.bind (fun x => x.user) = some user) :
    authStateHandler lower s event session store =
      handlerAfterFetch lower
        (fetchUserOrganizationRoles { s with authCurrentUser := some user } store).1 event := by
  simp only [authStateHandler, hu, handlerAfterFetch]

theorem handlerAlone_eq (lower : String → String) (s : AuthState) (event : String)
    (session : Option Session) (store : Store) :
    handlerAlone lower s event session store = authStateHandler lower s event session store := by
  rcases hu : session.bind (fun x => x.user) with _ | user
  · simp only [handlerAlone, handlerBegin, authStateHandler, hu]
  · rw [authStateHandler_of_user lower s event session store user hu]
    rcases hc : s.authSupabaseClient with _ | handle
    · simp [handlerAlone, handlerBegin, hu, fetchBegin, fetchUserOrganizationRoles, hc]
    · rcases hm : store.membership user.id with thrown | ⟨orgMember, memberError⟩
      · simp [handlerAlone, handlerBegin, handlerFinish, handlerResume, fetchResume, hu,
          fetchBegin, fetchUserOrganizationRoles, hc, hm]
      · rcases memberError with _ | message
        · rcases orgMember with _ | row
          · simp [handlerAlone, handlerBegin, handlerFinish, handlerResume, fetchResume, hu,
              fetchBegin, fetchUserOrganizationRoles, hc, hm, fetchNoMembershipResumed]
          · by_cases ht : truthyId row.organization_id = true
            · rcases hr : store.memberRoles row.id with thrown | ⟨memberRoles, rolesError⟩
              · simp [handlerAlone, handlerBegin, handlerFinish, handlerResume, fetchResume, hu,
                  fetchBegin, fetchUserOrganizationRoles, hc, hm, ht, hr]
              · rcases rolesError with _ | message
                · simp [handlerAlone, handlerBegin, handlerFinish, handlerResume, fetchResume,
                    hu, fetchBegin, fetchUserOrganizationRoles, hc, hm, ht, hr]
                · simp [handlerAlone, handlerBegin, handlerFinish, handlerResume, fetchResume,
                    hu, fetchBegin, fetchUserOrganizationRoles, hc, hm, ht, hr]
            · simp [handlerAlone, handlerBegin, handlerFinish, handlerResume, fetchResume, hu,
                fetchBegin, fetchUserOrganizationRoles, hc, hm, ht, fetchNoMembershipResumed]
        · simp [handlerAlone, handlerBegin, handlerFinish, handlerResume, fetchResume, hu,
            fetchBegin, fetchUserOrganizationRoles, hc, hm]

theorem handlerAfterFetch_orgData (lower : String → String) (s : AuthState)
    (event : String) :
    (handlerAfterFetch lower s event).1.authUserOrganizationData
      = s.authUserOrganizationData := by
  unfold handlerAfterFetch
  split_ifs
  · dsimp only
    split
    · rename_i heq
      have h1 := congrArg (fun p : AuthState × Option String =>
        p.1.authUserOrganizationData) heq
      simp only [handleRedirect_orgData, emitEvent_orgData] at h1
      exact h1.symm
    · rename_i heq
      have h1 := congrArg (fun p : AuthState × Option String =>
        p.1.authUserOrganizationData) heq
      simp only [handleRedirect_orgData, emitEvent_orgData] at h1
      simp only [emitEvent_orgData]
      exact h1.symm
  · simp only [emitEvent_orgData]

theorem handlerFinish_orgData (lower : String → String) (s : AuthState) (store : Store)
    (event : String) (user : User) (handle : Nat) (current : User)
    (hc : s.authSupabaseClient = some handle) (hu : s.authCurrentUser = some current) :
    (handlerFinish lower s store ⟨event, .membership user.id⟩).1.authUserOrganizationData =
      some (fetchUserOrganizationRoles (withUser s user) store).2 := by
  rcases hm : store.membership user.id with thrown | ⟨orgMember, memberError⟩
  · simp [handlerFinish, handlerResume, fetchResume, fetchUserOrganizationRoles, withUser,
      hc, hm, handlerAfterFetch_orgData, fetchCatch]
  · rcases memberError with _ | message
    · rcases orgMember with _ | row
      · simp [handlerFinish, handlerResume, fetchResume, fetchUserOrganizationRoles, withUser,
          hc, hu, hm, handlerAfterFetch_orgData, fetchNoMembershipResumed, fetchNoMembership]
      · by_cases ht : truthyId row.organization_id = true
        · rcases hr : store.memberRoles row.id with thrown | ⟨memberRoles, rolesError⟩
          · simp [handlerFinish, handlerResume, fetchResume, fetchUserOrganizationRoles,
              withUser, hc, hm, ht, hr, handlerAfterFetch_orgData, fetchCatch]
          · rcases rolesError with _ | message
            · simp [handlerFinish, handlerResume, fetchResume, fetchUserOrganizationRoles,
                withUser, hc, hm, ht, hr, handlerAfterFetch_orgData]
            · simp [handlerFinish, handlerResume, fetchResume, fetchUserOrganizationRoles,
                withUser, hc, hm, ht, hr, handlerAfterFetch_orgData, fetchCatch]
        · simp [handlerFinish, handlerResume, fetchResume, fetchUserOrganizationRoles,
            withUser, hc, hu, hm, ht, handlerAfterFetch_orgData, fetchNoMembershipResumed,
            fetchNoMembership]
    · simp [handlerFinish, handlerResume, fetchResume, fetchUserOrganizationRoles, withUser,
        hc, hm, handlerAfterFetch_orgData, fetchCatch]

/-! ## Claims on the published context -/

/-- C24, as stated, fails. First, the module holds the user `u1` with the
organization data resolved for `u1`, and a notification arrives with a session of
`u2`: at the suspension point of the handler, the awaited membership query, the
current user is `u2` and the organization data is still that of `u1`, which is not
what a resolution for `u2` gives. Second, two runs of the handler overlap: the run
for `u1` is suspended at its membership query, the run for `u2` starts and ends
(publishing the context of `u2`, who has no membership), and then the run for `u1`
resumes and publishes the administrator data of `u1`; when every run has ended the
current user is `u2`, paired with the organization data of `u1`, and `hasRole`
answers that `u2` is an administrator. -/
theorem new_user_with_previous_organization_counterexample :
    administratorSignedIn.authCurrentUser = some ⟨"u1", "a@b.c"⟩ ∧
    administratorSignedIn.authUserOrganizationData = administratorData ∧
    (handlerSuspensions administratorSignedIn otherSession perUserStore).map
        (fun st => (st.authCurrentUser, st.authUserOrganizationData)) =
      [(some ⟨"u2", "c@d.e"⟩, administratorData)] ∧
    (fetchUserOrganizationRoles (withUser administratorSignedIn ⟨"u2", "c@d.e"⟩)
        perUserStore).2 = ⟨none, some [], none⟩ ∧
    administratorData ≠ some ⟨none, some [], none⟩ ∧
    (handlerBegin asciiLower (onPage "/admin.html") "SIGNED_IN" someSession).2.1
      = some ⟨"SIGNED_IN", .membership "u1"⟩ ∧
    (secondRunEnded.authCurrentUser, secondRunEnded.authUserOrganizationData)
      = (some ⟨"u2", "c@d.e"⟩, some ⟨none, some [], none⟩) ∧
    (firstRunEnded.authCurrentUser, firstRunEnded.authUserOrganizationData)
      = (some ⟨"u2", "c@d.e"⟩, administratorData) ∧
    hasRole asciiLower firstRunEnded (.str "administrator") = .ok true := by
  refine ⟨by decide, by decide, by decide, by decide, by decide, by decide, by decide,
    by decide, rfl⟩

/-- C24, amended: a run of the notification handler during which nothing else
runs while it is suspended ends with a snapshot: the current user is the user of
the session; without a user the organization data is absent; with a user it is
the object that the role resolution performed for that user returned. In general
(last part) a run resumed in any state that holds a handle and a user publishes
the organization data resolved for the user of its own notification, whoever the
current user is by then. -/
theorem handler_ends_with_snapshot (lower : String → String) (s : AuthState)
    (event : String) (session : Option Session) (store : Store) :
    (handlerAlone lower s event session store).1.authCurrentUser =
      session.bind (fun x => x.user) ∧
    (session.bind (fun x => x.user) = none →
      (handlerAlone lower s event session store).1.authUserOrganizationData = none) ∧
    (∀ user, session.bind (fun x => x.user) = some user →
      (handlerAlone lower s event session store).1.authUserOrganizationData =
        some (fetchUserOrganizationRoles (withUser s user) store).2) ∧
    (∀ (s' : AuthState) (user current : User) (handle : Nat),
      s'.authSupabaseClient = some handle → s'.authCurrentUser = some current →
      (handlerFinish lower s' store ⟨event, .membership user.id⟩).1.authUserOrganizationData =
        some (fetchUserOrganizationRoles (withUser s' user) store).2) := by
  rw [handlerAlone_eq]
  refine ⟨authStateHandler_user lower s event session store, ?_, ?_, ?_⟩
  · intro hu
    rw [authStateHandler_orgData, hu]
  · intro user hu
    rw [authStateHandler_orgData, hu]
    exact fetch_publishes _ store
  · intro s' user current handle hc hu
    exact handlerFinish_orgData lower s' store event user handle current hc hu

theorem handler_ends_with_snapshot_witness :
    (handlerAlone asciiLower administratorSignedIn "SIGNED_IN" otherSession
        perUserStore).1.authCurrentUser = some ⟨"u2", "c@d.e"⟩ ∧
    (handlerAlone asciiLower administratorSignedIn "SIGNED_IN" otherSession
        perUserStore).1.authUserOrganizationData =
      some (fetchUserOrganizationRoles (withUser administratorSignedIn ⟨"u2", "c@d.e"⟩)
        perUserStore).2 ∧
    (handlerFinish asciiLower secondRunEnded perUserStore
        ⟨"SIGNED_IN", .membership "u1"⟩).1.authUserOrganizationData =
      some (fetchUserOrganizationRoles (withUser secondRunEnded ⟨"u1", "a@b.c"⟩)
        perUserStore).2 :=
  ⟨(handler_ends_with_snapshot asciiLower administratorSignedIn "SIGNED_IN" otherSession
      perUserStore).1,
    (handler_ends_with_snapshot asciiLower administratorSignedIn "SIGNED_IN" otherSession
      perUserStore).2.2.1 ⟨"u2", "c@d.e"⟩ rfl,
    (handler_ends_with_snapshot asciiLower administratorSignedIn "SIGNED_IN" otherSession
      perUserStore).2.2.2 secondRunEnded ⟨"u1", "a@b.c"⟩ ⟨"u2", "c@d.e"⟩ 1 rfl rfl⟩

/-! ## Claims on the client module -/

/-- C25, as stated, fails: `getSupabaseClient` returns the handle 0; then
`initializeWithRetries` runs with every connection check failing, and clears
`supabaseClientInstance` after each try (source comment: clear instance to force
re-creation); the next `getSupabaseClient` constructs and returns another handle,
the fourth one constructed. -/
theorem handle_replaced_after_failed_verification_counterexample :
    (getSupabaseClient workingEnv ClientState.initial).2 = some 0 ∧
    (getSupabaseClient workingEnv
      (initializeWithRetries workingEnv (fun _ => false)
        (getSupabaseClient workingEnv ClientState.initial).1).1).2 = some 3 ∧
    (getSupabaseClient workingEnv
      (initializeWithRetries workingEnv (fun _ => false)
        (getSupabaseClient workingEnv ClientState.initial).1).1).1.created = 4 := by
  decide

/-- C25, amended: once `getSupabaseClient` has returned a handle, every later
call returns that same handle and constructs no other, whatever calls of
`getSupabaseClient`, `verifyConnection` and `initializeWithRetries` run in
between, provided every such `initializeWithRetries` finds the connection verified
or has its first connection check succeed (so that it never clears the
instance). -/
theorem getSupabaseClient_memoized (env : ClientEnv) (c : ClientState) (h : Nat)
    (ops : List ClientOp) (hc : c.supabaseClientInstance = some h)
    (hk : allKeep env c ops) :
    (getSupabaseClient env (runClientOps env c ops)).2 = some h ∧
    (getSupabaseClient env (runClientOps env c ops)).1.created = c.created ∧
    (runClientOps env c ops).supabaseClientInstance = some h := by
  induction ops generalizing c with
  | nil =>
    rw [show runClientOps env c [] = c from rfl, getSupabaseClient_of_instance env c h hc]
    exact ⟨rfl, rfl, hc⟩
  | cons op rest ih =>
    obtain ⟨h1, h2⟩ := run_keeps env c op h hc hk.1
    obtain ⟨r1, r2, r3⟩ := ih (op.run env c) h1 hk.2
    exact ⟨r1, r2.trans h2, r3⟩

theorem getSupabaseClient_memoized_witness :
    (getSupabaseClient workingEnv
      (runClientOps workingEnv (getSupabaseClient workingEnv ClientState.initial).1
        [.get, .verify false, .retries (fun _ => true), .get])).2 = some 0 :=
  (getSupabaseClient_memoized workingEnv
    (getSupabaseClient workingEnv ClientState.initial).1 0
    [.get, .verify false, .retries (fun _ => true), .get] rfl
    ⟨rfl, rfl, rfl, rfl, trivial⟩).1

/-! ## Claims on dashboards -/

/-- C26: for a principal on the login page who is both student and committee
member, `handleRedirect` selects the student dashboard, because it tests `student`
before `committee member`, while `routeUserToDashboard` selects the committee
dashboard, the one the precedence administrator > supervisor > committee member >
marker > student gives. -/
theorem redirect_and_route_disagree :
    handleRedirectTarget asciiLower true PathConfig.LOGIN (some ⟨"u1", "a@b.c"⟩)
        studentCommittee = .ok (some (.page PathConfig.STUDENT_DASHBOARD)) ∧
    routeUserToDashboard asciiLower studentCommittee = PathConfig.COMMITTEE_DASHBOARD ∧
    PathConfig.STUDENT_DASHBOARD ≠ PathConfig.COMMITTEE_DASHBOARD := by
  refine ⟨rfl, by decide, by decide⟩

/-- C28: for a principal without roles, and for one whose only role is `guest`,
`routeUserToDashboard` selects the student dashboard, which `checkPageAccess`
denies for that same role list; `initializeApp`, run on that dashboard, redirects
to it again. -/
theorem default_dashboard_denied :
    routeUserToDashboard asciiLower noMembership = PathConfig.STUDENT_DASHBOARD ∧
    checkPageAccess asciiLower (routeUserToDashboard asciiLower noMembership) noMembership
      = false ∧
    initializeAppRouting asciiLower true (routeUserToDashboard asciiLower noMembership)
        noMembership
      = .redirect (routeUserToDashboard asciiLower noMembership) ∧
    checkPageAccess asciiLower
        (routeUserToDashboard asciiLower (some ⟨none, some [⟨9, some "guest"⟩], none⟩))
        (some ⟨none, some [⟨9, some "guest"⟩], none⟩) = false := by
  decide

/-! ## Claims on `attempt` -/

/-- C27: for every `maxRetries ≥ 1` and every `fn`, `attempt(fn, maxRetries)`
terminates (the loop does not run out of fuel) after at most `maxRetries` calls of
`fn`. Either some call number `k < maxRetries` is the first that succeeds, and
`attempt` returns its value after exactly `k + 1` calls; or all `maxRetries` calls
fail, and `attempt` rethrows the error of the last one after exactly `maxRetries`
calls. -/
theorem attempt_spec {σ ε α : Type} (fn : σ → σ × Except ε α) (maxRetries : Nat)
    (h : 1 ≤ maxRetries) (s : σ) :
    (∃ k v, k < maxRetries ∧ (∀ i < k, ∃ e, outcomeAt fn i s = .error e) ∧
        outcomeAt fn k s = .ok v ∧
        attempt fn maxRetries s = some (stateAfter fn (k + 1) s, .ok (some v))) ∨
    (∃ e, (∀ i < maxRetries, ∃ e', outcomeAt fn i s = .error e') ∧
        outcomeAt fn (maxRetries - 1) s = .error e ∧
        attempt fn maxRetries s = some (stateAfter fn maxRetries s, .error e)) :=
  attemptLoop_spec fn maxRetries maxRetries (maxRetries + 1) 0 s (Nat.zero_add _) h
    (Nat.le_succ _)

theorem attempt_spec_witness :
    ((∃ k v, k < 3 ∧ (∀ i < k, ∃ e, outcomeAt thirdTimeLucky i 0 = .error e) ∧
        outcomeAt thirdTimeLucky k 0 = .ok v ∧
        attempt thirdTimeLucky 3 0 = some (stateAfter thirdTimeLucky (k + 1) 0, .ok (some v))) ∨
    (∃ e, (∀ i < 3, ∃ e', outcomeAt thirdTimeLucky i 0 = .error e') ∧
        outcomeAt thirdTimeLucky (3 - 1) 0 = .error e ∧
        attempt thirdTimeLucky 3 0 = some (stateAfter thirdTimeLucky 3 0, .error e))) ∧
    attempt thirdTimeLucky 3 0 = some (3, .ok (some 2)) ∧
    attempt thirdTimeLucky 2 0 = some (2, .error "not yet") :=
  ⟨attempt_spec thirdTimeLucky 3 (by decide) 0, rfl, rfl⟩

/-! ## Claims on failed attempts -/

/-- C29: an initialization attempt that fails emits no `AUTH_MODULE_READY` event:
the only event it emits is `AUTH_ERROR`. The callers that joined while the attempt
was in flight each hold a promise waiting for `AUTH_MODULE_READY`; the end of the
attempt resolves none of them, and they are all still waiting after it. -/
theorem failed_attempt_leaves_joiners_pending (s0 : AuthState) (joiners : List Gateway)
    (gw : Gateway) (h0 : s0.authInitialized = false)
    (hfail : attemptFails gw = true) :
    (initializeCalls (beginAttempt s0) joiners).readyWaiters
      = s0.readyWaiters + joiners.length ∧
    ∃ message,
      emitted (runAttempt (initializeCalls (beginAttempt s0) joiners) gw).1.trace
        = emitted s0.trace ++ [(SystemEvents.AUTH_ERROR, .error "initialization" message)] ∧
      SystemEvents.AUTH_ERROR ≠ SystemEvents.AUTH_MODULE_READY ∧
      resolvedWaiters (runAttempt (initializeCalls (beginAttempt s0) joiners) gw).1.trace
        = resolvedWaiters s0.trace ∧
      (runAttempt (initializeCalls (beginAttempt s0) joiners) gw).1.readyWaiters
        = s0.readyWaiters + joiners.length := by
  have hcalls := initializeCalls_inflight joiners (beginAttempt s0) h0 rfl
  have hw : (initializeCalls (beginAttempt s0) joiners).readyWaiters
      = s0.readyWaiters + joiners.length := by rw [hcalls]; rfl
  have htr : (initializeCalls (beginAttempt s0) joiners).trace = s0.trace := by
    rw [hcalls]; rfl
  obtain ⟨message, _, _, _, h4⟩ :=
    runAttempt_of_fails (initializeCalls (beginAttempt s0) joiners) gw hfail
  have hcalls' : emitted (attemptCalls gw) = [] ∧ resolvedWaiters (attemptCalls gw) = [] := by
    unfold attemptCalls
    split_ifs <;> exact ⟨rfl, rfl⟩
  refine ⟨hw, message, ?_, by decide, ?_, ?_⟩
  · rw [h4, htr, emitted_append, emitted_append, hcalls'.1]
    simp [emitted]
  · rw [h4, htr, resolvedWaiters_append, resolvedWaiters_append, hcalls'.2]
    simp [resolvedWaiters]
  · rw [runAttempt_fails_waiters _ gw hfail, hw]

theorem failed_attempt_leaves_joiners_pending_witness :
    (initializeCalls (beginAttempt (AuthState.initial true "/login.html"))
        [anonymousGateway, anonymousGateway]).readyWaiters = 0 + 2 ∧
    resolvedWaiters (runAttempt (initializeCalls
        (beginAttempt (AuthState.initial true "/login.html"))
        [anonymousGateway, anonymousGateway]) unavailableGateway).1.trace = [] :=
  ⟨(failed_attempt_leaves_joiners_pending (AuthState.initial true "/login.html")
      [anonymousGateway, anonymousGateway] unavailableGateway rfl rfl).1,
    by decide⟩

/-- C30: an attempt that fails at the session check has already registered the
notification callback and leaves it registered; the next call of
`initializeAuthModule` starts a new attempt, which gets the same handle and
registers the callback on it a second time. -/
theorem second_subscription_after_failed_session_check :
    attemptFails sessionFailsGateway = true ∧
    sessionFailsGateway.client = anonymousGateway.client ∧
    subscriptions (initializeCalls (AuthState.initial true "/login.html")
      [sessionFailsGateway, anonymousGateway]).trace = 2 := by
  decide

end Superone
